import Mathlib

/-!
# Decoding of GR2 animation curves (nwn2mdk-lib/gr2.cpp)

A shallow embedding of the curve decoders of gr2.cpp:

* machine integers (uint8_t, uint16_t, int) are natural numbers, with the width of a value
  stated where it matters;
* float arithmetic is an interface, `FloatOps`: the decoders are written once against it, so
  a theorem proved for every `FloatOps` holds whatever the rounding of the machine. Two
  arithmetics instantiate it: `binary32Ops`, IEEE-754 binary32 with round to nearest, ties
  to even, which is what the machine computes, and `exactOps`, where every finite value is
  held exactly and every result that is not a finite number (NaN, infinity) is `none`, for
  the statements the specification makes in real arithmetic;
* a raw pointer into the curve buffer is a function from element offsets to elements, and a
  view records the offsets it reads.
-/

namespace Gr2

/-! ## Float arithmetic -/

/-- The float operations gr2.cpp uses. -/
structure FloatOps (F : Type) where
  /-- The float written as a decimal literal, such as 0.70710677f. -/
  lit : ℚ → F
  /-- The conversion of an integer operand to float. -/
  ofInt : Int → F
  /-- The float whose IEEE-754 binary32 bit pattern is the given 32-bit word (memcpy). -/
  ofBits : Nat → F
  /-- Float addition. -/
  add : F → F → F
  /-- Float subtraction. -/
  sub : F → F → F
  /-- Float multiplication. -/
  mul : F → F → F
  /-- Float division. -/
  div : F → F → F
  /-- Unary minus. -/
  neg : F → F
  /-- The C library function sqrtf. -/
  sqrtf : F → F

/-- Exact arithmetic over an ordered field K: a finite value is `some x`, held without
rounding, and `none` is a result that is not a finite number (NaN or an infinity). Division
by zero and the square root of a negative value are `none`; `root` gives the square root of
a non-negative value. This is the arithmetic of the real numbers, in which statements about
exact values are read; the arithmetic the compiled code runs is `binary32Ops` below. -/
def exactOps (K : Type) [LinearOrderedField K] (root : K → K) : FloatOps (Option K) where
  lit q := some (q : K)
  ofInt n := some (n : K)
  ofBits w :=
    let e : Nat := w / 2 ^ 23 % 256
    let m : Nat := w % 2 ^ 23
    let sgn : K := if w / 2 ^ 31 % 2 = 1 then -1 else 1
    if e = 255 then none
    else if e = 0 then some (sgn * (m : K) / 2 ^ 149)
    else some (sgn * ((2 ^ 23 + m : Nat) : K) * (2 : K) ^ e / 2 ^ 150)
  add x y := match x, y with
    | some u, some v => some (u + v)
    | _, _ => none
  sub x y := match x, y with
    | some u, some v => some (u - v)
    | _, _ => none
  mul x y := match x, y with
    | some u, some v => some (u * v)
    | _, _ => none
  div x y := match x, y with
    | some u, some v => if v = 0 then none else some (u / v)
    | _, _ => none
  neg x := match x with
    | some u => some (-u)
    | none => none
  sqrtf x := match x with
    | some u => if u < 0 then none else some (root u)
    | none => none

/-- A computable square root on the rationals: exact on the square of a rational, rounded
down to a multiple of 1/den otherwise (a lower bound of the root, not the root). -/
def ratSqrt (q : ℚ) : ℚ := (Nat.sqrt (q.num.toNat * q.den) : ℚ) / (q.den : ℚ)

/-- Exact rational arithmetic. -/
def ratOps : FloatOps (Option ℚ) := exactOps ℚ ratSqrt

/-- An IEEE-754 binary32 value. Every finite binary32 value is a whole multiple of 2^-149,
the smallest subnormal: `fin neg n` is the value n * 2^-149, negated when `neg` is set, so
`fin true 0` is -0.0. The magnitudes that occur are the n below 2^24 (the subnormals and the
first binade of normals) and the m * 2^k with 2^23 <= m < 2^24 and k <= 253. `nan` stands
for every NaN, whatever its sign and payload. -/
inductive Binary32 where
  | nan : Binary32
  | inf (neg : Bool) : Binary32
  | fin (neg : Bool) (n : Nat) : Binary32
  deriving DecidableEq

namespace Binary32

/-- The least j, counting up from the start j, with x / 2^(2^j) < 2^24. The first argument
bounds the search; x itself is always enough. -/
def expBits (x : Nat) : Nat → Nat → Nat
  | 0, j => j
  | fuel + 1, j => if x >>> (2 ^ j) < 2 ^ 24 then j else expBits x fuel (j + 1)

/-- The largest e' in [e, e + 2^j) with 2^24 <= x / 2^e', found bit by bit from bit j - 1
down, when there is one. -/
def topBit (x : Nat) : Nat → Nat → Nat
  | 0, e => e
  | j + 1, e => topBit x j (if 2 ^ 24 ≤ x >>> (e + 2 ^ j) then e + 2 ^ j else e)

/-- The number of low bits that x has beyond 24: the least k with x / 2^k < 2^24. -/
def dropBits (x : Nat) : Nat :=
  if x < 2 ^ 24 then 0 else topBit x (expBits x x 0) 0 + 1

/-- The magnitude, in units of 2^-149, nearest to num / den among the magnitudes with a
24-bit significand, the tie going to the even significand: with k bits to drop the
magnitudes near num / den are the multiples of 2^k, and g = den * 2^k is one such step
counted in units of 1 / den. -/
def roundMag (num den : Nat) : Nat :=
  let k := dropBits (num / den)
  let g := den <<< k
  let m := num / g
  let r := num % g
  let m := if 2 * r < g then m else if 2 * r = g ∧ m % 2 = 0 then m else m + 1
  m <<< k

/-- Rounding to nearest, ties to even, of the value num / den * 2^-149 with the sign `neg`:
a magnitude past the largest finite one, (2^24 - 1) * 2^253, is an infinity. -/
def round (neg : Bool) (num den : Nat) : Binary32 :=
  if roundMag num den < 2 ^ 24 * 2 ^ 253 then fin neg (roundMag num den) else inf neg

/-- The value with the given 32-bit pattern: sign bit, 8 bits of biased exponent, 23 bits of
fraction. -/
def ofBits (w : Nat) : Binary32 :=
  let s : Bool := decide (w / 2 ^ 31 % 2 = 1)
  let e : Nat := w / 2 ^ 23 % 256
  let f : Nat := w % 2 ^ 23
  if e = 255 then (if f = 0 then inf s else nan)
  else if e = 0 then fin s f
  else fin s ((2 ^ 23 + f) * 2 ^ (e - 1))

/-- A decimal literal, rounded once. -/
def lit (q : ℚ) : Binary32 := round (decide (q < 0)) (q.num.natAbs * 2 ^ 149) q.den

/-- The conversion of an integer. -/
def ofInt (i : Int) : Binary32 := round (decide (i < 0)) (i.natAbs * 2 ^ 149) 1

/-- Unary minus: the sign flips. -/
def neg : Binary32 → Binary32
  | nan => nan
  | inf s => inf (!s)
  | fin s n => fin (!s) n

/-- Addition: the exact sum, rounded once; an exact zero sum of two different signs is
+0.0. -/
def add : Binary32 → Binary32 → Binary32
  | nan, _ => nan
  | _, nan => nan
  | inf s, inf t => if s = t then inf s else nan
  | inf s, fin _ _ => inf s
  | fin _ _, inf t => inf t
  | fin s m, fin t n =>
    if s = t then round s (m + n) 1
    else if m = n then fin false 0
    else if n < m then round s (m - n) 1
    else round t (n - m) 1

/-- Subtraction. -/
def sub (x y : Binary32) : Binary32 := add x (neg y)

/-- Multiplication: the exact product, rounded once. -/
def mul : Binary32 → Binary32 → Binary32
  | nan, _ => nan
  | _, nan => nan
  | inf s, inf t => inf (xor s t)
  | inf s, fin t n => if n = 0 then nan else inf (xor s t)
  | fin s m, inf t => if m = 0 then nan else inf (xor s t)
  | fin s m, fin t n => round (xor s t) (m * n) (2 ^ 149)

/-- Division: the exact quotient, rounded once. -/
def div : Binary32 → Binary32 → Binary32
  | nan, _ => nan
  | _, nan => nan
  | inf _, inf _ => nan
  | inf s, fin t _ => inf (xor s t)
  | fin s _, inf t => fin (xor s t) 0
  | fin s m, fin t n =>
    if n = 0 then (if m = 0 then nan else inf (xor s t))
    else round (xor s t) (m * 2 ^ 149) n

/-- The square root, rounded once: NaN below zero, and -0.0 at -0.0. With r the integer
square root of n * 2^149, the root of n * 2^-149 lies, in units of 2^-149, at r when r * r
is n * 2^149 and strictly between r and r + 1 otherwise, where it rounds as r + 1/2 does. -/
def sqrtf : Binary32 → Binary32
  | nan => nan
  | inf s => if s then nan else inf false
  | fin s n =>
    if n = 0 then fin s 0
    else if s then nan
    else
      let r := Nat.sqrt (n * 2 ^ 149)
      round false (2 * r + (if r * r = n * 2 ^ 149 then 0 else 1)) 2

/-- The comparison `x <= y` of two floats: false when either is a NaN, and -0.0 and +0.0
compare equal. -/
def le : Binary32 → Binary32 → Bool
  | nan, _ => false
  | _, nan => false
  | inf s, inf t => s || !t
  | inf s, fin _ _ => s
  | fin _ _, inf t => !t
  | fin s m, fin t n =>
    if s then (if t then decide (n ≤ m) else true)
    else (if t then decide (m = 0 ∧ n = 0) else decide (m ≤ n))

/-- The comparison `x < y` of two floats. -/
def lt (x y : Binary32) : Bool := le x y && !(le y x)

/-- The test isfinite: neither an infinity nor a NaN. -/
def isFinite : Binary32 → Bool
  | fin _ _ => true
  | _ => false

/-- The sign bit (signbit); a NaN is given the sign bit 0. -/
def signBit : Binary32 → Bool
  | nan => false
  | inf s => s
  | fin s _ => s

/-- The value of a finite binary32 as a rational number; 0 for what is not finite. -/
def toRat : Binary32 → ℚ
  | fin s n => (if s then -1 else 1) * (n : ℚ) / 2 ^ 149
  | _ => 0

end Binary32

/-- IEEE-754 binary32 arithmetic, every operation rounded once to nearest, ties to even: the
arithmetic of `float` on the machine. -/
def binary32Ops : FloatOps Binary32 where
  lit := Binary32.lit
  ofInt := Binary32.ofInt
  ofBits := Binary32.ofBits
  add := Binary32.add
  sub := Binary32.sub
  mul := Binary32.mul
  div := Binary32.div
  neg := Binary32.neg
  sqrtf := Binary32.sqrtf

/-! ## Vectors and arrays -/

/-- Modelled from the spec: Vector3 of gr2.h, which is not under src/: a fixed-size, ordered,
indexable tuple of three values. -/
structure Vector3 (T : Type) where
  x : T
  y : T
  z : T
  deriving DecidableEq

/-- Modelled from the spec: Vector4 of gr2.h, which is not under src/: a fixed-size, ordered,
indexable tuple of four values. -/
structure Vector4 (T : Type) where
  x : T
  y : T
  z : T
  w : T
  deriving DecidableEq

/-- The write `v[i] = t`. The slots are 0..3; a write to any other index is outside the
vector and leaves it as it is. -/
def Vector4.set {T : Type} (v : Vector4 T) (i : Nat) (t : T) : Vector4 T :=
  match i with
  | 0 => { v with x := t }
  | 1 => { v with y := t }
  | 2 => { v with z := t }
  | 3 => { v with w := t }
  | _ => v

/-- The read `v[i]`, for the slots 0..3. -/
def Vector4.get? {T : Type} (v : Vector4 T) (i : Nat) : Option T :=
  match i with
  | 0 => some v.x
  | 1 => some v.y
  | 2 => some v.z
  | 3 => some v.w
  | _ => none

/-- The read `xs[i]` of a float array. The source indexes raw arrays; a read past the end is
undefined there and gives 0.0 here. -/
def rd {F : Type} (ops : FloatOps F) (xs : List F) (i : Nat) : F := xs.getD i (ops.lit 0)

/-! ## Quantization tables and selectors (gr2.cpp lines 18-45) -/

/-- The table scale_table. -/
def scale_table {F : Type} (ops : FloatOps F) : List F :=
  [ops.lit 1.4142135, ops.lit 0.70710677, ops.lit 0.35355338, ops.lit 0.35355338,
   ops.lit 0.35355338, ops.lit 0.17677669, ops.lit 0.17677669, ops.lit 0.17677669,
   ops.neg (ops.lit 1.4142135), ops.neg (ops.lit 0.70710677), ops.neg (ops.lit 0.35355338),
   ops.neg (ops.lit 0.35355338),
   ops.neg (ops.lit 0.35355338), ops.neg (ops.lit 0.17677669), ops.neg (ops.lit 0.17677669),
   ops.neg (ops.lit 0.17677669)]

/-- The table offset_table. -/
def offset_table {F : Type} (ops : FloatOps F) : List F :=
  [ops.neg (ops.lit 0.70710677), ops.neg (ops.lit 0.35355338), ops.neg (ops.lit 0.53033006),
   ops.neg (ops.lit 0.17677669),
   ops.lit 0.17677669, ops.neg (ops.lit 0.17677669), ops.neg (ops.lit 0.088388346),
   ops.lit 0.0,
   ops.lit 0.70710677, ops.lit 0.35355338, ops.lit 0.53033006, ops.lit 0.17677669,
   ops.neg (ops.lit 0.17677669), ops.lit 0.17677669, ops.lit 0.088388346,
   ops.neg (ops.lit 0.0)]

/-- The function compute_offsets: offsets[i] = offset_table[selectors[i]] for i = 0..3. -/
def compute_offsets {F : Type} (ops : FloatOps F) (selectors : List Nat) : List F :=
  (List.range 4).map (fun i => rd ops (offset_table ops) (selectors.getD i 0))

/-- The function compute_selectors: the four selectors written to selectors[0..3]. -/
def compute_selectors (scale_offset_table_entries : Nat) : List Nat :=
  [(scale_offset_table_entries >>> 0) &&& 0x0F,
   (scale_offset_table_entries >>> 4) &&& 0x0F,
   (scale_offset_table_entries >>> 8) &&& 0x0F,
   (scale_offset_table_entries >>> 12) &&& 0x0F]

/-! ## The quaternion codecs (gr2.cpp lines 47-121) -/

/-- Lines 64-66 and 102-104, `swizzle_n = (swizzle_{n-1} + 1) & 3`. -/
def swizzle_next (swizzle : Nat) : Nat := (swizzle + 1) &&& 3

namespace D4nK16uC15u

/-- Lines 59-61: the swizzle held in bit 15 of b and bit 15 of c. -/
def swizzle1 (b c : Nat) : Nat :=
  let s1a := (b &&& 0x8000) >>> 14
  let s1b := c >>> 15
  s1a ||| s1b

/-- Line 74: the sign flag, `(a & 0x8000) != 0`. -/
def g (a : Nat) : Bool := (a &&& 0x8000) != 0

/-- Lines 68-70: the magnitude `x & 0x7fff`. -/
def magnitude (x : Nat) : Nat := x &&& 0x7fff

end D4nK16uC15u

namespace D4nK8uC7u

/-- Lines 97-99: the swizzle held in bit 7 of b and bit 7 of c. -/
def swizzle1 (b c : Nat) : Nat :=
  let s1a := (b &&& 0x80) >>> 6
  let s1b := (c &&& 0x80) >>> 7
  s1a ||| s1b

/-- Line 112: the sign flag, `(a & 0x80) != 0`. -/
def g (a : Nat) : Bool := (a &&& 0x80) != 0

/-- Lines 106-108: the magnitude `x & 0x7f`. -/
def magnitude (x : Nat) : Nat := x &&& 0x7f

end D4nK8uC7u

/-- The function decode_D4nK16uC15u. `quat` is the default-constructed Vector4 the source
writes the four components into (gr2.h, which decides its content, is not under src/). -/
def decode_D4nK16uC15u {F : Type} (ops : FloatOps F) (quat : Vector4 F) (a b c : Nat)
    (scales offsets : List F) : Vector4 F :=
  let swizzle1 := D4nK16uC15u.swizzle1 b c
  let swizzle2 := swizzle_next swizzle1
  let swizzle3 := swizzle_next swizzle2
  let swizzle4 := swizzle_next swizzle3
  let da := ops.add (ops.mul (ops.ofInt (D4nK16uC15u.magnitude a)) (rd ops scales swizzle2))
    (rd ops offsets swizzle2)
  let db := ops.add (ops.mul (ops.ofInt (D4nK16uC15u.magnitude b)) (rd ops scales swizzle3))
    (rd ops offsets swizzle3)
  let dc := ops.add (ops.mul (ops.ofInt (D4nK16uC15u.magnitude c)) (rd ops scales swizzle4))
    (rd ops offsets swizzle4)
  let dd := ops.sqrtf (ops.sub (ops.ofInt 1)
    (ops.add (ops.add (ops.mul da da) (ops.mul db db)) (ops.mul dc dc)))
  let dd := if D4nK16uC15u.g a then ops.neg dd else dd
  let quat := quat.set swizzle2 da
  let quat := quat.set swizzle3 db
  let quat := quat.set swizzle4 dc
  let quat := quat.set swizzle1 dd
  quat

/-- The function decode_D4nK8uC7u. `quat` is as in `decode_D4nK16uC15u`. -/
def decode_D4nK8uC7u {F : Type} (ops : FloatOps F) (quat : Vector4 F) (a b c : Nat)
    (scales offsets : List F) : Vector4 F :=
  let swizzle1 := D4nK8uC7u.swizzle1 b c
  let swizzle2 := swizzle_next swizzle1
  let swizzle3 := swizzle_next swizzle2
  let swizzle4 := swizzle_next swizzle3
  let da := ops.add (ops.mul (ops.ofInt (D4nK8uC7u.magnitude a)) (rd ops scales swizzle2))
    (rd ops offsets swizzle2)
  let db := ops.add (ops.mul (ops.ofInt (D4nK8uC7u.magnitude b)) (rd ops scales swizzle3))
    (rd ops offsets swizzle3)
  let dc := ops.add (ops.mul (ops.ofInt (D4nK8uC7u.magnitude c)) (rd ops scales swizzle4))
    (rd ops offsets swizzle4)
  let dd := ops.sqrtf (ops.sub (ops.ofInt 1)
    (ops.add (ops.add (ops.mul da da) (ops.mul db db)) (ops.mul dc dc)))
  let dd := if D4nK8uC7u.g a then ops.neg dd else dd
  let quat := quat.set swizzle2 da
  let quat := quat.set swizzle3 db
  let quat := quat.set swizzle4 dc
  let quat := quat.set swizzle1 dd
  quat

/-! ## Loops -/

/-- The loop `for (int i = i0; i < n; i += step) body`, run from the index i in the state s;
`body i s` is the state after the pass at index i. -/
def forLoop {σ : Type} (n step : Nat) (hstep : 0 < step) (body : Nat → σ → σ) (i : Nat)
    (s : σ) : σ :=
  if i < n then forLoop n step hstep body (i + step) (body i s) else s
termination_by n - i
decreasing_by omega

/-- The indices at which `forLoop` runs its body, in order. -/
def forIdx (n step : Nat) (hstep : 0 < step) (i : Nat) : List Nat :=
  if i < n then i :: forIdx n step hstep (i + step) else []
termination_by n - i
decreasing_by omega

/-! ## Curve data (gr2.h) -/

/-- Modelled from the spec: GR2_curve_data_D3K8uC8u of gr2.h, which is not under src/, with
the fields the view reads. `knots_controls_count` is the declared count N, which is not
negative. `knots_controls` is the pointer to the uint8_t elements: it gives the element at
each offset, also past the declared count, as a raw pointer does. -/
structure GR2_curve_data_D3K8uC8u (F : Type) where
  one_over_knot_scale_trunc : Nat
  control_scales : List F
  control_offsets : List F
  knots_controls_count : Nat
  knots_controls : Nat → Nat

/-- Modelled from the spec: GR2_curve_data_D4nK16uC15u of gr2.h, which is not under src/, with
the fields the view reads. `knots_controls` is the pointer to the uint16_t elements. -/
structure GR2_curve_data_D4nK16uC15u (F : Type) where
  scale_offset_table_entries : Nat
  one_over_knot_scale : F
  knots_controls_count : Nat
  knots_controls : Nat → Nat

/-- Modelled from the spec: GR2_curve_data_D4nK8uC7u of gr2.h, which is not under src/, with
the fields the view reads. `knots_controls` is the pointer to the uint8_t elements. -/
structure GR2_curve_data_D4nK8uC7u (F : Type) where
  scale_offset_table_entries : Nat
  one_over_knot_scale : F
  knots_controls_count : Nat
  knots_controls : Nat → Nat

/-! ## The views (gr2.cpp lines 166-313) -/

/-- The members of GR2_D3K8uC8u_view. `reads_` is a ghost member: the offsets into
`knots_controls` the constructor has read, in order. -/
structure GR2_D3K8uC8u_view (F : Type) where
  encoded_knots_ : List Nat
  knots_ : List F
  encoded_controls_ : List (Vector3 Nat)
  controls_ : List (Vector3 F)
  reads_ : List Nat

/-- The members of GR2_D4nK16uC15u_view; `reads_` is the ghost member of
`GR2_D3K8uC8u_view`. -/
structure GR2_D4nK16uC15u_view (F : Type) where
  encoded_knots_ : List Nat
  knots_ : List F
  encoded_controls_ : List (Vector3 Nat)
  controls_ : List (Vector4 F)
  selectors : List Nat
  scales : List F
  offsets : List F
  reads_ : List Nat

/-- The members of GR2_D4nK8uC7u_view; `reads_` is the ghost member of
`GR2_D3K8uC8u_view`. -/
structure GR2_D4nK8uC7u_view (F : Type) where
  encoded_knots_ : List Nat
  knots_ : List F
  encoded_controls_ : List (Vector3 Nat)
  controls_ : List (Vector4 F)
  selectors : List Nat
  scales : List F
  offsets : List F
  reads_ : List Nat

/-- The constructor GR2_D3K8uC8u_view::GR2_D3K8uC8u_view (lines 166-193). -/
def GR2_D3K8uC8u_view.ctor {F : Type} (ops : FloatOps F)
    (data : GR2_curve_data_D3K8uC8u F) : GR2_D3K8uC8u_view F :=
  let knots_count := data.knots_controls_count / 4
  let tmp := (data.one_over_knot_scale_trunc <<< 16) % 2 ^ 32
  let one_over_knot_scale := ops.ofBits tmp
  let view : GR2_D3K8uC8u_view F := ⟨[], [], [], [], []⟩
  let view := forLoop knots_count 1 (by decide) (fun i view =>
    { view with
      encoded_knots_ := view.encoded_knots_ ++ [data.knots_controls i]
      knots_ := view.knots_ ++
        [ops.div (ops.ofInt (data.knots_controls i)) one_over_knot_scale]
      reads_ := view.reads_ ++ [i, i] }) 0 view
  let controls_count := data.knots_controls_count - knots_count
  let controls := fun k => data.knots_controls (knots_count + k)
  forLoop controls_count 3 (by decide) (fun i view =>
    let a := controls (i + 0)
    let b := controls (i + 1)
    let c := controls (i + 2)
    let x := ops.add (ops.mul (ops.ofInt a) (rd ops data.control_scales 0))
      (rd ops data.control_offsets 0)
    let y := ops.add (ops.mul (ops.ofInt b) (rd ops data.control_scales 1))
      (rd ops data.control_offsets 1)
    let z := ops.add (ops.mul (ops.ofInt c) (rd ops data.control_scales 2))
      (rd ops data.control_offsets 2)
    { view with
      encoded_controls_ := view.encoded_controls_ ++ [⟨a, b, c⟩]
      controls_ := view.controls_ ++ [⟨x, y, z⟩]
      reads_ := view.reads_ ++
        [knots_count + (i + 0), knots_count + (i + 1), knots_count + (i + 2)] }) 0 view

/-- The accessor GR2_D3K8uC8u_view::encoded_knots. -/
def GR2_D3K8uC8u_view.encoded_knots {F : Type} (view : GR2_D3K8uC8u_view F) : List Nat :=
  view.encoded_knots_

/-- The accessor GR2_D3K8uC8u_view::knots. -/
def GR2_D3K8uC8u_view.knots {F : Type} (view : GR2_D3K8uC8u_view F) : List F :=
  view.knots_

/-- The accessor GR2_D3K8uC8u_view::encoded_controls. -/
def GR2_D3K8uC8u_view.encoded_controls {F : Type} (view : GR2_D3K8uC8u_view F) :
    List (Vector3 Nat) :=
  view.encoded_controls_

/-- The accessor GR2_D3K8uC8u_view::controls. -/
def GR2_D3K8uC8u_view.controls {F : Type} (view : GR2_D3K8uC8u_view F) :
    List (Vector3 F) :=
  view.controls_

/-- The constructor GR2_D4nK16uC15u_view::GR2_D4nK16uC15u_view (lines 215-242). `quat` is
the default-constructed Vector4 of `decode_D4nK16uC15u`. -/
def GR2_D4nK16uC15u_view.ctor {F : Type} (ops : FloatOps F)
    (quat : Vector4 F) (data : GR2_curve_data_D4nK16uC15u F) : GR2_D4nK16uC15u_view F :=
  let knots_count := data.knots_controls_count / 4
  let view : GR2_D4nK16uC15u_view F := ⟨[], [], [], [], [], [], [], []⟩
  let view := forLoop knots_count 1 (by decide) (fun i view =>
    { view with
      encoded_knots_ := view.encoded_knots_ ++ [data.knots_controls i]
      knots_ := view.knots_ ++
        [ops.div (ops.ofInt (data.knots_controls i)) data.one_over_knot_scale]
      reads_ := view.reads_ ++ [i, i] }) 0 view
  let view := { view with selectors := compute_selectors data.scale_offset_table_entries }
  let view := { view with
    scales := (List.range 4).map (fun i =>
      ops.mul (rd ops (scale_table ops) (view.selectors.getD i 0)) (ops.lit 0.000030518509)) }
  let view := { view with offsets := compute_offsets ops view.selectors }
  let controls := fun k => data.knots_controls (knots_count + k)
  let controls_count := data.knots_controls_count - knots_count
  forLoop controls_count 3 (by decide) (fun i view =>
    let a := controls (i + 0)
    let b := controls (i + 1)
    let c := controls (i + 2)
    { view with
      encoded_controls_ := view.encoded_controls_ ++ [⟨a, b, c⟩]
      controls_ := view.controls_ ++
        [decode_D4nK16uC15u ops quat a b c view.scales view.offsets]
      reads_ := view.reads_ ++
        [knots_count + (i + 0), knots_count + (i + 1), knots_count + (i + 2)] }) 0 view

/-- The accessor GR2_D4nK16uC15u_view::encoded_knots. -/
def GR2_D4nK16uC15u_view.encoded_knots {F : Type} (view : GR2_D4nK16uC15u_view F) :
    List Nat :=
  view.encoded_knots_

/-- The accessor GR2_D4nK16uC15u_view::knots. -/
def GR2_D4nK16uC15u_view.knots {F : Type} (view : GR2_D4nK16uC15u_view F) : List F :=
  view.knots_

/-- The accessor GR2_D4nK16uC15u_view::encoded_controls. -/
def GR2_D4nK16uC15u_view.encoded_controls {F : Type} (view : GR2_D4nK16uC15u_view F) :
    List (Vector3 Nat) :=
  view.encoded_controls_

/-- The accessor GR2_D4nK16uC15u_view::controls. -/
def GR2_D4nK16uC15u_view.controls {F : Type} (view : GR2_D4nK16uC15u_view F) :
    List (Vector4 F) :=
  view.controls_

/-- The constructor GR2_D4nK8uC7u_view::GR2_D4nK8uC7u_view (lines 265-292). `quat` is the
default-constructed Vector4 of `decode_D4nK8uC7u`. -/
def GR2_D4nK8uC7u_view.ctor {F : Type} (ops : FloatOps F)
    (quat : Vector4 F) (data : GR2_curve_data_D4nK8uC7u F) : GR2_D4nK8uC7u_view F :=
  let knots_count := data.knots_controls_count / 4
  let view : GR2_D4nK8uC7u_view F := ⟨[], [], [], [], [], [], [], []⟩
  let view := forLoop knots_count 1 (by decide) (fun i view =>
    { view with
      encoded_knots_ := view.encoded_knots_ ++ [data.knots_controls i]
      knots_ := view.knots_ ++
        [ops.div (ops.ofInt (data.knots_controls i)) data.one_over_knot_scale]
      reads_ := view.reads_ ++ [i, i] }) 0 view
  let view := { view with selectors := compute_selectors data.scale_offset_table_entries }
  let view := { view with
    scales := (List.range 4).map (fun i =>
      ops.mul (rd ops (scale_table ops) (view.selectors.getD i 0)) (ops.lit 0.0078740157)) }
  let view := { view with offsets := compute_offsets ops view.selectors }
  let controls := fun k => data.knots_controls (knots_count + k)
  let controls_count := data.knots_controls_count - knots_count
  forLoop controls_count 3 (by decide) (fun i view =>
    let a := controls (i + 0)
    let b := controls (i + 1)
    let c := controls (i + 2)
    { view with
      encoded_controls_ := view.encoded_controls_ ++ [⟨a, b, c⟩]
      controls_ := view.controls_ ++
        [decode_D4nK8uC7u ops quat a b c view.scales view.offsets]
      reads_ := view.reads_ ++
        [knots_count + (i + 0), knots_count + (i + 1), knots_count + (i + 2)] }) 0 view

/-- The accessor GR2_D4nK8uC7u_view::encoded_knots. -/
def GR2_D4nK8uC7u_view.encoded_knots {F : Type} (view : GR2_D4nK8uC7u_view F) : List Nat :=
  view.encoded_knots_

/-- The accessor GR2_D4nK8uC7u_view::knots. -/
def GR2_D4nK8uC7u_view.knots {F : Type} (view : GR2_D4nK8uC7u_view F) : List F :=
  view.knots_

/-- The accessor GR2_D4nK8uC7u_view::encoded_controls. -/
def GR2_D4nK8uC7u_view.encoded_controls {F : Type} (view : GR2_D4nK8uC7u_view F) :
    List (Vector3 Nat) :=
  view.encoded_controls_

/-- The accessor GR2_D4nK8uC7u_view::controls. -/
def GR2_D4nK8uC7u_view.controls {F : Type} (view : GR2_D4nK8uC7u_view F) :
    List (Vector4 F) :=
  view.controls_

/-- The elements of a list of raw triples, each expanded in the order a, b, c. -/
def flatten3 (xs : List (Vector3 Nat)) : List Nat := xs.flatMap (fun v => [v.x, v.y, v.z])

/-! ## The 8-bit fields seen as 16-bit fields -/

/-- The spec's reading of an 8-bit packed value as a 16-bit one,
`x' = ((x & 0x80) << 8) | (x & 0x7f)`: the flag bit moves to bit 15 and the 7-bit magnitude
stays. It is not in gr2.cpp; the 8-bit codec is compared with the 16-bit codec through it. -/
def widen (x : Nat) : Nat := ((x &&& 0x80) <<< 8) ||| (x &&& 0x7f)

/-! ## Bit fields of the packed values -/

theorem and_two_pow_cases (x k : Nat) :
    x &&& 2 ^ k = (x.testBit k).toNat * 2 ^ k := Nat.and_two_pow x k

theorem testBit_top (x k : Nat) (hx : x < 2 ^ (k + 1)) :
    (x.testBit k).toNat = x / 2 ^ k := by
  have h : x / 2 ^ k < 2 := by
    rw [Nat.div_lt_iff_lt_mul (Nat.two_pow_pos k)]
    simpa [pow_succ, Nat.mul_comm] using hx
  rw [Nat.testBit_to_div_mod]
  interval_cases hv : x / 2 ^ k <;> simp

theorem swizzle1_16_eq (b c : Nat) (hc : c < 65536) :
    D4nK16uC15u.swizzle1 b c = 2 * (b.testBit 15).toNat + (c.testBit 15).toNat := by
  have hb := and_two_pow_cases b 15
  have hc2 := testBit_top c 15 (by simpa using hc)
  norm_num at hb hc2
  simp only [D4nK16uC15u.swizzle1, Nat.shiftRight_eq_div_pow]
  norm_num
  rw [hb, ← hc2]
  cases b.testBit 15 <;> cases c.testBit 15 <;> simp

theorem swizzle1_8_eq (b c : Nat) :
    D4nK8uC7u.swizzle1 b c = 2 * (b.testBit 7).toNat + (c.testBit 7).toNat := by
  have hb := and_two_pow_cases b 7
  have hc := and_two_pow_cases c 7
  norm_num at hb hc
  simp only [D4nK8uC7u.swizzle1, Nat.shiftRight_eq_div_pow]
  norm_num
  rw [hb, hc]
  cases b.testBit 7 <;> cases c.testBit 7 <;> simp

theorem g_16_eq (a : Nat) : D4nK16uC15u.g a = a.testBit 15 := by
  have ha := and_two_pow_cases a 15
  norm_num at ha
  simp only [D4nK16uC15u.g]
  rw [ha]
  cases a.testBit 15 <;> simp

theorem g_8_eq (a : Nat) : D4nK8uC7u.g a = a.testBit 7 := by
  have ha := and_two_pow_cases a 7
  norm_num at ha
  simp only [D4nK8uC7u.g]
  rw [ha]
  cases a.testBit 7 <;> simp

theorem magnitude_16_eq (x : Nat) : D4nK16uC15u.magnitude x = x % 32768 := by
  have h := Nat.and_pow_two_sub_one_eq_mod x 15
  norm_num at h
  simpa [D4nK16uC15u.magnitude] using h

theorem magnitude_8_eq (x : Nat) : D4nK8uC7u.magnitude x = x % 128 := by
  have h := Nat.and_pow_two_sub_one_eq_mod x 7
  norm_num at h
  simpa [D4nK8uC7u.magnitude] using h

theorem swizzle1_16_lt (b c : Nat) (hc : c < 65536) : D4nK16uC15u.swizzle1 b c < 4 := by
  rw [swizzle1_16_eq b c hc]
  cases b.testBit 15 <;> cases c.testBit 15 <;> simp

theorem swizzle1_8_lt (b c : Nat) : D4nK8uC7u.swizzle1 b c < 4 := by
  rw [swizzle1_8_eq b c]
  cases b.testBit 7 <;> cases c.testBit 7 <;> simp

theorem swizzle_next_lt (s : Nat) : swizzle_next s < 4 := by
  have h := Nat.and_pow_two_sub_one_eq_mod (s + 1) 2
  norm_num at h
  simp only [swizzle_next, h]
  omega

theorem swizzle_next_eq (s : Nat) : swizzle_next s = (s + 1) % 4 := by
  have h := Nat.and_pow_two_sub_one_eq_mod (s + 1) 2
  norm_num at h
  simp only [swizzle_next, h]

/-! ## What a loop leaves in a member -/

theorem forLoop_proj {σ β γ : Type} (n step : Nat) (hstep : 0 < step)
    (body : Nat → σ → σ) (q : σ → γ) (p : σ → List β) (f : γ → Nat → List β)
    (hq : ∀ i s, q (body i s) = q s) (hp : ∀ i s, p (body i s) = p s ++ f (q s) i) :
    ∀ (m i : Nat) (s : σ), n - i = m →
      p (forLoop n step hstep body i s) =
        p s ++ (forIdx n step hstep i).flatMap (f (q s)) := by
  intro m
  induction m using Nat.strong_induction_on with
  | _ m ih =>
    intro i s hm
    rw [forLoop, forIdx]
    by_cases h : i < n
    · simp only [h, if_true, List.flatMap_cons]
      rw [ih (n - (i + step)) (by omega) (i + step) (body i s) rfl, hp, hq,
        List.append_assoc]
    · simp [h]

theorem forLoop_keep_from {σ β : Type} (n step : Nat) (hstep : 0 < step)
    (body : Nat → σ → σ) (p : σ → β) (hp : ∀ i s, p (body i s) = p s) :
    ∀ (m i : Nat) (s : σ), n - i = m → p (forLoop n step hstep body i s) = p s := by
  intro m
  induction m using Nat.strong_induction_on with
  | _ m ih =>
    intro i s hm
    rw [forLoop]
    by_cases h : i < n
    · simp only [h, if_true]
      rw [ih (n - (i + step)) (by omega) (i + step) (body i s) rfl, hp]
    · simp [h]

theorem forIdx_one (n : Nat) (h1 : 0 < 1) :
    ∀ (m i : Nat), n - i = m →
      forIdx n 1 h1 i = (List.range (n - i)).map (fun j => i + j) := by
  intro m
  induction m using Nat.strong_induction_on with
  | _ m ih =>
    intro i hm
    rw [forIdx]
    by_cases h : i < n
    · simp only [h, if_true]
      rw [ih (n - (i + 1)) (by omega) (i + 1) rfl]
      have e : n - i = (n - (i + 1)) + 1 := by omega
      rw [e, List.range_succ_eq_map]
      simp [Function.comp_def, Nat.add_assoc, Nat.add_comm 1]
    · have e : n - i = 0 := by omega
      simp [h, e]

theorem forIdx_three (n : Nat) (h3 : 0 < 3) :
    ∀ (m i : Nat), n - i = m →
      forIdx n 3 h3 i = (List.range ((n - i + 2) / 3)).map (fun j => i + 3 * j) := by
  intro m
  induction m using Nat.strong_induction_on with
  | _ m ih =>
    intro i hm
    rw [forIdx]
    by_cases h : i < n
    · simp only [h, if_true]
      rw [ih (n - (i + 3)) (by omega) (i + 3) rfl]
      have e : (n - i + 2) / 3 = (n - (i + 3) + 2) / 3 + 1 := by omega
      rw [e, List.range_succ_eq_map]
      simp [Function.comp_def, Nat.mul_add, Nat.add_assoc]
      intro a _
      omega
    · have e : (n - i + 2) / 3 = 0 := by omega
      simp [h, e]

theorem flatMap_single {α β : Type} (l : List α) (g : α → β) :
    l.flatMap (fun i => [g i]) = l.map g := by
  induction l with
  | nil => rfl
  | cons a l ih => simp [ih]

/-- A loop of stride 1 from 0 that appends `f i` to a member at each pass. -/
theorem forLoop_one {σ β γ : Type} (n : Nat) (h1 : 0 < 1) (body : Nat → σ → σ)
    (q : σ → γ) (p : σ → List β) (f : γ → Nat → List β) (s : σ)
    (hq : ∀ i s, q (body i s) = q s) (hp : ∀ i s, p (body i s) = p s ++ f (q s) i) :
    p (forLoop n 1 h1 body 0 s) = p s ++ (List.range n).flatMap (f (q s)) := by
  rw [forLoop_proj n 1 h1 body q p f hq hp n 0 s rfl, forIdx_one n h1 n 0 rfl]
  simp

/-- A loop of stride 3 from 0 that appends `f i` to a member at each pass: it makes
(n + 2) / 3 passes, at the indices 0, 3, 6, ... -/
theorem forLoop_three {σ β γ : Type} (n : Nat) (h3 : 0 < 3) (body : Nat → σ → σ)
    (q : σ → γ) (p : σ → List β) (f : γ → Nat → List β) (s : σ)
    (hq : ∀ i s, q (body i s) = q s) (hp : ∀ i s, p (body i s) = p s ++ f (q s) i) :
    p (forLoop n 3 h3 body 0 s) =
      p s ++ (List.range ((n + 2) / 3)).flatMap (fun j => f (q s) (3 * j)) := by
  rw [forLoop_proj n 3 h3 body q p f hq hp n 0 s rfl, forIdx_three n h3 n 0 rfl]
  simp [List.flatMap_map]

/-- A loop leaves a member alone when its body does. -/
theorem forLoop_keep {σ β : Type} (n step : Nat) (hstep : 0 < step) (body : Nat → σ → σ)
    (p : σ → β) (s : σ) (hp : ∀ i s, p (body i s) = p s) :
    p (forLoop n step hstep body 0 s) = p s :=
  forLoop_keep_from n step hstep body p hp n 0 s rfl

/-! ## Exact arithmetic -/

theorem exact_lit (K : Type) [LinearOrderedField K] (root : K → K) (q : ℚ) :
    (exactOps K root).lit q = some (q : K) := rfl

theorem exact_ofInt (K : Type) [LinearOrderedField K] (root : K → K) (n : Int) :
    (exactOps K root).ofInt n = some (n : K) := rfl

theorem exact_add (K : Type) [LinearOrderedField K] (root : K → K) (u v : K) :
    (exactOps K root).add (some u) (some v) = some (u + v) := rfl

theorem exact_sub (K : Type) [LinearOrderedField K] (root : K → K) (u v : K) :
    (exactOps K root).sub (some u) (some v) = some (u - v) := rfl

theorem exact_mul (K : Type) [LinearOrderedField K] (root : K → K) (u v : K) :
    (exactOps K root).mul (some u) (some v) = some (u * v) := rfl

theorem exact_div (K : Type) [LinearOrderedField K] (root : K → K) (u v : K) :
    (exactOps K root).div (some u) (some v) = if v = 0 then none else some (u / v) := rfl

theorem exact_neg (K : Type) [LinearOrderedField K] (root : K → K) (u : K) :
    (exactOps K root).neg (some u) = some (-u) := rfl

theorem exact_sqrtf (K : Type) [LinearOrderedField K] (root : K → K) (u : K) :
    (exactOps K root).sqrtf (some u) = if u < 0 then none else some (root u) := rfl

theorem exact_ofBits_one (K : Type) [LinearOrderedField K] (root : K → K) :
    (exactOps K root).ofBits 0x3F800000 = some 1 := by
  simp only [exactOps]
  norm_num

/-! ## The slots the codecs write -/

/-- The slots decode_D4nK16uC15u writes and what it writes there. -/
theorem decode16_slots {F : Type} (ops : FloatOps F) (quat : Vector4 F)
    (a b c : Nat) (scales offsets : List F) (hc : c < 65536) :
    let swizzle1 := D4nK16uC15u.swizzle1 b c
    let swizzle2 := swizzle_next swizzle1
    let swizzle3 := swizzle_next swizzle2
    let swizzle4 := swizzle_next swizzle3
    let da := ops.add (ops.mul (ops.ofInt ((a &&& 0x7fff : Nat) : Int))
      (rd ops scales swizzle2)) (rd ops offsets swizzle2)
    let db := ops.add (ops.mul (ops.ofInt ((b &&& 0x7fff : Nat) : Int))
      (rd ops scales swizzle3)) (rd ops offsets swizzle3)
    let dc := ops.add (ops.mul (ops.ofInt ((c &&& 0x7fff : Nat) : Int))
      (rd ops scales swizzle4)) (rd ops offsets swizzle4)
    let completion := ops.sqrtf (ops.sub (ops.ofInt 1)
      (ops.add (ops.add (ops.mul da da) (ops.mul db db)) (ops.mul dc dc)))
    let dd := if a.testBit 15 then ops.neg completion else completion
    let q := decode_D4nK16uC15u ops quat a b c scales offsets
    q.get? swizzle2 = some da ∧ q.get? swizzle3 = some db ∧ q.get? swizzle4 = some dc ∧
      q.get? swizzle1 = some dd ∧
      (swizzle1 < 4 ∧ swizzle2 < 4 ∧ swizzle3 < 4 ∧ swizzle4 < 4) ∧
      [swizzle1, swizzle2, swizzle3, swizzle4].Nodup ∧
      ∀ quat0 : Vector4 F, decode_D4nK16uC15u ops quat0 a b c scales offsets = q := by
  intro swizzle1 swizzle2 swizzle3 swizzle4 da db dc completion dd q
  have h1 : swizzle1 < 4 := swizzle1_16_lt b c hc
  have hq : ∀ quat0 : Vector4 F, decode_D4nK16uC15u ops quat0 a b c scales offsets =
      (((quat0.set swizzle2 da).set swizzle3 db).set swizzle4 dc).set swizzle1 dd := by
    intro quat0
    simp only [decode_D4nK16uC15u, g_16_eq, D4nK16uC15u.magnitude]
  have hq0 : q = (((quat.set swizzle2 da).set swizzle3 db).set swizzle4 dc).set swizzle1 dd :=
    hq quat
  simp only [hq, hq0]
  have e2 : swizzle2 = (swizzle1 + 1) % 4 := swizzle_next_eq _
  have e3 : swizzle3 = (swizzle2 + 1) % 4 := swizzle_next_eq _
  have e4 : swizzle4 = (swizzle3 + 1) % 4 := swizzle_next_eq _
  clear_value swizzle1 swizzle2 swizzle3 swizzle4 da db dc dd
  clear hq hq0
  subst e4 e3 e2
  interval_cases swizzle1 <;> simp [Vector4.set, Vector4.get?]

/-- The slots decode_D4nK8uC7u writes and what it writes there. -/
theorem decode8_slots {F : Type} (ops : FloatOps F) (quat : Vector4 F)
    (a b c : Nat) (scales offsets : List F) :
    let swizzle1 := D4nK8uC7u.swizzle1 b c
    let swizzle2 := swizzle_next swizzle1
    let swizzle3 := swizzle_next swizzle2
    let swizzle4 := swizzle_next swizzle3
    let da := ops.add (ops.mul (ops.ofInt ((a &&& 0x7f : Nat) : Int))
      (rd ops scales swizzle2)) (rd ops offsets swizzle2)
    let db := ops.add (ops.mul (ops.ofInt ((b &&& 0x7f : Nat) : Int))
      (rd ops scales swizzle3)) (rd ops offsets swizzle3)
    let dc := ops.add (ops.mul (ops.ofInt ((c &&& 0x7f : Nat) : Int))
      (rd ops scales swizzle4)) (rd ops offsets swizzle4)
    let completion := ops.sqrtf (ops.sub (ops.ofInt 1)
      (ops.add (ops.add (ops.mul da da) (ops.mul db db)) (ops.mul dc dc)))
    let dd := if a.testBit 7 then ops.neg completion else completion
    let q := decode_D4nK8uC7u ops quat a b c scales offsets
    q.get? swizzle2 = some da ∧ q.get? swizzle3 = some db ∧ q.get? swizzle4 = some dc ∧
      q.get? swizzle1 = some dd ∧
      (swizzle1 < 4 ∧ swizzle2 < 4 ∧ swizzle3 < 4 ∧ swizzle4 < 4) ∧
      [swizzle1, swizzle2, swizzle3, swizzle4].Nodup ∧
      ∀ quat0 : Vector4 F, decode_D4nK8uC7u ops quat0 a b c scales offsets = q := by
  intro swizzle1 swizzle2 swizzle3 swizzle4 da db dc completion dd q
  have h1 : swizzle1 < 4 := swizzle1_8_lt b c
  have hq : ∀ quat0 : Vector4 F, decode_D4nK8uC7u ops quat0 a b c scales offsets =
      (((quat0.set swizzle2 da).set swizzle3 db).set swizzle4 dc).set swizzle1 dd := by
    intro quat0
    simp only [decode_D4nK8uC7u, g_8_eq, D4nK8uC7u.magnitude]
  have hq0 : q = (((quat.set swizzle2 da).set swizzle3 db).set swizzle4 dc).set swizzle1 dd :=
    hq quat
  simp only [hq, hq0]
  have e2 : swizzle2 = (swizzle1 + 1) % 4 := swizzle_next_eq _
  have e3 : swizzle3 = (swizzle2 + 1) % 4 := swizzle_next_eq _
  have e4 : swizzle4 = (swizzle3 + 1) % 4 := swizzle_next_eq _
  clear_value swizzle1 swizzle2 swizzle3 swizzle4 da db dc dd
  clear hq hq0
  subst e4 e3 e2
  interval_cases swizzle1 <;> simp [Vector4.set, Vector4.get?]

/-! ## C1: the four writes of decode_D4nK16uC15u -/

/-- C1: for every a, b and 16-bit c and every scales and offsets, decode_D4nK16uC15u returns
a quaternion q with q[swizzle2] = da, q[swizzle3] = db, q[swizzle4] = dc and q[swizzle1] = dd,
where da, db, dc are the masked magnitudes scaled and offset by the entries of their slots
and dd is the square-root completion, negated exactly when bit 15 of a is set. The four slots
are in range and pairwise different, so no write overwrites an earlier one, and nothing of
the vector the writes start from is left in the result. -/
theorem decode_D4nK16uC15u_assigns {F : Type} (ops : FloatOps F) (quat : Vector4 F)
    (a b c : Nat) (scales offsets : List F) (hc : c < 65536) :
    let swizzle1 := D4nK16uC15u.swizzle1 b c
    let swizzle2 := swizzle_next swizzle1
    let swizzle3 := swizzle_next swizzle2
    let swizzle4 := swizzle_next swizzle3
    let da := ops.add (ops.mul (ops.ofInt ((a &&& 0x7fff : Nat) : Int))
      (rd ops scales swizzle2)) (rd ops offsets swizzle2)
    let db := ops.add (ops.mul (ops.ofInt ((b &&& 0x7fff : Nat) : Int))
      (rd ops scales swizzle3)) (rd ops offsets swizzle3)
    let dc := ops.add (ops.mul (ops.ofInt ((c &&& 0x7fff : Nat) : Int))
      (rd ops scales swizzle4)) (rd ops offsets swizzle4)
    let completion := ops.sqrtf (ops.sub (ops.ofInt 1)
      (ops.add (ops.add (ops.mul da da) (ops.mul db db)) (ops.mul dc dc)))
    let dd := if a.testBit 15 then ops.neg completion else completion
    let q := decode_D4nK16uC15u ops quat a b c scales offsets
    q.get? swizzle2 = some da ∧ q.get? swizzle3 = some db ∧ q.get? swizzle4 = some dc ∧
      q.get? swizzle1 = some dd ∧
      (swizzle1 < 4 ∧ swizzle2 < 4 ∧ swizzle3 < 4 ∧ swizzle4 < 4) ∧
      [swizzle1, swizzle2, swizzle3, swizzle4].Nodup ∧
      ∀ quat0 : Vector4 F, decode_D4nK16uC15u ops quat0 a b c scales offsets = q :=
  decode16_slots ops quat a b c scales offsets hc

/-- C1 at a = 0x8000, b = 0x8000, c = 0 with unit scales and zero offsets: the swizzle is 2,
the three stored components are 0 and slot 2 holds the completion -1. -/
theorem decode_D4nK16uC15u_assigns_witness :
    (0 : Nat) < 65536 ∧
    Vector4.get? (decode_D4nK16uC15u ratOps ⟨none, none, none, none⟩ 0x8000 0x8000 0
        [some 1, some 1, some 1, some 1] [some 0, some 0, some 0, some 0]) 2
      = some (some (-1)) := by
  have h := decode_D4nK16uC15u_assigns ratOps ⟨none, none, none, none⟩ 0x8000 0x8000 0
    [some 1, some 1, some 1, some 1] [some 0, some 0, some 0, some 0] (by decide)
  have s1 : D4nK16uC15u.swizzle1 0x8000 0 = 2 := by decide
  have s2 : swizzle_next 2 = 3 := by decide
  have s3 : swizzle_next 3 = 0 := by decide
  have s4 : swizzle_next 0 = 1 := by decide
  have hb : Nat.testBit 0x8000 15 = true := by decide
  simp only [s1, s2, s3, s4, hb] at h
  obtain ⟨-, -, -, h1, -⟩ := h
  refine ⟨by decide, ?_⟩
  rw [h1]
  have m1 : (32768 &&& 32767 : Nat) = 0 := by decide
  simp [ratOps, exactOps, ratSqrt, rd, m1]
  norm_num

/-! ## C2: swizzle, sign flag and magnitudes -/

/-- C2: for 16-bit a, b, c and for 8-bit u, v, w, the extracted swizzle1 is
2 * topbit(b) + topbit(c) and is below 4, the sign flag g is the top bit of a, and every
masked magnitude is the value with its top bit cleared: at most 32767 for the 16-bit codec
and at most 127 for the 8-bit codec. -/
theorem packed_fields (a b c u v w : Nat)
    (ha : a < 2 ^ 16) (hb : b < 2 ^ 16) (hc : c < 2 ^ 16)
    (hu : u < 2 ^ 8) (hv : v < 2 ^ 8) (hw : w < 2 ^ 8) :
    (D4nK16uC15u.swizzle1 b c = 2 * (b.testBit 15).toNat + (c.testBit 15).toNat ∧
      D4nK16uC15u.swizzle1 b c < 4 ∧
      D4nK16uC15u.g a = a.testBit 15 ∧
      ∀ x ∈ [a, b, c], D4nK16uC15u.magnitude x ≤ 32767 ∧
        x = D4nK16uC15u.magnitude x + 2 ^ 15 * (x.testBit 15).toNat) ∧
    (D4nK8uC7u.swizzle1 v w = 2 * (v.testBit 7).toNat + (w.testBit 7).toNat ∧
      D4nK8uC7u.swizzle1 v w < 4 ∧
      D4nK8uC7u.g u = u.testBit 7 ∧
      ∀ x ∈ [u, v, w], D4nK8uC7u.magnitude x ≤ 127 ∧
        x = D4nK8uC7u.magnitude x + 2 ^ 7 * (x.testBit 7).toNat) := by
  have hc1 : c < 65536 := by simpa using hc
  have m16 : ∀ x, x < 2 ^ 16 → D4nK16uC15u.magnitude x ≤ 32767 ∧
      x = D4nK16uC15u.magnitude x + 2 ^ 15 * (x.testBit 15).toNat := by
    intro x hx
    have h := testBit_top x 15 hx
    rw [magnitude_16_eq, h]
    norm_num
    omega
  have m8 : ∀ x, x < 2 ^ 8 → D4nK8uC7u.magnitude x ≤ 127 ∧
      x = D4nK8uC7u.magnitude x + 2 ^ 7 * (x.testBit 7).toNat := by
    intro x hx
    have h := testBit_top x 7 hx
    rw [magnitude_8_eq, h]
    norm_num
    omega
  refine ⟨⟨swizzle1_16_eq b c hc1, swizzle1_16_lt b c hc1, g_16_eq a, ?_⟩,
    ⟨swizzle1_8_eq v w, swizzle1_8_lt v w, g_8_eq u, ?_⟩⟩
  · intro x hx
    simp only [List.mem_cons, List.mem_singleton, List.not_mem_nil, or_false] at hx
    rcases hx with rfl | rfl | rfl
    · exact m16 _ ha
    · exact m16 _ hb
    · exact m16 _ hc
  · intro x hx
    simp only [List.mem_cons, List.mem_singleton, List.not_mem_nil, or_false] at hx
    rcases hx with rfl | rfl | rfl
    · exact m8 _ hu
    · exact m8 _ hv
    · exact m8 _ hw

/-- C2 at a = 0x8001, b = 0xFFFF, c = 0x7FFF and u = 0x81, v = 0x7F, w = 0xFF: the 16-bit
swizzle is 2 and the 8-bit swizzle is 1. -/
theorem packed_fields_witness :
    D4nK16uC15u.swizzle1 0xFFFF 0x7FFF = 2 ∧ D4nK16uC15u.g 0x8001 = true ∧
      D4nK16uC15u.magnitude 0xFFFF ≤ 32767 ∧
      D4nK8uC7u.swizzle1 0x7F 0xFF = 1 ∧ D4nK8uC7u.g 0x81 = true ∧
      D4nK8uC7u.magnitude 0xFF ≤ 127 := by
  have h := packed_fields 0x8001 0xFFFF 0x7FFF 0x81 0x7F 0xFF
    (by decide) (by decide) (by decide) (by decide) (by decide) (by decide)
  obtain ⟨⟨h1, -, h3, h4⟩, ⟨k1, -, k3, k4⟩⟩ := h
  refine ⟨?_, ?_, (h4 0xFFFF (by simp)).1, ?_, ?_, (k4 0xFF (by simp)).1⟩
  · rw [h1]; decide
  · rw [h3]; decide
  · rw [k1]; decide
  · rw [k3]; decide

/-! ## C3: the cyclic slot indices -/

/-- C3: for every swizzle1 in 0..3 the derived indices are swizzle2 = (swizzle1 + 1) mod 4,
swizzle3 = (swizzle1 + 2) mod 4 and swizzle4 = (swizzle1 + 3) mod 4, and the four indices
are a permutation of 0, 1, 2, 3. -/
theorem swizzle_cycle (swizzle1 : Nat) (h : swizzle1 < 4) :
    swizzle_next swizzle1 = (swizzle1 + 1) % 4 ∧
    swizzle_next (swizzle_next swizzle1) = (swizzle1 + 2) % 4 ∧
    swizzle_next (swizzle_next (swizzle_next swizzle1)) = (swizzle1 + 3) % 4 ∧
    List.Perm [swizzle1, swizzle_next swizzle1, swizzle_next (swizzle_next swizzle1),
      swizzle_next (swizzle_next (swizzle_next swizzle1))] [0, 1, 2, 3] := by
  interval_cases swizzle1 <;> decide

/-- C3 at swizzle1 = 2: the indices are 2, 3, 0, 1. -/
theorem swizzle_cycle_witness :
    (2 : Nat) < 4 ∧ swizzle_next 2 = 3 ∧ swizzle_next (swizzle_next 2) = 0 ∧
      swizzle_next (swizzle_next (swizzle_next 2)) = 1 :=
  ⟨by decide, (swizzle_cycle 2 (by decide)).1, (swizzle_cycle 2 (by decide)).2.1,
    (swizzle_cycle 2 (by decide)).2.2.1⟩

/-! ## C4: the selectors -/

/-- C4: for every 16-bit mask m, compute_selectors gives four selectors, selectors[i] being
`(m >> 4*i) & 0xF`, the i-th nibble of m; each is below 16, the mask is
selectors[0] + 16*selectors[1] + 256*selectors[2] + 4096*selectors[3], and the selectors of
0x1234 are 4, 3, 2, 1. -/
theorem compute_selectors_nibbles (m : Nat) (hm : m < 65536) :
    (compute_selectors m).length = 4 ∧
    (∀ i, i < 4 → (compute_selectors m).getD i 0 = (m >>> (4 * i)) &&& 0xF ∧
      (compute_selectors m).getD i 0 = m / 16 ^ i % 16) ∧
    (∀ s ∈ compute_selectors m, s < 16) ∧
    (compute_selectors m).getD 0 0 + 16 * (compute_selectors m).getD 1 0 +
      256 * (compute_selectors m).getD 2 0 + 4096 * (compute_selectors m).getD 3 0 = m ∧
    compute_selectors 0x1234 = [4, 3, 2, 1] := by
  have k : ∀ x : Nat, x &&& 15 = x % 16 := by
    intro x
    have h := Nat.and_pow_two_sub_one_eq_mod x 4
    norm_num at h
    exact h
  have e : compute_selectors m = [m % 16, m / 16 % 16, m / 256 % 16, m / 4096 % 16] := by
    simp only [compute_selectors, Nat.shiftRight_eq_div_pow, k]
    norm_num
  refine ⟨by simp [compute_selectors], ?_, ?_, ?_, by decide⟩
  · intro i hi
    rw [e]
    interval_cases i <;> simp [Nat.shiftRight_eq_div_pow, k]
  · intro s hs
    rw [e] at hs
    simp only [List.mem_cons, List.mem_singleton, List.not_mem_nil, or_false] at hs
    omega
  · rw [e]
    simp only [List.getD_cons_zero, List.getD_cons_succ]
    omega

/-- C4 at the mask 0xABCD: the selectors are 13, 12, 11, 10. -/
theorem compute_selectors_nibbles_witness :
    (0xABCD : Nat) < 65536 ∧ (∀ s ∈ compute_selectors 0xABCD, s < 16) ∧
      compute_selectors 0xABCD = [13, 12, 11, 10] :=
  ⟨by decide, (compute_selectors_nibbles 0xABCD (by decide)).2.2.1, by decide⟩

/-! ## The members the constructors build -/

/-- What the constructor of GR2_D3K8uC8u_view leaves in each member. -/
theorem D3K8uC8u_view_fields {F : Type} (ops : FloatOps F) (data : GR2_curve_data_D3K8uC8u F) :
    (GR2_D3K8uC8u_view.ctor ops data).encoded_knots_ =
      (List.range (data.knots_controls_count / 4)).map data.knots_controls ∧
    (GR2_D3K8uC8u_view.ctor ops data).knots_ =
      (List.range (data.knots_controls_count / 4)).map (fun i =>
        ops.div (ops.ofInt (data.knots_controls i))
          (ops.ofBits ((data.one_over_knot_scale_trunc <<< 16) % 2 ^ 32))) ∧
    (GR2_D3K8uC8u_view.ctor ops data).encoded_controls_ =
      (List.range ((data.knots_controls_count - data.knots_controls_count / 4 + 2) / 3)).map
        (fun j => ⟨data.knots_controls (data.knots_controls_count / 4 + (3 * j + 0)),
          data.knots_controls (data.knots_controls_count / 4 + (3 * j + 1)),
          data.knots_controls (data.knots_controls_count / 4 + (3 * j + 2))⟩) ∧
    (GR2_D3K8uC8u_view.ctor ops data).controls_ =
      (List.range ((data.knots_controls_count - data.knots_controls_count / 4 + 2) / 3)).map
        (fun j => ⟨
          ops.add (ops.mul
            (ops.ofInt (data.knots_controls (data.knots_controls_count / 4 + (3 * j + 0))))
            (rd ops data.control_scales 0)) (rd ops data.control_offsets 0),
          ops.add (ops.mul
            (ops.ofInt (data.knots_controls (data.knots_controls_count / 4 + (3 * j + 1))))
            (rd ops data.control_scales 1)) (rd ops data.control_offsets 1),
          ops.add (ops.mul
            (ops.ofInt (data.knots_controls (data.knots_controls_count / 4 + (3 * j + 2))))
            (rd ops data.control_scales 2)) (rd ops data.control_offsets 2)⟩) ∧
    (GR2_D3K8uC8u_view.ctor ops data).reads_ =
      (List.range (data.knots_controls_count / 4)).flatMap (fun i => [i, i]) ++
      (List.range ((data.knots_controls_count - data.knots_controls_count / 4 + 2) / 3)).flatMap
        (fun j => [data.knots_controls_count / 4 + (3 * j + 0),
          data.knots_controls_count / 4 + (3 * j + 1),
          data.knots_controls_count / 4 + (3 * j + 2)]) := by
  simp only [GR2_D3K8uC8u_view.ctor]
  refine ⟨?_, ?_, ?_, ?_, ?_⟩
  · rw [forLoop_keep _ _ _ _ GR2_D3K8uC8u_view.encoded_knots_,
      forLoop_one _ _ _ (fun _ => ()) GR2_D3K8uC8u_view.encoded_knots_
        (fun _ i => [data.knots_controls i])]
    · simp [flatMap_single]
    all_goals exact fun _ _ => rfl
  · rw [forLoop_keep _ _ _ _ GR2_D3K8uC8u_view.knots_,
      forLoop_one _ _ _ (fun _ => ()) GR2_D3K8uC8u_view.knots_
        (fun _ i => [ops.div (ops.ofInt (data.knots_controls i))
          (ops.ofBits ((data.one_over_knot_scale_trunc <<< 16) % 2 ^ 32))])]
    · simp [flatMap_single]
    all_goals exact fun _ _ => rfl
  · rw [forLoop_three _ _ _ (fun _ => ()) GR2_D3K8uC8u_view.encoded_controls_
        (fun _ i => [⟨data.knots_controls (data.knots_controls_count / 4 + (i + 0)),
          data.knots_controls (data.knots_controls_count / 4 + (i + 1)),
          data.knots_controls (data.knots_controls_count / 4 + (i + 2))⟩]),
      forLoop_keep _ _ _ _ GR2_D3K8uC8u_view.encoded_controls_]
    · simp [flatMap_single]
    all_goals exact fun _ _ => rfl
  · rw [forLoop_three _ _ _ (fun _ => ()) GR2_D3K8uC8u_view.controls_
        (fun _ i => [⟨
          ops.add (ops.mul
            (ops.ofInt (data.knots_controls (data.knots_controls_count / 4 + (i + 0))))
            (rd ops data.control_scales 0)) (rd ops data.control_offsets 0),
          ops.add (ops.mul
            (ops.ofInt (data.knots_controls (data.knots_controls_count / 4 + (i + 1))))
            (rd ops data.control_scales 1)) (rd ops data.control_offsets 1),
          ops.add (ops.mul
            (ops.ofInt (data.knots_controls (data.knots_controls_count / 4 + (i + 2))))
            (rd ops data.control_scales 2)) (rd ops data.control_offsets 2)⟩]),
      forLoop_keep _ _ _ _ GR2_D3K8uC8u_view.controls_]
    · simp [flatMap_single]
    all_goals exact fun _ _ => rfl
  · rw [forLoop_three _ _ _ (fun _ => ()) GR2_D3K8uC8u_view.reads_
        (fun _ i => [data.knots_controls_count / 4 + (i + 0),
          data.knots_controls_count / 4 + (i + 1),
          data.knots_controls_count / 4 + (i + 2)]),
      forLoop_one _ _ _ (fun _ => ()) GR2_D3K8uC8u_view.reads_ (fun _ i => [i, i])]
    · simp
    all_goals exact fun _ _ => rfl

/-- What the constructor of GR2_D4nK16uC15u_view leaves in each member. -/
theorem D4nK16uC15u_view_fields {F : Type} (ops : FloatOps F) (quat : Vector4 F)
    (data : GR2_curve_data_D4nK16uC15u F) :
    (GR2_D4nK16uC15u_view.ctor ops quat data).encoded_knots_ =
      (List.range (data.knots_controls_count / 4)).map data.knots_controls ∧
    (GR2_D4nK16uC15u_view.ctor ops quat data).knots_ =
      (List.range (data.knots_controls_count / 4)).map (fun i =>
        ops.div (ops.ofInt (data.knots_controls i)) data.one_over_knot_scale) ∧
    (GR2_D4nK16uC15u_view.ctor ops quat data).encoded_controls_ =
      (List.range ((data.knots_controls_count - data.knots_controls_count / 4 + 2) / 3)).map
        (fun j => ⟨data.knots_controls (data.knots_controls_count / 4 + (3 * j + 0)),
          data.knots_controls (data.knots_controls_count / 4 + (3 * j + 1)),
          data.knots_controls (data.knots_controls_count / 4 + (3 * j + 2))⟩) ∧
    (GR2_D4nK16uC15u_view.ctor ops quat data).controls_ =
      (List.range ((data.knots_controls_count - data.knots_controls_count / 4 + 2) / 3)).map
        (fun j => decode_D4nK16uC15u ops quat
          (data.knots_controls (data.knots_controls_count / 4 + (3 * j + 0)))
          (data.knots_controls (data.knots_controls_count / 4 + (3 * j + 1)))
          (data.knots_controls (data.knots_controls_count / 4 + (3 * j + 2)))
          ((List.range 4).map (fun i => ops.mul
            (rd ops (scale_table ops)
              ((compute_selectors data.scale_offset_table_entries).getD i 0))
            (ops.lit 0.000030518509)))
          (compute_offsets ops (compute_selectors data.scale_offset_table_entries))) ∧
    (GR2_D4nK16uC15u_view.ctor ops quat data).selectors =
      compute_selectors data.scale_offset_table_entries ∧
    (GR2_D4nK16uC15u_view.ctor ops quat data).scales =
      (List.range 4).map (fun i => ops.mul
        (rd ops (scale_table ops)
          ((compute_selectors data.scale_offset_table_entries).getD i 0))
        (ops.lit 0.000030518509)) ∧
    (GR2_D4nK16uC15u_view.ctor ops quat data).offsets =
      compute_offsets ops (compute_selectors data.scale_offset_table_entries) ∧
    (GR2_D4nK16uC15u_view.ctor ops quat data).reads_ =
      (List.range (data.knots_controls_count / 4)).flatMap (fun i => [i, i]) ++
      (List.range ((data.knots_controls_count - data.knots_controls_count / 4 + 2) / 3)).flatMap
        (fun j => [data.knots_controls_count / 4 + (3 * j + 0),
          data.knots_controls_count / 4 + (3 * j + 1),
          data.knots_controls_count / 4 + (3 * j + 2)]) := by
  simp only [GR2_D4nK16uC15u_view.ctor]
  refine ⟨?_, ?_, ?_, ?_, ?_, ?_, ?_, ?_⟩
  · rw [forLoop_keep _ _ _ _ GR2_D4nK16uC15u_view.encoded_knots_]
    · simp only []
      rw [forLoop_one _ _ _ (fun _ => ()) GR2_D4nK16uC15u_view.encoded_knots_
        (fun _ i => [data.knots_controls i])]
      · simp [flatMap_single]
      all_goals exact fun _ _ => rfl
    · exact fun _ _ => rfl
  · rw [forLoop_keep _ _ _ _ GR2_D4nK16uC15u_view.knots_]
    · simp only []
      rw [forLoop_one _ _ _ (fun _ => ()) GR2_D4nK16uC15u_view.knots_
        (fun _ i => [ops.div (ops.ofInt (data.knots_controls i)) data.one_over_knot_scale])]
      · simp [flatMap_single]
      all_goals exact fun _ _ => rfl
    · exact fun _ _ => rfl
  · rw [forLoop_three _ _ _ (fun _ => ()) GR2_D4nK16uC15u_view.encoded_controls_
        (fun _ i => [⟨data.knots_controls (data.knots_controls_count / 4 + (i + 0)),
          data.knots_controls (data.knots_controls_count / 4 + (i + 1)),
          data.knots_controls (data.knots_controls_count / 4 + (i + 2))⟩])]
    · simp only []
      rw [forLoop_keep _ _ _ _ GR2_D4nK16uC15u_view.encoded_controls_]
      · simp [flatMap_single]
      · exact fun _ _ => rfl
    all_goals exact fun _ _ => rfl
  · rw [forLoop_three _ _ _ (fun v => (GR2_D4nK16uC15u_view.scales v, GR2_D4nK16uC15u_view.offsets v))
        GR2_D4nK16uC15u_view.controls_
        (fun so i => [decode_D4nK16uC15u ops quat
          (data.knots_controls (data.knots_controls_count / 4 + (i + 0)))
          (data.knots_controls (data.knots_controls_count / 4 + (i + 1)))
          (data.knots_controls (data.knots_controls_count / 4 + (i + 2))) so.1 so.2])]
    · simp only []
      rw [forLoop_keep _ _ _ _ GR2_D4nK16uC15u_view.controls_]
      · simp [flatMap_single]
      · exact fun _ _ => rfl
    all_goals exact fun _ _ => rfl
  · rw [forLoop_keep _ _ _ _ GR2_D4nK16uC15u_view.selectors]
    exact fun _ _ => rfl
  · rw [forLoop_keep _ _ _ _ GR2_D4nK16uC15u_view.scales]
    exact fun _ _ => rfl
  · rw [forLoop_keep _ _ _ _ GR2_D4nK16uC15u_view.offsets]
    exact fun _ _ => rfl
  · rw [forLoop_three _ _ _ (fun _ => ()) GR2_D4nK16uC15u_view.reads_
        (fun _ i => [data.knots_controls_count / 4 + (i + 0),
          data.knots_controls_count / 4 + (i + 1),
          data.knots_controls_count / 4 + (i + 2)])]
    · simp only []
      rw [forLoop_one _ _ _ (fun _ => ()) GR2_D4nK16uC15u_view.reads_ (fun _ i => [i, i])]
      · simp
      all_goals exact fun _ _ => rfl
    all_goals exact fun _ _ => rfl

/-- What the constructor of GR2_D4nK8uC7u_view leaves in each member. -/
theorem D4nK8uC7u_view_fields {F : Type} (ops : FloatOps F) (quat : Vector4 F)
    (data : GR2_curve_data_D4nK8uC7u F) :
    (GR2_D4nK8uC7u_view.ctor ops quat data).encoded_knots_ =
      (List.range (data.knots_controls_count / 4)).map data.knots_controls ∧
    (GR2_D4nK8uC7u_view.ctor ops quat data).knots_ =
      (List.range (data.knots_controls_count / 4)).map (fun i =>
        ops.div (ops.ofInt (data.knots_controls i)) data.one_over_knot_scale) ∧
    (GR2_D4nK8uC7u_view.ctor ops quat data).encoded_controls_ =
      (List.range ((data.knots_controls_count - data.knots_controls_count / 4 + 2) / 3)).map
        (fun j => ⟨data.knots_controls (data.knots_controls_count / 4 + (3 * j + 0)),
          data.knots_controls (data.knots_controls_count / 4 + (3 * j + 1)),
          data.knots_controls (data.knots_controls_count / 4 + (3 * j + 2))⟩) ∧
    (GR2_D4nK8uC7u_view.ctor ops quat data).controls_ =
      (List.range ((data.knots_controls_count - data.knots_controls_count / 4 + 2) / 3)).map
        (fun j => decode_D4nK8uC7u ops quat
          (data.knots_controls (data.knots_controls_count / 4 + (3 * j + 0)))
          (data.knots_controls (data.knots_controls_count / 4 + (3 * j + 1)))
          (data.knots_controls (data.knots_controls_count / 4 + (3 * j + 2)))
          ((List.range 4).map (fun i => ops.mul
            (rd ops (scale_table ops)
              ((compute_selectors data.scale_offset_table_entries).getD i 0))
            (ops.lit 0.0078740157)))
          (compute_offsets ops (compute_selectors data.scale_offset_table_entries))) ∧
    (GR2_D4nK8uC7u_view.ctor ops quat data).selectors =
      compute_selectors data.scale_offset_table_entries ∧
    (GR2_D4nK8uC7u_view.ctor ops quat data).scales =
      (List.range 4).map (fun i => ops.mul
        (rd ops (scale_table ops)
          ((compute_selectors data.scale_offset_table_entries).getD i 0))
        (ops.lit 0.0078740157)) ∧
    (GR2_D4nK8uC7u_view.ctor ops quat data).offsets =
      compute_offsets ops (compute_selectors data.scale_offset_table_entries) ∧
    (GR2_D4nK8uC7u_view.ctor ops quat data).reads_ =
      (List.range (data.knots_controls_count / 4)).flatMap (fun i => [i, i]) ++
      (List.range ((data.knots_controls_count - data.knots_controls_count / 4 + 2) / 3)).flatMap
        (fun j => [data.knots_controls_count / 4 + (3 * j + 0),
          data.knots_controls_count / 4 + (3 * j + 1),
          data.knots_controls_count / 4 + (3 * j + 2)]) := by
  simp only [GR2_D4nK8uC7u_view.ctor]
  refine ⟨?_, ?_, ?_, ?_, ?_, ?_, ?_, ?_⟩
  · rw [forLoop_keep _ _ _ _ GR2_D4nK8uC7u_view.encoded_knots_]
    · simp only []
      rw [forLoop_one _ _ _ (fun _ => ()) GR2_D4nK8uC7u_view.encoded_knots_
        (fun _ i => [data.knots_controls i])]
      · simp [flatMap_single]
      all_goals exact fun _ _ => rfl
    · exact fun _ _ => rfl
  · rw [forLoop_keep _ _ _ _ GR2_D4nK8uC7u_view.knots_]
    · simp only []
      rw [forLoop_one _ _ _ (fun _ => ()) GR2_D4nK8uC7u_view.knots_
        (fun _ i => [ops.div (ops.ofInt (data.knots_controls i)) data.one_over_knot_scale])]
      · simp [flatMap_single]
      all_goals exact fun _ _ => rfl
    · exact fun _ _ => rfl
  · rw [forLoop_three _ _ _ (fun _ => ()) GR2_D4nK8uC7u_view.encoded_controls_
        (fun _ i => [⟨data.knots_controls (data.knots_controls_count / 4 + (i + 0)),
          data.knots_controls (data.knots_controls_count / 4 + (i + 1)),
          data.knots_controls (data.knots_controls_count / 4 + (i + 2))⟩])]
    · simp only []
      rw [forLoop_keep _ _ _ _ GR2_D4nK8uC7u_view.encoded_controls_]
      · simp [flatMap_single]
      · exact fun _ _ => rfl
    all_goals exact fun _ _ => rfl
  · rw [forLoop_three _ _ _ (fun v => (GR2_D4nK8uC7u_view.scales v, GR2_D4nK8uC7u_view.offsets v))
        GR2_D4nK8uC7u_view.controls_
        (fun so i => [decode_D4nK8uC7u ops quat
          (data.knots_controls (data.knots_controls_count / 4 + (i + 0)))
          (data.knots_controls (data.knots_controls_count / 4 + (i + 1)))
          (data.knots_controls (data.knots_controls_count / 4 + (i + 2))) so.1 so.2])]
    · simp only []
      rw [forLoop_keep _ _ _ _ GR2_D4nK8uC7u_view.controls_]
      · simp [flatMap_single]
      · exact fun _ _ => rfl
    all_goals exact fun _ _ => rfl
  · rw [forLoop_keep _ _ _ _ GR2_D4nK8uC7u_view.selectors]
    exact fun _ _ => rfl
  · rw [forLoop_keep _ _ _ _ GR2_D4nK8uC7u_view.scales]
    exact fun _ _ => rfl
  · rw [forLoop_keep _ _ _ _ GR2_D4nK8uC7u_view.offsets]
    exact fun _ _ => rfl
  · rw [forLoop_three _ _ _ (fun _ => ()) GR2_D4nK8uC7u_view.reads_
        (fun _ i => [data.knots_controls_count / 4 + (i + 0),
          data.knots_controls_count / 4 + (i + 1),
          data.knots_controls_count / 4 + (i + 2)])]
    · simp only []
      rw [forLoop_one _ _ _ (fun _ => ()) GR2_D4nK8uC7u_view.reads_ (fun _ i => [i, i])]
      · simp
      all_goals exact fun _ _ => rfl
    all_goals exact fun _ _ => rfl

/-! ## The square-root completion in exact arithmetic -/

theorem flatten3_append (l : List (Vector3 Nat)) (v : Vector3 Nat) :
    flatten3 (l ++ [v]) = flatten3 l ++ [v.x, v.y, v.z] := by
  simp [flatten3]

theorem flatten3_triples (g : Nat → Nat) (m : Nat) :
    flatten3 ((List.range m).map (fun j => ⟨g (3 * j + 0), g (3 * j + 1), g (3 * j + 2)⟩)) =
      (List.range (3 * m)).map g := by
  induction m with
  | zero => rfl
  | succ m ih =>
    have e : 3 * (m + 1) = 3 * m + 1 + 1 + 1 := by omega
    rw [List.range_succ, List.map_append, List.map_singleton, flatten3_append, ih, e,
      List.range_succ, List.range_succ, List.range_succ]
    simp

/-- The raw members, one after the other, are the elements the passes of the two loops cover:
the offsets below N / 4 + 3 * ((N - N / 4 + 2) / 3). -/
theorem raw_members (buf : Nat → Nat) (N : Nat) :
    (List.range (N / 4)).map buf ++
      flatten3 ((List.range ((N - N / 4 + 2) / 3)).map (fun j =>
        ⟨buf (N / 4 + (3 * j + 0)), buf (N / 4 + (3 * j + 1)), buf (N / 4 + (3 * j + 2))⟩)) =
      (List.range (N / 4 + 3 * ((N - N / 4 + 2) / 3))).map buf := by
  rw [flatten3_triples (fun k => buf (N / 4 + k)), List.range_add]
  simp [Function.comp_def]

theorem layout_lists {α β : Type} (buf : Nat → Nat) (N : Nat) (kf : Nat → α) (cf : Nat → β)
    (h : (N - N / 4) % 3 = 0) :
    ((List.range (N / 4)).map kf).length = N / 4 ∧
    ((List.range (N / 4)).map buf).length = N / 4 ∧
    (∀ i, i < N / 4 → ((List.range (N / 4)).map buf)[i]? = some (buf i)) ∧
    ((List.range ((N - N / 4 + 2) / 3)).map cf).length = (N - N / 4) / 3 ∧
    ((List.range ((N - N / 4 + 2) / 3)).map (fun j => (⟨buf (N / 4 + (3 * j + 0)),
      buf (N / 4 + (3 * j + 1)), buf (N / 4 + (3 * j + 2))⟩ : Vector3 Nat))).length =
        (N - N / 4) / 3 ∧
    (∀ j, j < (N - N / 4) / 3 →
      ((List.range ((N - N / 4 + 2) / 3)).map (fun j => (⟨buf (N / 4 + (3 * j + 0)),
        buf (N / 4 + (3 * j + 1)), buf (N / 4 + (3 * j + 2))⟩ : Vector3 Nat)))[j]? =
        some ⟨buf (N / 4 + 3 * j), buf (N / 4 + 3 * j + 1), buf (N / 4 + 3 * j + 2)⟩) := by
  have e : (N - N / 4 + 2) / 3 = (N - N / 4) / 3 := by omega
  rw [e]
  refine ⟨by simp, by simp, ?_, by simp, by simp, ?_⟩
  · intro i hi
    simp [List.getElem?_range hi]
  · intro j hj
    simp [List.getElem?_range hj, Nat.add_assoc]

/-! ## C6: knots and controls of a well-formed buffer -/

/-- C6: for a buffer of N elements whose control region length N - N/4 is a multiple of 3,
each of the three constructors gives knots() and encoded_knots() of N/4 entries, with
encoded_knots()[i] = buffer[i], and controls() and encoded_controls() of (N - N/4)/3 entries,
with encoded_controls()[j] = (buffer[N/4 + 3j], buffer[N/4 + 3j + 1], buffer[N/4 + 3j + 2]). -/
theorem view_layout {F : Type} (ops : FloatOps F) (quat : Vector4 F)
    (d3 : GR2_curve_data_D3K8uC8u F) (d16 : GR2_curve_data_D4nK16uC15u F)
    (d8 : GR2_curve_data_D4nK8uC7u F)
    (h3 : (d3.knots_controls_count - d3.knots_controls_count / 4) % 3 = 0)
    (h16 : (d16.knots_controls_count - d16.knots_controls_count / 4) % 3 = 0)
    (h8 : (d8.knots_controls_count - d8.knots_controls_count / 4) % 3 = 0) :
    (((GR2_D3K8uC8u_view.ctor ops d3)).knots.length = d3.knots_controls_count / 4 ∧
      ((GR2_D3K8uC8u_view.ctor ops d3)).encoded_knots.length = d3.knots_controls_count / 4 ∧
      (∀ i, i < d3.knots_controls_count / 4 → ((GR2_D3K8uC8u_view.ctor ops d3)).encoded_knots[i]? = some (d3.knots_controls i)) ∧
      ((GR2_D3K8uC8u_view.ctor ops d3)).controls.length = (d3.knots_controls_count - d3.knots_controls_count / 4) / 3 ∧
      ((GR2_D3K8uC8u_view.ctor ops d3)).encoded_controls.length = (d3.knots_controls_count - d3.knots_controls_count / 4) / 3 ∧
      (∀ j, j < (d3.knots_controls_count - d3.knots_controls_count / 4) / 3 →
        ((GR2_D3K8uC8u_view.ctor ops d3)).encoded_controls[j]? =
          some ⟨d3.knots_controls (d3.knots_controls_count / 4 + 3 * j), d3.knots_controls (d3.knots_controls_count / 4 + 3 * j + 1),
            d3.knots_controls (d3.knots_controls_count / 4 + 3 * j + 2)⟩)) ∧
    (((GR2_D4nK16uC15u_view.ctor ops quat d16)).knots.length = d16.knots_controls_count / 4 ∧
      ((GR2_D4nK16uC15u_view.ctor ops quat d16)).encoded_knots.length = d16.knots_controls_count / 4 ∧
      (∀ i, i < d16.knots_controls_count / 4 → ((GR2_D4nK16uC15u_view.ctor ops quat d16)).encoded_knots[i]? = some (d16.knots_controls i)) ∧
      ((GR2_D4nK16uC15u_view.ctor ops quat d16)).controls.length = (d16.knots_controls_count - d16.knots_controls_count / 4) / 3 ∧
      ((GR2_D4nK16uC15u_view.ctor ops quat d16)).encoded_controls.length = (d16.knots_controls_count - d16.knots_controls_count / 4) / 3 ∧
      (∀ j, j < (d16.knots_controls_count - d16.knots_controls_count / 4) / 3 →
        ((GR2_D4nK16uC15u_view.ctor ops quat d16)).encoded_controls[j]? =
          some ⟨d16.knots_controls (d16.knots_controls_count / 4 + 3 * j), d16.knots_controls (d16.knots_controls_count / 4 + 3 * j + 1),
            d16.knots_controls (d16.knots_controls_count / 4 + 3 * j + 2)⟩)) ∧
    (((GR2_D4nK8uC7u_view.ctor ops quat d8)).knots.length = d8.knots_controls_count / 4 ∧
      ((GR2_D4nK8uC7u_view.ctor ops quat d8)).encoded_knots.length = d8.knots_controls_count / 4 ∧
      (∀ i, i < d8.knots_controls_count / 4 → ((GR2_D4nK8uC7u_view.ctor ops quat d8)).encoded_knots[i]? = some (d8.knots_controls i)) ∧
      ((GR2_D4nK8uC7u_view.ctor ops quat d8)).controls.length = (d8.knots_controls_count - d8.knots_controls_count / 4) / 3 ∧
      ((GR2_D4nK8uC7u_view.ctor ops quat d8)).encoded_controls.length = (d8.knots_controls_count - d8.knots_controls_count / 4) / 3 ∧
      (∀ j, j < (d8.knots_controls_count - d8.knots_controls_count / 4) / 3 →
        ((GR2_D4nK8uC7u_view.ctor ops quat d8)).encoded_controls[j]? =
          some ⟨d8.knots_controls (d8.knots_controls_count / 4 + 3 * j), d8.knots_controls (d8.knots_controls_count / 4 + 3 * j + 1),
            d8.knots_controls (d8.knots_controls_count / 4 + 3 * j + 2)⟩)) := by
  refine ⟨?_, ?_, ?_⟩
  · obtain ⟨e1, e2, e3, e4, -⟩ := D3K8uC8u_view_fields ops d3
    simp only [GR2_D3K8uC8u_view.knots, GR2_D3K8uC8u_view.encoded_knots, GR2_D3K8uC8u_view.controls,
      GR2_D3K8uC8u_view.encoded_controls, e1, e2, e3, e4]
    exact layout_lists _ _ _ _ h3
  · obtain ⟨e1, e2, e3, e4, -⟩ := D4nK16uC15u_view_fields ops quat d16
    simp only [GR2_D4nK16uC15u_view.knots, GR2_D4nK16uC15u_view.encoded_knots, GR2_D4nK16uC15u_view.controls,
      GR2_D4nK16uC15u_view.encoded_controls, e1, e2, e3, e4]
    exact layout_lists _ _ _ _ h16
  · obtain ⟨e1, e2, e3, e4, -⟩ := D4nK8uC7u_view_fields ops quat d8
    simp only [GR2_D4nK8uC7u_view.knots, GR2_D4nK8uC7u_view.encoded_knots, GR2_D4nK8uC7u_view.controls,
      GR2_D4nK8uC7u_view.encoded_controls, e1, e2, e3, e4]
    exact layout_lists _ _ _ _ h8

/-- C6 on buffers of 8 elements: two knots and two controls in each view. -/
theorem view_layout_witness :
    (8 - 8 / 4) % 3 = 0 ∧
    (GR2_D3K8uC8u_view.ctor ratOps
        { one_over_knot_scale_trunc := 0x3F80, control_scales := [some 1, some 1, some 1],
          control_offsets := [some 0, some 0, some 0], knots_controls_count := 8,
          knots_controls := fun i => [5, 9, 10, 20, 30, 40, 50, 60].getD i 0 }).controls.length = 2 ∧
    (GR2_D4nK16uC15u_view.ctor ratOps ⟨some 9, some 9, some 9, some 9⟩
        { scale_offset_table_entries := 0, one_over_knot_scale := some 1,
          knots_controls_count := 8, knots_controls := fun i => [5, 9, 10, 20, 30, 40, 50, 60].getD i 0 }).controls.length = 2 ∧
    (GR2_D4nK8uC7u_view.ctor ratOps ⟨some 9, some 9, some 9, some 9⟩
        { scale_offset_table_entries := 0, one_over_knot_scale := some 1,
          knots_controls_count := 8, knots_controls := fun i => [5, 9, 10, 20, 30, 40, 50, 60].getD i 0 }).controls.length = 2 ∧
    (GR2_D3K8uC8u_view.ctor ratOps
        { one_over_knot_scale_trunc := 0x3F80, control_scales := [some 1, some 1, some 1],
          control_offsets := [some 0, some 0, some 0], knots_controls_count := 8,
          knots_controls := fun i => [5, 9, 10, 20, 30, 40, 50, 60].getD i 0 }).encoded_controls[1]? = some ⟨40, 50, 60⟩ := by
  have h := view_layout ratOps ⟨some 9, some 9, some 9, some 9⟩
    { one_over_knot_scale_trunc := 0x3F80, control_scales := [some 1, some 1, some 1],
          control_offsets := [some 0, some 0, some 0], knots_controls_count := 8,
          knots_controls := fun i => [5, 9, 10, 20, 30, 40, 50, 60].getD i 0 }
    { scale_offset_table_entries := 0, one_over_knot_scale := some 1,
          knots_controls_count := 8, knots_controls := fun i => [5, 9, 10, 20, 30, 40, 50, 60].getD i 0 }
    { scale_offset_table_entries := 0, one_over_knot_scale := some 1,
          knots_controls_count := 8, knots_controls := fun i => [5, 9, 10, 20, 30, 40, 50, 60].getD i 0 }
    (by decide) (by decide) (by decide)
  have h1 := h.1.2.2.2.2.2 1 (by decide)
  exact ⟨by decide, h.1.2.2.2.1, h.2.1.2.2.2.1, h.2.2.2.2.2.1, by simpa using h1⟩

/-! ## C7: one knot per control -/

/-- C7, as the code has it: for a buffer whose control region length N - N/4 is a multiple
of 3, knots() and controls() have the same number of elements when N is a multiple of 4 (each
keyframe gives 1 knot and 3 control units); otherwise N is 3 more than a multiple of 4 and
controls() has one more element than knots(). -/
theorem knots_controls_parallel {F : Type} (ops : FloatOps F) (quat : Vector4 F)
    (d3 : GR2_curve_data_D3K8uC8u F) (d16 : GR2_curve_data_D4nK16uC15u F)
    (d8 : GR2_curve_data_D4nK8uC7u F)
    (h3 : (d3.knots_controls_count - d3.knots_controls_count / 4) % 3 = 0)
    (h16 : (d16.knots_controls_count - d16.knots_controls_count / 4) % 3 = 0)
    (h8 : (d8.knots_controls_count - d8.knots_controls_count / 4) % 3 = 0) :
    ((d3.knots_controls_count % 4 = 0 → ((GR2_D3K8uC8u_view.ctor ops d3)).knots.length = ((GR2_D3K8uC8u_view.ctor ops d3)).controls.length) ∧
      (d3.knots_controls_count % 4 ≠ 0 → ((GR2_D3K8uC8u_view.ctor ops d3)).controls.length = ((GR2_D3K8uC8u_view.ctor ops d3)).knots.length + 1)) ∧
    ((d16.knots_controls_count % 4 = 0 → ((GR2_D4nK16uC15u_view.ctor ops quat d16)).knots.length = ((GR2_D4nK16uC15u_view.ctor ops quat d16)).controls.length) ∧
      (d16.knots_controls_count % 4 ≠ 0 → ((GR2_D4nK16uC15u_view.ctor ops quat d16)).controls.length = ((GR2_D4nK16uC15u_view.ctor ops quat d16)).knots.length + 1)) ∧
    ((d8.knots_controls_count % 4 = 0 → ((GR2_D4nK8uC7u_view.ctor ops quat d8)).knots.length = ((GR2_D4nK8uC7u_view.ctor ops quat d8)).controls.length) ∧
      (d8.knots_controls_count % 4 ≠ 0 → ((GR2_D4nK8uC7u_view.ctor ops quat d8)).controls.length = ((GR2_D4nK8uC7u_view.ctor ops quat d8)).knots.length + 1)) := by
  refine ⟨?_, ?_, ?_⟩
  · obtain ⟨-, e2, -, e4, -⟩ := D3K8uC8u_view_fields ops d3
    simp only [GR2_D3K8uC8u_view.knots, GR2_D3K8uC8u_view.controls, e2, e4, List.length_map, List.length_range]
    constructor <;> intro hN <;> omega
  · obtain ⟨-, e2, -, e4, -⟩ := D4nK16uC15u_view_fields ops quat d16
    simp only [GR2_D4nK16uC15u_view.knots, GR2_D4nK16uC15u_view.controls, e2, e4, List.length_map, List.length_range]
    constructor <;> intro hN <;> omega
  · obtain ⟨-, e2, -, e4, -⟩ := D4nK8uC7u_view_fields ops quat d8
    simp only [GR2_D4nK8uC7u_view.knots, GR2_D4nK8uC7u_view.controls, e2, e4, List.length_map, List.length_range]
    constructor <;> intro hN <;> omega

/-- C7 on buffers of 4 elements: one knot and one control in each view. -/
theorem knots_controls_parallel_witness :
    (4 - 4 / 4) % 3 = 0 ∧
    (GR2_D3K8uC8u_view.ctor ratOps
        { one_over_knot_scale_trunc := 0x3F80, control_scales := [some 1, some 1, some 1],
          control_offsets := [some 0, some 0, some 0], knots_controls_count := 4,
          knots_controls := fun i => [5, 10, 20, 30].getD i 0 }).knots.length =
      (GR2_D3K8uC8u_view.ctor ratOps
        { one_over_knot_scale_trunc := 0x3F80, control_scales := [some 1, some 1, some 1],
          control_offsets := [some 0, some 0, some 0], knots_controls_count := 4,
          knots_controls := fun i => [5, 10, 20, 30].getD i 0 }).controls.length ∧
    (GR2_D4nK16uC15u_view.ctor ratOps ⟨some 9, some 9, some 9, some 9⟩
        { scale_offset_table_entries := 0, one_over_knot_scale := some 1,
          knots_controls_count := 4, knots_controls := fun i => [5, 10, 20, 30].getD i 0 }).knots.length =
      (GR2_D4nK16uC15u_view.ctor ratOps ⟨some 9, some 9, some 9, some 9⟩
        { scale_offset_table_entries := 0, one_over_knot_scale := some 1,
          knots_controls_count := 4, knots_controls := fun i => [5, 10, 20, 30].getD i 0 }).controls.length ∧
    (GR2_D4nK8uC7u_view.ctor ratOps ⟨some 9, some 9, some 9, some 9⟩
        { scale_offset_table_entries := 0, one_over_knot_scale := some 1,
          knots_controls_count := 4, knots_controls := fun i => [5, 10, 20, 30].getD i 0 }).knots.length =
      (GR2_D4nK8uC7u_view.ctor ratOps ⟨some 9, some 9, some 9, some 9⟩
        { scale_offset_table_entries := 0, one_over_knot_scale := some 1,
          knots_controls_count := 4, knots_controls := fun i => [5, 10, 20, 30].getD i 0 }).controls.length := by
  have h := knots_controls_parallel ratOps ⟨some 9, some 9, some 9, some 9⟩
    { one_over_knot_scale_trunc := 0x3F80, control_scales := [some 1, some 1, some 1],
          control_offsets := [some 0, some 0, some 0], knots_controls_count := 4,
          knots_controls := fun i => [5, 10, 20, 30].getD i 0 }
    { scale_offset_table_entries := 0, one_over_knot_scale := some 1,
          knots_controls_count := 4, knots_controls := fun i => [5, 10, 20, 30].getD i 0 }
    { scale_offset_table_entries := 0, one_over_knot_scale := some 1,
          knots_controls_count := 4, knots_controls := fun i => [5, 10, 20, 30].getD i 0 }
    (by decide) (by decide) (by decide)
  exact ⟨by decide, h.1.1 (by decide), h.2.1.1 (by decide), h.2.2.1 (by decide)⟩

/-- C7 fails on the code: a buffer of 3 elements has a control region of length
3 - 3/4 = 3, a multiple of 3, and each view decodes it to no knot and one control. -/
theorem knots_controls_parallel_counterexample :
    (3 - 3 / 4) % 3 = 0 ∧
    (GR2_D3K8uC8u_view.ctor ratOps
        { one_over_knot_scale_trunc := 0x3F80, control_scales := [some 1, some 1, some 1],
          control_offsets := [some 0, some 0, some 0], knots_controls_count := 3,
          knots_controls := fun i => [10, 20, 30].getD i 0 }).knots.length = 0 ∧
    (GR2_D3K8uC8u_view.ctor ratOps
        { one_over_knot_scale_trunc := 0x3F80, control_scales := [some 1, some 1, some 1],
          control_offsets := [some 0, some 0, some 0], knots_controls_count := 3,
          knots_controls := fun i => [10, 20, 30].getD i 0 }).controls.length = 1 ∧
    (GR2_D4nK16uC15u_view.ctor ratOps ⟨some 9, some 9, some 9, some 9⟩
        { scale_offset_table_entries := 0, one_over_knot_scale := some 1,
          knots_controls_count := 3, knots_controls := fun i => [10, 20, 30].getD i 0 }).knots.length = 0 ∧
    (GR2_D4nK16uC15u_view.ctor ratOps ⟨some 9, some 9, some 9, some 9⟩
        { scale_offset_table_entries := 0, one_over_knot_scale := some 1,
          knots_controls_count := 3, knots_controls := fun i => [10, 20, 30].getD i 0 }).controls.length = 1 ∧
    (GR2_D4nK8uC7u_view.ctor ratOps ⟨some 9, some 9, some 9, some 9⟩
        { scale_offset_table_entries := 0, one_over_knot_scale := some 1,
          knots_controls_count := 3, knots_controls := fun i => [10, 20, 30].getD i 0 }).knots.length = 0 ∧
    (GR2_D4nK8uC7u_view.ctor ratOps ⟨some 9, some 9, some 9, some 9⟩
        { scale_offset_table_entries := 0, one_over_knot_scale := some 1,
          knots_controls_count := 3, knots_controls := fun i => [10, 20, 30].getD i 0 }).controls.length = 1 := by
  refine ⟨by decide, ?_, ?_, ?_, ?_, ?_, ?_⟩
  · rw [GR2_D3K8uC8u_view.knots, (D3K8uC8u_view_fields _ _).2.1]
    rfl
  · rw [GR2_D3K8uC8u_view.controls, (D3K8uC8u_view_fields _ _).2.2.2.1]
    rfl
  · rw [GR2_D4nK16uC15u_view.knots, (D4nK16uC15u_view_fields _ _ _).2.1]
    rfl
  · rw [GR2_D4nK16uC15u_view.controls, (D4nK16uC15u_view_fields _ _ _).2.2.2.1]
    rfl
  · rw [GR2_D4nK8uC7u_view.knots, (D4nK8uC7u_view_fields _ _ _).2.1]
    rfl
  · rw [GR2_D4nK8uC7u_view.controls, (D4nK8uC7u_view_fields _ _ _).2.2.2.1]
    rfl

/-! ## C8: the raw members give the buffer back -/

/-- C8: for a buffer of N elements whose control region length is a multiple of 3,
encoded_knots() followed by encoded_controls(), each triple expanded in the order a, b, c,
is the list of the N elements of the buffer, in order. -/
theorem raw_round_trip {F : Type} (ops : FloatOps F) (quat : Vector4 F)
    (d3 : GR2_curve_data_D3K8uC8u F) (d16 : GR2_curve_data_D4nK16uC15u F)
    (d8 : GR2_curve_data_D4nK8uC7u F)
    (h3 : (d3.knots_controls_count - d3.knots_controls_count / 4) % 3 = 0)
    (h16 : (d16.knots_controls_count - d16.knots_controls_count / 4) % 3 = 0)
    (h8 : (d8.knots_controls_count - d8.knots_controls_count / 4) % 3 = 0) :
    (((GR2_D3K8uC8u_view.ctor ops d3)).encoded_knots ++ flatten3 ((GR2_D3K8uC8u_view.ctor ops d3)).encoded_controls =
        (List.range d3.knots_controls_count).map d3.knots_controls) ∧
    (((GR2_D4nK16uC15u_view.ctor ops quat d16)).encoded_knots ++ flatten3 ((GR2_D4nK16uC15u_view.ctor ops quat d16)).encoded_controls =
        (List.range d16.knots_controls_count).map d16.knots_controls) ∧
    (((GR2_D4nK8uC7u_view.ctor ops quat d8)).encoded_knots ++ flatten3 ((GR2_D4nK8uC7u_view.ctor ops quat d8)).encoded_controls =
        (List.range d8.knots_controls_count).map d8.knots_controls) := by
  refine ⟨?_, ?_, ?_⟩
  · obtain ⟨e1, -, e3, -⟩ := D3K8uC8u_view_fields ops d3
    have e : d3.knots_controls_count / 4 + 3 * ((d3.knots_controls_count - d3.knots_controls_count / 4 + 2) / 3) = d3.knots_controls_count := by omega
    simp only [GR2_D3K8uC8u_view.encoded_knots, GR2_D3K8uC8u_view.encoded_controls, e1, e3]
    rw [raw_members, e]
  · obtain ⟨e1, -, e3, -⟩ := D4nK16uC15u_view_fields ops quat d16
    have e : d16.knots_controls_count / 4 + 3 * ((d16.knots_controls_count - d16.knots_controls_count / 4 + 2) / 3) = d16.knots_controls_count := by omega
    simp only [GR2_D4nK16uC15u_view.encoded_knots, GR2_D4nK16uC15u_view.encoded_controls, e1, e3]
    rw [raw_members, e]
  · obtain ⟨e1, -, e3, -⟩ := D4nK8uC7u_view_fields ops quat d8
    have e : d8.knots_controls_count / 4 + 3 * ((d8.knots_controls_count - d8.knots_controls_count / 4 + 2) / 3) = d8.knots_controls_count := by omega
    simp only [GR2_D4nK8uC7u_view.encoded_knots, GR2_D4nK8uC7u_view.encoded_controls, e1, e3]
    rw [raw_members, e]

/-- C8 on buffers of 8 elements. -/
theorem raw_round_trip_witness :
    (8 - 8 / 4) % 3 = 0 ∧
    (GR2_D3K8uC8u_view.ctor ratOps
        { one_over_knot_scale_trunc := 0x3F80, control_scales := [some 1, some 1, some 1],
          control_offsets := [some 0, some 0, some 0], knots_controls_count := 8,
          knots_controls := fun i => [5, 9, 10, 20, 30, 40, 50, 60].getD i 0 }).encoded_knots ++
      flatten3 (GR2_D3K8uC8u_view.ctor ratOps
        { one_over_knot_scale_trunc := 0x3F80, control_scales := [some 1, some 1, some 1],
          control_offsets := [some 0, some 0, some 0], knots_controls_count := 8,
          knots_controls := fun i => [5, 9, 10, 20, 30, 40, 50, 60].getD i 0 }).encoded_controls =
      [5, 9, 10, 20, 30, 40, 50, 60] ∧
    (GR2_D4nK16uC15u_view.ctor ratOps ⟨some 9, some 9, some 9, some 9⟩
        { scale_offset_table_entries := 0, one_over_knot_scale := some 1,
          knots_controls_count := 8, knots_controls := fun i => [5, 9, 10, 20, 30, 40, 50, 60].getD i 0 }).encoded_knots ++
      flatten3 (GR2_D4nK16uC15u_view.ctor ratOps ⟨some 9, some 9, some 9, some 9⟩
        { scale_offset_table_entries := 0, one_over_knot_scale := some 1,
          knots_controls_count := 8, knots_controls := fun i => [5, 9, 10, 20, 30, 40, 50, 60].getD i 0 }).encoded_controls =
      [5, 9, 10, 20, 30, 40, 50, 60] ∧
    (GR2_D4nK8uC7u_view.ctor ratOps ⟨some 9, some 9, some 9, some 9⟩
        { scale_offset_table_entries := 0, one_over_knot_scale := some 1,
          knots_controls_count := 8, knots_controls := fun i => [5, 9, 10, 20, 30, 40, 50, 60].getD i 0 }).encoded_knots ++
      flatten3 (GR2_D4nK8uC7u_view.ctor ratOps ⟨some 9, some 9, some 9, some 9⟩
        { scale_offset_table_entries := 0, one_over_knot_scale := some 1,
          knots_controls_count := 8, knots_controls := fun i => [5, 9, 10, 20, 30, 40, 50, 60].getD i 0 }).encoded_controls =
      [5, 9, 10, 20, 30, 40, 50, 60] := by
  have h := raw_round_trip ratOps ⟨some 9, some 9, some 9, some 9⟩
    { one_over_knot_scale_trunc := 0x3F80, control_scales := [some 1, some 1, some 1],
          control_offsets := [some 0, some 0, some 0], knots_controls_count := 8,
          knots_controls := fun i => [5, 9, 10, 20, 30, 40, 50, 60].getD i 0 }
    { scale_offset_table_entries := 0, one_over_knot_scale := some 1,
          knots_controls_count := 8, knots_controls := fun i => [5, 9, 10, 20, 30, 40, 50, 60].getD i 0 }
    { scale_offset_table_entries := 0, one_over_knot_scale := some 1,
          knots_controls_count := 8, knots_controls := fun i => [5, 9, 10, 20, 30, 40, 50, 60].getD i 0 }
    (by decide) (by decide) (by decide)
  exact ⟨by decide, h.1, h.2.1, h.2.2⟩

/-! ## C9: a control region that is not a multiple of 3 -/

/-- C9, as the code has it: for a buffer of N elements whose control region length N - N/4
is not a multiple of 3 no constructor fails, there being no check of the count: the control
loop makes (N - N/4)/3 + 1 passes, so no element of the payload is left out, and the last
pass reads past the buffer: the raw members are the elements at the offsets below
N/4 + 3 * ((N - N/4)/3 + 1), which is above N, and the offset N/4 + 3 * ((N - N/4)/3) + 2,
which is at least N, is read. -/
theorem malformed_count_reads_past_end {F : Type} (ops : FloatOps F) (quat : Vector4 F)
    (d3 : GR2_curve_data_D3K8uC8u F) (d16 : GR2_curve_data_D4nK16uC15u F)
    (d8 : GR2_curve_data_D4nK8uC7u F)
    (h3 : (d3.knots_controls_count - d3.knots_controls_count / 4) % 3 ≠ 0)
    (h16 : (d16.knots_controls_count - d16.knots_controls_count / 4) % 3 ≠ 0)
    (h8 : (d8.knots_controls_count - d8.knots_controls_count / 4) % 3 ≠ 0) :
    (((GR2_D3K8uC8u_view.ctor ops d3)).controls.length = (d3.knots_controls_count - d3.knots_controls_count / 4) / 3 + 1 ∧
      ((GR2_D3K8uC8u_view.ctor ops d3)).encoded_controls.length = (d3.knots_controls_count - d3.knots_controls_count / 4) / 3 + 1 ∧
      ((GR2_D3K8uC8u_view.ctor ops d3)).encoded_knots ++ flatten3 ((GR2_D3K8uC8u_view.ctor ops d3)).encoded_controls =
        (List.range (d3.knots_controls_count / 4 + 3 * ((d3.knots_controls_count - d3.knots_controls_count / 4) / 3 + 1))).map d3.knots_controls ∧
      d3.knots_controls_count < d3.knots_controls_count / 4 + 3 * ((d3.knots_controls_count - d3.knots_controls_count / 4) / 3 + 1) ∧
      d3.knots_controls_count / 4 + 3 * ((d3.knots_controls_count - d3.knots_controls_count / 4) / 3) + 2 ∈ ((GR2_D3K8uC8u_view.ctor ops d3)).reads_ ∧
      d3.knots_controls_count ≤ d3.knots_controls_count / 4 + 3 * ((d3.knots_controls_count - d3.knots_controls_count / 4) / 3) + 2) ∧
    (((GR2_D4nK16uC15u_view.ctor ops quat d16)).controls.length = (d16.knots_controls_count - d16.knots_controls_count / 4) / 3 + 1 ∧
      ((GR2_D4nK16uC15u_view.ctor ops quat d16)).encoded_controls.length = (d16.knots_controls_count - d16.knots_controls_count / 4) / 3 + 1 ∧
      ((GR2_D4nK16uC15u_view.ctor ops quat d16)).encoded_knots ++ flatten3 ((GR2_D4nK16uC15u_view.ctor ops quat d16)).encoded_controls =
        (List.range (d16.knots_controls_count / 4 + 3 * ((d16.knots_controls_count - d16.knots_controls_count / 4) / 3 + 1))).map d16.knots_controls ∧
      d16.knots_controls_count < d16.knots_controls_count / 4 + 3 * ((d16.knots_controls_count - d16.knots_controls_count / 4) / 3 + 1) ∧
      d16.knots_controls_count / 4 + 3 * ((d16.knots_controls_count - d16.knots_controls_count / 4) / 3) + 2 ∈ ((GR2_D4nK16uC15u_view.ctor ops quat d16)).reads_ ∧
      d16.knots_controls_count ≤ d16.knots_controls_count / 4 + 3 * ((d16.knots_controls_count - d16.knots_controls_count / 4) / 3) + 2) ∧
    (((GR2_D4nK8uC7u_view.ctor ops quat d8)).controls.length = (d8.knots_controls_count - d8.knots_controls_count / 4) / 3 + 1 ∧
      ((GR2_D4nK8uC7u_view.ctor ops quat d8)).encoded_controls.length = (d8.knots_controls_count - d8.knots_controls_count / 4) / 3 + 1 ∧
      ((GR2_D4nK8uC7u_view.ctor ops quat d8)).encoded_knots ++ flatten3 ((GR2_D4nK8uC7u_view.ctor ops quat d8)).encoded_controls =
        (List.range (d8.knots_controls_count / 4 + 3 * ((d8.knots_controls_count - d8.knots_controls_count / 4) / 3 + 1))).map d8.knots_controls ∧
      d8.knots_controls_count < d8.knots_controls_count / 4 + 3 * ((d8.knots_controls_count - d8.knots_controls_count / 4) / 3 + 1) ∧
      d8.knots_controls_count / 4 + 3 * ((d8.knots_controls_count - d8.knots_controls_count / 4) / 3) + 2 ∈ ((GR2_D4nK8uC7u_view.ctor ops quat d8)).reads_ ∧
      d8.knots_controls_count ≤ d8.knots_controls_count / 4 + 3 * ((d8.knots_controls_count - d8.knots_controls_count / 4) / 3) + 2) := by
  refine ⟨?_, ?_, ?_⟩
  · obtain ⟨e1, -, e3, e4, e5⟩ := D3K8uC8u_view_fields ops d3
    have e : (d3.knots_controls_count - d3.knots_controls_count / 4 + 2) / 3 = (d3.knots_controls_count - d3.knots_controls_count / 4) / 3 + 1 := by omega
    simp only [GR2_D3K8uC8u_view.controls, GR2_D3K8uC8u_view.encoded_knots, GR2_D3K8uC8u_view.encoded_controls, e1, e3, e4, e5]
    rw [raw_members, e]
    refine ⟨by simp, by simp, rfl, by omega, ?_, by omega⟩
    refine List.mem_append_right _ (List.mem_flatMap.2
      ⟨(d3.knots_controls_count - d3.knots_controls_count / 4) / 3, List.mem_range.2 (by omega), ?_⟩)
    simp [Nat.add_assoc]
  · obtain ⟨e1, -, e3, e4, -, -, -, e5⟩ := D4nK16uC15u_view_fields ops quat d16
    have e : (d16.knots_controls_count - d16.knots_controls_count / 4 + 2) / 3 = (d16.knots_controls_count - d16.knots_controls_count / 4) / 3 + 1 := by omega
    simp only [GR2_D4nK16uC15u_view.controls, GR2_D4nK16uC15u_view.encoded_knots, GR2_D4nK16uC15u_view.encoded_controls, e1, e3, e4, e5]
    rw [raw_members, e]
    refine ⟨by simp, by simp, rfl, by omega, ?_, by omega⟩
    refine List.mem_append_right _ (List.mem_flatMap.2
      ⟨(d16.knots_controls_count - d16.knots_controls_count / 4) / 3, List.mem_range.2 (by omega), ?_⟩)
    simp [Nat.add_assoc]
  · obtain ⟨e1, -, e3, e4, -, -, -, e5⟩ := D4nK8uC7u_view_fields ops quat d8
    have e : (d8.knots_controls_count - d8.knots_controls_count / 4 + 2) / 3 = (d8.knots_controls_count - d8.knots_controls_count / 4) / 3 + 1 := by omega
    simp only [GR2_D4nK8uC7u_view.controls, GR2_D4nK8uC7u_view.encoded_knots, GR2_D4nK8uC7u_view.encoded_controls, e1, e3, e4, e5]
    rw [raw_members, e]
    refine ⟨by simp, by simp, rfl, by omega, ?_, by omega⟩
    refine List.mem_append_right _ (List.mem_flatMap.2
      ⟨(d8.knots_controls_count - d8.knots_controls_count / 4) / 3, List.mem_range.2 (by omega), ?_⟩)
    simp [Nat.add_assoc]

/-- C9 on buffers of 5 elements (followed in memory by 77 and 88): two controls, and the
offset 6 is read. -/
theorem malformed_count_reads_past_end_witness :
    (5 - 5 / 4) % 3 ≠ 0 ∧
    (GR2_D3K8uC8u_view.ctor ratOps
        { one_over_knot_scale_trunc := 0x3F80, control_scales := [some 1, some 1, some 1],
          control_offsets := [some 0, some 0, some 0], knots_controls_count := 5,
          knots_controls := fun i => [5, 10, 20, 30, 40, 77, 88].getD i 0 }).controls.length = 2 ∧
    6 ∈ (GR2_D3K8uC8u_view.ctor ratOps
        { one_over_knot_scale_trunc := 0x3F80, control_scales := [some 1, some 1, some 1],
          control_offsets := [some 0, some 0, some 0], knots_controls_count := 5,
          knots_controls := fun i => [5, 10, 20, 30, 40, 77, 88].getD i 0 }).reads_ ∧
    6 ∈ (GR2_D4nK16uC15u_view.ctor ratOps ⟨some 9, some 9, some 9, some 9⟩
        { scale_offset_table_entries := 0, one_over_knot_scale := some 1,
          knots_controls_count := 5, knots_controls := fun i => [5, 10, 20, 30, 40, 77, 88].getD i 0 }).reads_ ∧
    6 ∈ (GR2_D4nK8uC7u_view.ctor ratOps ⟨some 9, some 9, some 9, some 9⟩
        { scale_offset_table_entries := 0, one_over_knot_scale := some 1,
          knots_controls_count := 5, knots_controls := fun i => [5, 10, 20, 30, 40, 77, 88].getD i 0 }).reads_ := by
  have h := malformed_count_reads_past_end ratOps ⟨some 9, some 9, some 9, some 9⟩
    { one_over_knot_scale_trunc := 0x3F80, control_scales := [some 1, some 1, some 1],
          control_offsets := [some 0, some 0, some 0], knots_controls_count := 5,
          knots_controls := fun i => [5, 10, 20, 30, 40, 77, 88].getD i 0 }
    { scale_offset_table_entries := 0, one_over_knot_scale := some 1,
          knots_controls_count := 5, knots_controls := fun i => [5, 10, 20, 30, 40, 77, 88].getD i 0 }
    { scale_offset_table_entries := 0, one_over_knot_scale := some 1,
          knots_controls_count := 5, knots_controls := fun i => [5, 10, 20, 30, 40, 77, 88].getD i 0 }
    (by decide) (by decide) (by decide)
  exact ⟨by decide, h.1.1, h.1.2.2.2.2.1, h.2.1.2.2.2.2.1, h.2.2.2.2.2.2.1⟩

/-- C9 fails on the code: for a buffer of 5 elements (control region of length 4), followed
in memory by 77 and 88, each constructor returns a view; its second control is built from
the last element of the buffer and the two elements past its end, at the offsets 5 and 6. -/
theorem malformed_count_counterexample :
    (5 - 5 / 4) % 3 ≠ 0 ∧
    (GR2_D3K8uC8u_view.ctor ratOps
        { one_over_knot_scale_trunc := 0x3F80, control_scales := [some 1, some 1, some 1],
          control_offsets := [some 0, some 0, some 0], knots_controls_count := 5,
          knots_controls := fun i => [5, 10, 20, 30, 40, 77, 88].getD i 0 }).encoded_controls =
      [⟨10, 20, 30⟩, ⟨40, 77, 88⟩] ∧
    (GR2_D3K8uC8u_view.ctor ratOps
        { one_over_knot_scale_trunc := 0x3F80, control_scales := [some 1, some 1, some 1],
          control_offsets := [some 0, some 0, some 0], knots_controls_count := 5,
          knots_controls := fun i => [5, 10, 20, 30, 40, 77, 88].getD i 0 }).reads_ =
      [0, 0, 1, 2, 3, 4, 5, 6] ∧
    (GR2_D4nK16uC15u_view.ctor ratOps ⟨some 9, some 9, some 9, some 9⟩
        { scale_offset_table_entries := 0, one_over_knot_scale := some 1,
          knots_controls_count := 5, knots_controls := fun i => [5, 10, 20, 30, 40, 77, 88].getD i 0 }).encoded_controls =
      [⟨10, 20, 30⟩, ⟨40, 77, 88⟩] ∧
    (GR2_D4nK16uC15u_view.ctor ratOps ⟨some 9, some 9, some 9, some 9⟩
        { scale_offset_table_entries := 0, one_over_knot_scale := some 1,
          knots_controls_count := 5, knots_controls := fun i => [5, 10, 20, 30, 40, 77, 88].getD i 0 }).reads_ =
      [0, 0, 1, 2, 3, 4, 5, 6] ∧
    (GR2_D4nK8uC7u_view.ctor ratOps ⟨some 9, some 9, some 9, some 9⟩
        { scale_offset_table_entries := 0, one_over_knot_scale := some 1,
          knots_controls_count := 5, knots_controls := fun i => [5, 10, 20, 30, 40, 77, 88].getD i 0 }).encoded_controls =
      [⟨10, 20, 30⟩, ⟨40, 77, 88⟩] ∧
    (GR2_D4nK8uC7u_view.ctor ratOps ⟨some 9, some 9, some 9, some 9⟩
        { scale_offset_table_entries := 0, one_over_knot_scale := some 1,
          knots_controls_count := 5, knots_controls := fun i => [5, 10, 20, 30, 40, 77, 88].getD i 0 }).reads_ =
      [0, 0, 1, 2, 3, 4, 5, 6] := by
  refine ⟨by decide, ?_, ?_, ?_, ?_, ?_, ?_⟩
  · rw [GR2_D3K8uC8u_view.encoded_controls, (D3K8uC8u_view_fields _ _).2.2.1]
    rfl
  · rw [(D3K8uC8u_view_fields _ _).2.2.2.2]
    rfl
  · rw [GR2_D4nK16uC15u_view.encoded_controls, (D4nK16uC15u_view_fields _ _ _).2.2.1]
    rfl
  · rw [(D4nK16uC15u_view_fields _ _ _).2.2.2.2.2.2.2]
    rfl
  · rw [GR2_D4nK8uC7u_view.encoded_controls, (D4nK8uC7u_view_fields _ _ _).2.2.1]
    rfl
  · rw [(D4nK8uC7u_view_fields _ _ _).2.2.2.2.2.2.2]
    rfl

/-! ## The view of a buffer of four elements -/

/-- The view of a buffer of four elements, for any float arithmetic. -/
theorem D3K8uC8u_view_four {F : Type} (ops : FloatOps F) (t : Nat) (sc off : List F)
    (buf : Nat → Nat) :
    (GR2_D3K8uC8u_view.ctor ops
        { one_over_knot_scale_trunc := t, control_scales := sc, control_offsets := off,
          knots_controls_count := 4, knots_controls := buf }).knots =
      [ops.div (ops.ofInt (buf 0)) (ops.ofBits ((t <<< 16) % 2 ^ 32))] ∧
    (GR2_D3K8uC8u_view.ctor ops
        { one_over_knot_scale_trunc := t, control_scales := sc, control_offsets := off,
          knots_controls_count := 4, knots_controls := buf }).controls =
      [⟨ops.add (ops.mul (ops.ofInt (buf 1)) (rd ops sc 0)) (rd ops off 0),
        ops.add (ops.mul (ops.ofInt (buf 2)) (rd ops sc 1)) (rd ops off 1),
        ops.add (ops.mul (ops.ofInt (buf 3)) (rd ops sc 2)) (rd ops off 2)⟩] := by
  constructor
  · rw [GR2_D3K8uC8u_view.knots, (D3K8uC8u_view_fields _ _).2.1]
    simp [List.range_succ]
  · rw [GR2_D3K8uC8u_view.controls, (D3K8uC8u_view_fields _ _).2.2.2.1]
    simp [List.range_succ]

/-! ## C12: the empty buffer -/

/-- C12: for each of the three constructors a buffer with knots_controls_count = 0 gives
empty knots(), encoded_knots(), controls() and encoded_controls(); no element of the buffer
is read, and the constructor returns (it has no error path). -/
theorem empty_buffer {F : Type} (ops : FloatOps F) (quat : Vector4 F)
    (d3 : GR2_curve_data_D3K8uC8u F) (d16 : GR2_curve_data_D4nK16uC15u F)
    (d8 : GR2_curve_data_D4nK8uC7u F)
    (h3 : d3.knots_controls_count = 0) (h16 : d16.knots_controls_count = 0)
    (h8 : d8.knots_controls_count = 0) :
    ((GR2_D3K8uC8u_view.ctor ops d3).knots = [] ∧
      (GR2_D3K8uC8u_view.ctor ops d3).encoded_knots = [] ∧
      (GR2_D3K8uC8u_view.ctor ops d3).controls = [] ∧
      (GR2_D3K8uC8u_view.ctor ops d3).encoded_controls = [] ∧
      (GR2_D3K8uC8u_view.ctor ops d3).reads_ = []) ∧
    ((GR2_D4nK16uC15u_view.ctor ops quat d16).knots = [] ∧
      (GR2_D4nK16uC15u_view.ctor ops quat d16).encoded_knots = [] ∧
      (GR2_D4nK16uC15u_view.ctor ops quat d16).controls = [] ∧
      (GR2_D4nK16uC15u_view.ctor ops quat d16).encoded_controls = [] ∧
      (GR2_D4nK16uC15u_view.ctor ops quat d16).reads_ = []) ∧
    ((GR2_D4nK8uC7u_view.ctor ops quat d8).knots = [] ∧
      (GR2_D4nK8uC7u_view.ctor ops quat d8).encoded_knots = [] ∧
      (GR2_D4nK8uC7u_view.ctor ops quat d8).controls = [] ∧
      (GR2_D4nK8uC7u_view.ctor ops quat d8).encoded_controls = [] ∧
      (GR2_D4nK8uC7u_view.ctor ops quat d8).reads_ = []) := by
  refine ⟨?_, ?_, ?_⟩
  · obtain ⟨e1, e2, e3, e4, e5⟩ := D3K8uC8u_view_fields ops d3
    simp only [GR2_D3K8uC8u_view.knots, GR2_D3K8uC8u_view.encoded_knots,
      GR2_D3K8uC8u_view.controls, GR2_D3K8uC8u_view.encoded_controls, e1, e2, e3, e4, e5, h3]
    simp
  · obtain ⟨e1, e2, e3, e4, -, -, -, e5⟩ := D4nK16uC15u_view_fields ops quat d16
    simp only [GR2_D4nK16uC15u_view.knots, GR2_D4nK16uC15u_view.encoded_knots,
      GR2_D4nK16uC15u_view.controls, GR2_D4nK16uC15u_view.encoded_controls, e1, e2, e3, e4,
      e5, h16]
    simp
  · obtain ⟨e1, e2, e3, e4, -, -, -, e5⟩ := D4nK8uC7u_view_fields ops quat d8
    simp only [GR2_D4nK8uC7u_view.knots, GR2_D4nK8uC7u_view.encoded_knots,
      GR2_D4nK8uC7u_view.controls, GR2_D4nK8uC7u_view.encoded_controls, e1, e2, e3, e4,
      e5, h8]
    simp

/-- C12 on three buffers of count 0, in exact rational arithmetic. -/
theorem empty_buffer_witness :
    (0 : Nat) = 0 ∧
    (GR2_D3K8uC8u_view.ctor ratOps
        { one_over_knot_scale_trunc := 0x3F80, control_scales := [some 1, some 1, some 1],
          control_offsets := [some 0, some 0, some 0], knots_controls_count := 0,
          knots_controls := fun _ => 77 }).controls = [] ∧
    (GR2_D4nK16uC15u_view.ctor ratOps ⟨some 9, some 9, some 9, some 9⟩
        { scale_offset_table_entries := 0, one_over_knot_scale := some 1,
          knots_controls_count := 0, knots_controls := fun _ => 77 }).reads_ = [] ∧
    (GR2_D4nK8uC7u_view.ctor ratOps ⟨some 9, some 9, some 9, some 9⟩
        { scale_offset_table_entries := 0, one_over_knot_scale := some 1,
          knots_controls_count := 0, knots_controls := fun _ => 77 }).knots = [] := by
  have h := empty_buffer ratOps ⟨some 9, some 9, some 9, some 9⟩
    { one_over_knot_scale_trunc := 0x3F80, control_scales := [some 1, some 1, some 1],
      control_offsets := [some 0, some 0, some 0], knots_controls_count := 0,
      knots_controls := fun _ => 77 }
    { scale_offset_table_entries := 0, one_over_knot_scale := some 1,
      knots_controls_count := 0, knots_controls := fun _ => 77 }
    { scale_offset_table_entries := 0, one_over_knot_scale := some 1,
      knots_controls_count := 0, knots_controls := fun _ => 77 } rfl rfl rfl
  exact ⟨rfl, h.1.2.2.1, h.2.1.2.2.2.2, h.2.2.1⟩

/-! ## C15: the 8-bit codec is the 16-bit codec on narrower fields -/

theorem widen_cases (x : Nat) :
    widen x = (x.testBit 7).toNat * 32768 + x % 128 := by
  have h1 := and_two_pow_cases x 7
  have h2 := Nat.and_pow_two_sub_one_eq_mod x 7
  norm_num at h1 h2
  simp only [widen, h1, h2, Nat.shiftLeft_eq]
  have hlt : x % 128 < 2 ^ 15 := by
    have := Nat.mod_lt x (show 0 < 128 by decide)
    norm_num
    omega
  cases x.testBit 7
  · simp
  · have h := Nat.mul_add_lt_is_or hlt 1
    norm_num at h
    simp only [Bool.toNat_true, Nat.one_mul]
    norm_num
    exact h.symm

theorem widen_lt (x : Nat) : widen x < 65536 := by
  rw [widen_cases]
  have := Nat.mod_lt x (show 0 < 128 by decide)
  cases x.testBit 7 <;> simp <;> omega

theorem widen_testBit (x : Nat) : (widen x).testBit 15 = x.testBit 7 := by
  have h := testBit_top (widen x) 15 (by simpa using widen_lt x)
  rw [widen_cases] at h ⊢
  have := Nat.mod_lt x (show 0 < 128 by decide)
  cases hx : x.testBit 7
  · simp only [hx, Bool.toNat_false, Nat.zero_mul, Nat.zero_add] at h ⊢
    have e : x % 128 / 2 ^ 15 = 0 := by norm_num; omega
    rw [e] at h
    simpa using h
  · simp only [hx, Bool.toNat_true, Nat.one_mul] at h ⊢
    have e : (32768 + x % 128) / 2 ^ 15 = 1 := by norm_num; omega
    rw [e] at h
    simpa using h

theorem widen_magnitude (x : Nat) :
    D4nK16uC15u.magnitude (widen x) = D4nK8uC7u.magnitude x := by
  rw [magnitude_16_eq, magnitude_8_eq, widen_cases]
  have := Nat.mod_lt x (show 0 < 128 by decide)
  cases x.testBit 7 <;> simp <;> omega

theorem widen_g (x : Nat) : D4nK16uC15u.g (widen x) = D4nK8uC7u.g x := by
  rw [g_16_eq, g_8_eq, widen_testBit]

theorem widen_swizzle1 (b c : Nat) :
    D4nK16uC15u.swizzle1 (widen b) (widen c) = D4nK8uC7u.swizzle1 b c := by
  rw [swizzle1_16_eq _ _ (widen_lt c), swizzle1_8_eq, widen_testBit, widen_testBit]

/-- The 8-bit codec is the 16-bit codec on the widened values. -/
theorem decode8_eq_decode16 {F : Type} (ops : FloatOps F) (quat : Vector4 F) (a b c : Nat)
    (scales offsets : List F) :
    decode_D4nK8uC7u ops quat a b c scales offsets =
      decode_D4nK16uC15u ops quat (widen a) (widen b) (widen c) scales offsets := by
  simp only [decode_D4nK8uC7u, decode_D4nK16uC15u, widen_swizzle1, widen_magnitude, widen_g]

/-- C15: for every a, b, c and every scales and offsets, decode_D4nK8uC7u(a, b, c) is
decode_D4nK16uC15u(a', b', c') with x' = ((x & 0x80) << 8) | (x & 0x7f), which is a 16-bit
value with the flag of x in bit 15 and the magnitude of x in its low bits. The two view
constructors differ in the element width and in the precision constant only: the 16-bit
view of the buffer of an 8-bit curve with its control elements widened has the same raw and
decoded knots, selectors and offsets, the widened raw controls, scales with the constant
0.000030518509 where the 8-bit view has 0.0078740157, and the controls the 8-bit codec
gives with those scales. -/
theorem narrow_codec_refines {F : Type} (ops : FloatOps F) (quat : Vector4 F) (a b c : Nat)
    (scales offsets : List F) (d8 : GR2_curve_data_D4nK8uC7u F) :
    (decode_D4nK8uC7u ops quat a b c scales offsets =
        decode_D4nK16uC15u ops quat (widen a) (widen b) (widen c) scales offsets ∧
      widen a < 65536 ∧ (widen a).testBit 15 = a.testBit 7 ∧
      widen a % 32768 = a % 128) ∧
    (let d16 : GR2_curve_data_D4nK16uC15u F :=
        { scale_offset_table_entries := d8.scale_offset_table_entries,
          one_over_knot_scale := d8.one_over_knot_scale,
          knots_controls_count := d8.knots_controls_count,
          knots_controls := fun i =>
            if i < d8.knots_controls_count / 4 then d8.knots_controls i
            else widen (d8.knots_controls i) }
     let v8 := GR2_D4nK8uC7u_view.ctor ops quat d8
     let v16 := GR2_D4nK16uC15u_view.ctor ops quat d16
     v16.encoded_knots = v8.encoded_knots ∧ v16.knots = v8.knots ∧
      v16.selectors = v8.selectors ∧ v16.offsets = v8.offsets ∧
      v16.encoded_controls =
        v8.encoded_controls.map (fun e => ⟨widen e.x, widen e.y, widen e.z⟩) ∧
      v8.scales = (List.range 4).map (fun i =>
        ops.mul (rd ops (scale_table ops) (v8.selectors.getD i 0)) (ops.lit 0.0078740157)) ∧
      v16.scales = (List.range 4).map (fun i =>
        ops.mul (rd ops (scale_table ops) (v8.selectors.getD i 0))
          (ops.lit 0.000030518509)) ∧
      v8.controls = v8.encoded_controls.map (fun e =>
        decode_D4nK8uC7u ops quat e.x e.y e.z v8.scales v8.offsets) ∧
      v16.controls = v8.encoded_controls.map (fun e =>
        decode_D4nK8uC7u ops quat e.x e.y e.z v16.scales v8.offsets)) := by
  refine ⟨⟨decode8_eq_decode16 ops quat a b c scales offsets, widen_lt a, widen_testBit a,
    ?_⟩, ?_⟩
  · have h := widen_magnitude a
    rwa [magnitude_16_eq, magnitude_8_eq] at h
  · intro d16 v8 v16
    obtain ⟨a1, a2, a3, a4, a5, a6, a7, -⟩ := D4nK8uC7u_view_fields ops quat d8
    obtain ⟨b1, b2, b3, b4, b5, b6, b7, -⟩ := D4nK16uC15u_view_fields ops quat d16
    simp only [GR2_D4nK8uC7u_view.encoded_knots, GR2_D4nK8uC7u_view.knots,
      GR2_D4nK8uC7u_view.encoded_controls, GR2_D4nK8uC7u_view.controls,
      GR2_D4nK16uC15u_view.encoded_knots, GR2_D4nK16uC15u_view.knots,
      GR2_D4nK16uC15u_view.encoded_controls, GR2_D4nK16uC15u_view.controls, v8, v16,
      a1, a2, a3, a4, a5, a6, a7, b1, b2, b3, b4, b5, b6, b7, d16, List.map_map,
      Function.comp_def, decode8_eq_decode16]
    have hk : ∀ i ∈ List.range (d8.knots_controls_count / 4),
        i < d8.knots_controls_count / 4 := fun i hi => List.mem_range.1 hi
    have hc : ∀ k, ¬ (d8.knots_controls_count / 4 + k < d8.knots_controls_count / 4) :=
      fun k => by omega
    simp only [hc, if_false]
    refine ⟨?_, ?_, trivial, trivial, trivial, trivial, trivial, trivial, trivial⟩
    · exact List.map_congr_left (fun i hi => by simp [hk i hi])
    · exact List.map_congr_left (fun i hi => by simp [hk i hi])

/-! ## C16: the scales and offsets of the quaternion views -/

theorem rd_in_range {F : Type} (ops : FloatOps F) (xs : List F) (i : Nat)
    (h : i < xs.length) : xs[i]? = some (rd ops xs i) := by
  simp [rd, List.getD_eq_getElem?_getD, List.getElem?_eq_getElem h]

theorem selector_lt (m i : Nat) : (m >>> (4 * i)) &&& 0xF < 16 := by
  have h := Nat.and_pow_two_sub_one_eq_mod (m >>> (4 * i)) 4
  norm_num at h
  rw [h]
  omega

theorem compute_selectors_getD (m i : Nat) (hi : i < 4) :
    (compute_selectors m).getD i 0 = (m >>> (4 * i)) &&& 0xF := by
  interval_cases i <;> simp [compute_selectors]

theorem view_scale_entry {F : Type} (ops : FloatOps F) (m i : Nat) (q : ℚ) (hi : i < 4) :
    ((List.range 4).map (fun i => ops.mul
        (rd ops (scale_table ops) ((compute_selectors m).getD i 0)) (ops.lit q)))[i]? =
      some (ops.mul (rd ops (scale_table ops) ((m >>> (4 * i)) &&& 0xF)) (ops.lit q)) := by
  rw [List.getElem?_map, List.getElem?_range hi, Option.map_some', compute_selectors_getD m i hi]

theorem view_offset_entry {F : Type} (ops : FloatOps F) (m i : Nat) (hi : i < 4) :
    (compute_offsets ops (compute_selectors m))[i]? =
      some (rd ops (offset_table ops) ((m >>> (4 * i)) &&& 0xF)) := by
  rw [compute_offsets, List.getElem?_map, List.getElem?_range hi, Option.map_some',
    compute_selectors_getD m i hi]

/-- C16: for every selector mask and each axis i in 0..3, with s_i = (mask >> 4*i) & 0xF,
the quaternion views have offsets[i] = offset_table[s_i] and
scales[i] = scale_table[s_i] * 0.000030518509 (16-bit view) or
scale_table[s_i] * 0.0078740157 (8-bit view); s_i is below 16, the length of the two tables,
so the lookups are in range; and the indices swizzle2, swizzle3, swizzle4 at which the
codecs read scales and offsets (and swizzle1) are below 4, the length of the two arrays. -/
theorem view_tables_in_range {F : Type} (ops : FloatOps F) (quat : Vector4 F)
    (d16 : GR2_curve_data_D4nK16uC15u F) (d8 : GR2_curve_data_D4nK8uC7u F)
    (i b c : Nat) (hi : i < 4) (hc : c < 65536) :
    ((scale_table ops).length = 16 ∧ (offset_table ops).length = 16) ∧
    ((d16.scale_offset_table_entries >>> (4 * i)) &&& 0xF < 16 ∧
      (GR2_D4nK16uC15u_view.ctor ops quat d16).selectors.getD i 0 =
        (d16.scale_offset_table_entries >>> (4 * i)) &&& 0xF ∧
      (∃ sc off, (scale_table ops)[(d16.scale_offset_table_entries >>> (4 * i)) &&& 0xF]? =
          some sc ∧
        (offset_table ops)[(d16.scale_offset_table_entries >>> (4 * i)) &&& 0xF]? =
          some off ∧
        (GR2_D4nK16uC15u_view.ctor ops quat d16).scales[i]? =
          some (ops.mul sc (ops.lit 0.000030518509)) ∧
        (GR2_D4nK16uC15u_view.ctor ops quat d16).offsets[i]? = some off)) ∧
    ((d8.scale_offset_table_entries >>> (4 * i)) &&& 0xF < 16 ∧
      (GR2_D4nK8uC7u_view.ctor ops quat d8).selectors.getD i 0 =
        (d8.scale_offset_table_entries >>> (4 * i)) &&& 0xF ∧
      (∃ sc off, (scale_table ops)[(d8.scale_offset_table_entries >>> (4 * i)) &&& 0xF]? =
          some sc ∧
        (offset_table ops)[(d8.scale_offset_table_entries >>> (4 * i)) &&& 0xF]? =
          some off ∧
        (GR2_D4nK8uC7u_view.ctor ops quat d8).scales[i]? =
          some (ops.mul sc (ops.lit 0.0078740157)) ∧
        (GR2_D4nK8uC7u_view.ctor ops quat d8).offsets[i]? = some off)) ∧
    ((GR2_D4nK16uC15u_view.ctor ops quat d16).scales.length = 4 ∧
      (GR2_D4nK16uC15u_view.ctor ops quat d16).offsets.length = 4 ∧
      (GR2_D4nK8uC7u_view.ctor ops quat d8).scales.length = 4 ∧
      (GR2_D4nK8uC7u_view.ctor ops quat d8).offsets.length = 4) ∧
    (D4nK16uC15u.swizzle1 b c < 4 ∧
      swizzle_next (D4nK16uC15u.swizzle1 b c) < 4 ∧
      swizzle_next (swizzle_next (D4nK16uC15u.swizzle1 b c)) < 4 ∧
      swizzle_next (swizzle_next (swizzle_next (D4nK16uC15u.swizzle1 b c))) < 4) ∧
    (D4nK8uC7u.swizzle1 b c < 4 ∧
      swizzle_next (D4nK8uC7u.swizzle1 b c) < 4 ∧
      swizzle_next (swizzle_next (D4nK8uC7u.swizzle1 b c)) < 4 ∧
      swizzle_next (swizzle_next (swizzle_next (D4nK8uC7u.swizzle1 b c))) < 4) := by
  have hs : (scale_table ops).length = 16 := rfl
  have ho : (offset_table ops).length = 16 := rfl
  obtain ⟨-, -, -, -, a5, a6, a7, -⟩ := D4nK16uC15u_view_fields ops quat d16
  obtain ⟨-, -, -, -, b5, b6, b7, -⟩ := D4nK8uC7u_view_fields ops quat d8
  have l16 := selector_lt d16.scale_offset_table_entries i
  have l8 := selector_lt d8.scale_offset_table_entries i
  refine ⟨⟨hs, ho⟩, ⟨l16, ?_, _, _, rd_in_range ops _ _ (hs ▸ l16),
    rd_in_range ops _ _ (ho ▸ l16), ?_, ?_⟩, ⟨l8, ?_, _, _, rd_in_range ops _ _ (hs ▸ l8),
    rd_in_range ops _ _ (ho ▸ l8), ?_, ?_⟩, ⟨?_, ?_, ?_, ?_⟩,
    ⟨swizzle1_16_lt b c hc, swizzle_next_lt _, swizzle_next_lt _, swizzle_next_lt _⟩,
    ⟨swizzle1_8_lt b c, swizzle_next_lt _, swizzle_next_lt _, swizzle_next_lt _⟩⟩
  · rw [a5, compute_selectors_getD _ _ hi]
  · rw [a6]; exact view_scale_entry ops _ i _ hi
  · rw [a7]; exact view_offset_entry ops _ i hi
  · rw [b5, compute_selectors_getD _ _ hi]
  · rw [b6]; exact view_scale_entry ops _ i _ hi
  · rw [b7]; exact view_offset_entry ops _ i hi
  · rw [a6]; simp
  · rw [a7]; simp [compute_offsets]
  · rw [b6]; simp
  · rw [b7]; simp [compute_offsets]

/-- C16 at the mask 0x1234 and axis 1, in exact rational arithmetic: the selector is 3. -/
theorem view_tables_in_range_witness :
    (1 : Nat) < 4 ∧ (3 : Nat) < 65536 ∧
    (GR2_D4nK16uC15u_view.ctor ratOps ⟨some 9, some 9, some 9, some 9⟩
        { scale_offset_table_entries := 0x1234, one_over_knot_scale := some 1,
          knots_controls_count := 4,
          knots_controls := fun i => [5, 10, 20, 30].getD i 0 }).selectors.getD 1 0 = 3 ∧
    (GR2_D4nK8uC7u_view.ctor ratOps ⟨some 9, some 9, some 9, some 9⟩
        { scale_offset_table_entries := 0x1234, one_over_knot_scale := some 1,
          knots_controls_count := 4,
          knots_controls := fun i => [5, 10, 20, 30].getD i 0 }).offsets.length = 4 := by
  have h := view_tables_in_range ratOps ⟨some 9, some 9, some 9, some 9⟩
    { scale_offset_table_entries := 0x1234, one_over_knot_scale := some 1,
      knots_controls_count := 4, knots_controls := fun i => [5, 10, 20, 30].getD i 0 }
    { scale_offset_table_entries := 0x1234, one_over_knot_scale := some 1,
      knots_controls_count := 4, knots_controls := fun i => [5, 10, 20, 30].getD i 0 }
    1 2 3 (by decide) (by decide)
  exact ⟨by decide, by decide, h.2.1.2.1.trans (by decide), h.2.2.2.1.2.2.2⟩

/-! ## C18: the two tables are antisymmetric in bit 3 of the selector -/

theorem exact_neg_neg (K : Type) [LinearOrderedField K] (root : K → K) (x : Option K) :
    (exactOps K root).neg ((exactOps K root).neg x) = x := by
  cases x with
  | none => rfl
  | some u => simp [exact_neg]

/-- C18: for every s in 0..7, scale_table[s + 8] = -scale_table[s] and, negation being an
involution, offset_table[s + 8] = -offset_table[s]; the offsets of the selectors 7 and 15
are 0.0 and -0.0. Each half of the scale table holds the magnitude 1.4142135 once,
0.70710677 once, 0.35355338 three times and 0.17677669 three times: the first half is that
list and the second half is its negation, entry by entry. -/
theorem tables_antisymmetric {F : Type} (ops : FloatOps F) (s : Nat) (hs : s < 8)
    (hneg : ∀ x, ops.neg (ops.neg x) = x) :
    rd ops (scale_table ops) (s + 8) = ops.neg (rd ops (scale_table ops) s) ∧
    rd ops (offset_table ops) (s + 8) = ops.neg (rd ops (offset_table ops) s) ∧
    (rd ops (offset_table ops) 7 = ops.lit 0.0 ∧
      rd ops (offset_table ops) 15 = ops.neg (ops.lit 0.0)) ∧
    (scale_table ops).take 8 =
      [ops.lit 1.4142135, ops.lit 0.70710677, ops.lit 0.35355338, ops.lit 0.35355338,
        ops.lit 0.35355338, ops.lit 0.17677669, ops.lit 0.17677669, ops.lit 0.17677669] ∧
    (scale_table ops).drop 8 = ((scale_table ops).take 8).map ops.neg ∧
    (((scale_table ratOps).take 8).count (some 1.4142135) = 1 ∧
      ((scale_table ratOps).take 8).count (some 0.70710677) = 1 ∧
      ((scale_table ratOps).take 8).count (some 0.35355338) = 3 ∧
      ((scale_table ratOps).take 8).count (some 0.17677669) = 3 ∧
      ((scale_table ratOps).drop 8).count (some (-1.4142135)) = 1 ∧
      ((scale_table ratOps).drop 8).count (some (-0.70710677)) = 1 ∧
      ((scale_table ratOps).drop 8).count (some (-0.35355338)) = 3 ∧
      ((scale_table ratOps).drop 8).count (some (-0.17677669)) = 3) := by
  refine ⟨?_, ?_, ⟨rfl, rfl⟩, rfl, rfl, ?_⟩
  · interval_cases s <;> rfl
  · interval_cases s <;>
      simp only [rd, offset_table, List.getD_cons_zero, List.getD_cons_succ, hneg]
  · simp only [scale_table, ratOps, exact_lit, exact_neg, List.take, List.drop,
      List.count_cons, List.count_nil]
    norm_num

/-- C18 at s = 2 in exact rational arithmetic: the scales are 0.35355338 and -0.35355338,
the offsets -0.53033006 and 0.53033006. -/
theorem tables_antisymmetric_witness :
    (2 : Nat) < 8 ∧ (∀ x, ratOps.neg (ratOps.neg x) = x) ∧
    rd ratOps (scale_table ratOps) 10 = ratOps.neg (rd ratOps (scale_table ratOps) 2) ∧
    rd ratOps (offset_table ratOps) 10 = ratOps.neg (rd ratOps (offset_table ratOps) 2) :=
  ⟨by decide, exact_neg_neg ℚ ratSqrt,
    (tables_antisymmetric ratOps 2 (by decide) (exact_neg_neg ℚ ratSqrt)).1,
    (tables_antisymmetric ratOps 2 (by decide) (exact_neg_neg ℚ ratSqrt)).2.1⟩

/-! ## C17: a negative radicand -/

/-- C17: the square root of the 16-bit codec can be taken of a negative value. For the packed
values a = b = c = 0x7fff (swizzle 0, magnitudes 32767) the component of slot 0 is, for any
float arithmetic, sqrtf applied to 1 - (da*da + db*db + dc*dc) as it is: no clamp comes
before the square root. With the scales and offsets the 16-bit view derives from the
selector mask 0x0000, in exact rational arithmetic, da = db = dc =
1414213415885024081/2000000000000000000 (about 0.7071067), the sum of their squares is above
1, the radicand is negative and sqrtf gives no finite number. -/
theorem sqrt_of_negative_radicand {F : Type} (ops : FloatOps F) (quat : Vector4 F)
    (scales offsets : List F) (quatQ : Vector4 (Option ℚ))
    (dataQ : GR2_curve_data_D4nK16uC15u (Option ℚ)) :
    (decode_D4nK16uC15u ops quat 0x7fff 0x7fff 0x7fff scales offsets).get? 0 =
      some (ops.sqrtf (ops.sub (ops.ofInt 1)
        (ops.add
          (ops.add
            (ops.mul
              (ops.add (ops.mul (ops.ofInt 32767) (rd ops scales 1)) (rd ops offsets 1))
              (ops.add (ops.mul (ops.ofInt 32767) (rd ops scales 1)) (rd ops offsets 1)))
            (ops.mul
              (ops.add (ops.mul (ops.ofInt 32767) (rd ops scales 2)) (rd ops offsets 2))
              (ops.add (ops.mul (ops.ofInt 32767) (rd ops scales 2)) (rd ops offsets 2))))
          (ops.mul
            (ops.add (ops.mul (ops.ofInt 32767) (rd ops scales 3)) (rd ops offsets 3))
            (ops.add (ops.mul (ops.ofInt 32767) (rd ops scales 3)) (rd ops offsets 3)))))) ∧
    (let v := GR2_D4nK16uC15u_view.ctor ratOps quatQ
        { dataQ with scale_offset_table_entries := 0x0000 }
     let x : ℚ := 1414213415885024081 / 2000000000000000000
     (∀ i, i < 4 → ratOps.add (ratOps.mul (ratOps.ofInt 32767) (rd ratOps v.scales i))
        (rd ratOps v.offsets i) = some x) ∧
      1 < x * x + x * x + x * x ∧
      ratOps.sub (ratOps.ofInt 1)
        (ratOps.add (ratOps.add (ratOps.mul (some x) (some x)) (ratOps.mul (some x) (some x)))
          (ratOps.mul (some x) (some x))) = some (1 - (x * x + x * x + x * x)) ∧
      1 - (x * x + x * x + x * x) < 0 ∧
      ratOps.sqrtf (some (1 - (x * x + x * x + x * x))) = none ∧
      (decode_D4nK16uC15u ratOps quatQ 0x7fff 0x7fff 0x7fff v.scales v.offsets).get? 0 =
        some none) := by
  have s1 : D4nK16uC15u.swizzle1 0x7fff 0x7fff = 0 := by decide
  have s2 : swizzle_next 0 = 1 := by decide
  have s3 : swizzle_next 1 = 2 := by decide
  have s4 : swizzle_next 2 = 3 := by decide
  have m : D4nK16uC15u.magnitude 0x7fff = 32767 := by decide
  have g : D4nK16uC15u.g 0x7fff = false := by decide
  have gen : ∀ {G : Type} (o : FloatOps G) (q : Vector4 G) (sc off : List G),
      (decode_D4nK16uC15u o q 0x7fff 0x7fff 0x7fff sc off).get? 0 =
      some (o.sqrtf (o.sub (o.ofInt 1)
        (o.add
          (o.add
            (o.mul
              (o.add (o.mul (o.ofInt 32767) (rd o sc 1)) (rd o off 1))
              (o.add (o.mul (o.ofInt 32767) (rd o sc 1)) (rd o off 1)))
            (o.mul
              (o.add (o.mul (o.ofInt 32767) (rd o sc 2)) (rd o off 2))
              (o.add (o.mul (o.ofInt 32767) (rd o sc 2)) (rd o off 2))))
          (o.mul
            (o.add (o.mul (o.ofInt 32767) (rd o sc 3)) (rd o off 3))
            (o.add (o.mul (o.ofInt 32767) (rd o sc 3)) (rd o off 3)))))) := by
    intro G o q sc off
    simp [decode_D4nK16uC15u, s1, s2, s3, s4, m, g, Vector4.set, Vector4.get?]
  refine ⟨gen ops quat scales offsets, ?_⟩
  intro v x
  have cs : compute_selectors 0 = [0, 0, 0, 0] := by decide
  obtain ⟨-, -, -, -, -, e6, e7, -⟩ := D4nK16uC15u_view_fields ratOps quatQ
    { dataQ with scale_offset_table_entries := 0x0000 }
  have hsc : v.scales = [some (86319374855343 / 2000000000000000000),
      some (86319374855343 / 2000000000000000000), some (86319374855343 / 2000000000000000000),
      some (86319374855343 / 2000000000000000000)] := by
    simp only [v, e6, cs]
    simp [List.range_succ, rd, scale_table, ratOps, exact_lit, exact_mul]
    norm_num
  have hof : v.offsets = [some (-0.70710677), some (-0.70710677), some (-0.70710677),
      some (-0.70710677)] := by
    simp only [v, e7, cs]
    simp [compute_offsets, List.range_succ, rd, offset_table, ratOps, exact_lit, exact_neg]
  have hx : ∀ i, i < 4 → ratOps.add (ratOps.mul (ratOps.ofInt 32767) (rd ratOps v.scales i))
      (rd ratOps v.offsets i) = some x := by
    intro i hi
    rw [hsc, hof]
    interval_cases i <;>
      simp only [rd, List.getD_cons_zero, List.getD_cons_succ, ratOps, exact_ofInt, exact_mul,
        exact_add, x] <;> norm_num
  have hneg : 1 - (x * x + x * x + x * x) < 0 := by norm_num [x]
  refine ⟨hx, by norm_num [x], ?_, hneg, ?_, ?_⟩
  · simp only [ratOps, exact_mul, exact_add, exact_sub, exact_ofInt, Int.cast_one]
  · rw [ratOps, exact_sqrtf, if_pos hneg]
  · rw [gen ratOps, hx 1 (by decide), hx 2 (by decide), hx 3 (by decide)]
    simp only [ratOps, exact_mul, exact_add, exact_sub, exact_ofInt, Int.cast_one,
      exact_sqrtf, if_pos hneg]

/-! ## C19: the range of a stored component -/

theorem rd_of_getElem? {F : Type} (ops : FloatOps F) (xs : List F) (i : Nat) (t : F)
    (h : xs[i]? = some t) : rd ops xs i = t := by
  simp [rd, List.getD_eq_getElem?_getD, h]

/-- A stored component of the 16-bit codec, in exact rational arithmetic. -/
theorem stored_bound16 (s m : Nat) (hs : s < 16) (hm : m ≤ 32767) :
    ∃ v : ℚ, ratOps.add (ratOps.mul (ratOps.ofInt (m : Int))
        (ratOps.mul (rd ratOps (scale_table ratOps) s) (ratOps.lit 0.000030518509)))
        (rd ratOps (offset_table ratOps) s) = some v ∧ |v| ≤ 0.70710677 := by
  have h0 : (0 : ℚ) ≤ (m : ℚ) := Nat.cast_nonneg m
  have h1 : (m : ℚ) ≤ 32767 := by exact_mod_cast hm
  interval_cases s <;>
    simp only [rd, scale_table, offset_table, List.getD_cons_zero, List.getD_cons_succ, ratOps,
      exact_lit, exact_neg, exact_mul, exact_add, exact_ofInt] <;>
    refine ⟨_, rfl, abs_le.2 ⟨?_, ?_⟩⟩ <;> push_cast <;> norm_num <;> linarith

/-- A stored component of the 8-bit codec, in exact rational arithmetic. -/
theorem stored_bound8 (s m : Nat) (hs : s < 16) (hm : m ≤ 127) :
    ∃ v : ℚ, ratOps.add (ratOps.mul (ratOps.ofInt (m : Int))
        (ratOps.mul (rd ratOps (scale_table ratOps) s) (ratOps.lit 0.0078740157)))
        (rd ratOps (offset_table ratOps) s) = some v ∧ |v| ≤ 0.70710677 := by
  have h0 : (0 : ℚ) ≤ (m : ℚ) := Nat.cast_nonneg m
  have h1 : (m : ℚ) ≤ 127 := by exact_mod_cast hm
  interval_cases s <;>
    simp only [rd, scale_table, offset_table, List.getD_cons_zero, List.getD_cons_succ, ratOps,
      exact_lit, exact_neg, exact_mul, exact_add, exact_ofInt] <;>
    refine ⟨_, rfl, abs_le.2 ⟨?_, ?_⟩⟩ <;> push_cast <;> norm_num <;> linarith

theorem sum_squares_bound (x y z : ℚ) (hx : |x| ≤ 0.70710677) (hy : |y| ≤ 0.70710677)
    (hz : |z| ≤ 0.70710677) : x * x + y * y + z * z ≤ 1.5 := by
  have k : ∀ t : ℚ, |t| ≤ 0.70710677 → t * t ≤ 0.70710677 * 0.70710677 := by
    intro t ht
    rw [← abs_mul_abs_self t]
    exact mul_le_mul ht ht (abs_nonneg t) (by norm_num)
  have := k x hx
  have := k y hy
  have := k z hz
  norm_num at *
  linarith

theorem magnitude_16_le (x : Nat) : D4nK16uC15u.magnitude x ≤ 32767 := by
  rw [magnitude_16_eq]
  omega

theorem magnitude_8_le (x : Nat) : D4nK8uC7u.magnitude x ≤ 127 := by
  rw [magnitude_8_eq]
  omega

/-- A stored component the 16-bit view decodes at the slot i, in exact rational
arithmetic. -/
theorem view16_stored (quat : Vector4 (Option ℚ))
    (data : GR2_curve_data_D4nK16uC15u (Option ℚ)) (x i : Nat) (hi : i < 4) :
    ∃ v : ℚ, ratOps.add (ratOps.mul (ratOps.ofInt ((x &&& 0x7fff : Nat) : Int))
        (rd ratOps (GR2_D4nK16uC15u_view.ctor ratOps quat data).scales i))
        (rd ratOps (GR2_D4nK16uC15u_view.ctor ratOps quat data).offsets i) = some v ∧
      |v| ≤ 0.70710677 := by
  obtain ⟨-, -, -, -, -, e6, e7, -⟩ := D4nK16uC15u_view_fields ratOps quat data
  rw [e6, e7, rd_of_getElem? _ _ _ _ (view_scale_entry ratOps _ i _ hi),
    rd_of_getElem? _ _ _ _ (view_offset_entry ratOps _ i hi)]
  exact stored_bound16 _ _ (selector_lt _ _) (magnitude_16_le x)

/-- A stored component the 8-bit view decodes at the slot i, in exact rational arithmetic. -/
theorem view8_stored (quat : Vector4 (Option ℚ))
    (data : GR2_curve_data_D4nK8uC7u (Option ℚ)) (x i : Nat) (hi : i < 4) :
    ∃ v : ℚ, ratOps.add (ratOps.mul (ratOps.ofInt ((x &&& 0x7f : Nat) : Int))
        (rd ratOps (GR2_D4nK8uC7u_view.ctor ratOps quat data).scales i))
        (rd ratOps (GR2_D4nK8uC7u_view.ctor ratOps quat data).offsets i) = some v ∧
      |v| ≤ 0.70710677 := by
  obtain ⟨-, -, -, -, -, e6, e7, -⟩ := D4nK8uC7u_view_fields ratOps quat data
  rw [e6, e7, rd_of_getElem? _ _ _ _ (view_scale_entry ratOps _ i _ hi),
    rd_of_getElem? _ _ _ _ (view_offset_entry ratOps _ i hi)]
  exact stored_bound8 _ _ (selector_lt _ _) (magnitude_8_le x)

/-- C19: in exact arithmetic on the literal constants, for every selector s in 0..15 and
every magnitude m in [0, 32767] the value m * (scale_table[s] * 0.000030518509) +
offset_table[s] is at most 0.70710677 in absolute value, and so is
m * (scale_table[s] * 0.0078740157) + offset_table[s] for every m in [0, 127]. Hence for
every input of a quaternion view the three stored components da, db, dc are finite, each at
most 0.70710677 in absolute value, and da^2 + db^2 + dc^2 <= 1.5. -/
theorem stored_component_range (s m16 m8 a b c : Nat) (quat : Vector4 (Option ℚ))
    (d16 : GR2_curve_data_D4nK16uC15u (Option ℚ)) (d8 : GR2_curve_data_D4nK8uC7u (Option ℚ))
    (hs : s < 16) (h16 : m16 ≤ 32767) (h8 : m8 ≤ 127) (hc : c < 65536) :
    (∃ v : ℚ, ratOps.add (ratOps.mul (ratOps.ofInt (m16 : Int))
        (ratOps.mul (rd ratOps (scale_table ratOps) s) (ratOps.lit 0.000030518509)))
        (rd ratOps (offset_table ratOps) s) = some v ∧ |v| ≤ 0.70710677) ∧
    (∃ v : ℚ, ratOps.add (ratOps.mul (ratOps.ofInt (m8 : Int))
        (ratOps.mul (rd ratOps (scale_table ratOps) s) (ratOps.lit 0.0078740157)))
        (rd ratOps (offset_table ratOps) s) = some v ∧ |v| ≤ 0.70710677) ∧
    (∃ x y z : ℚ,
      (decode_D4nK16uC15u ratOps quat a b c
          (GR2_D4nK16uC15u_view.ctor ratOps quat d16).scales
          (GR2_D4nK16uC15u_view.ctor ratOps quat d16).offsets).get?
        (swizzle_next (D4nK16uC15u.swizzle1 b c)) = some (some x) ∧
      (decode_D4nK16uC15u ratOps quat a b c
          (GR2_D4nK16uC15u_view.ctor ratOps quat d16).scales
          (GR2_D4nK16uC15u_view.ctor ratOps quat d16).offsets).get?
        (swizzle_next (swizzle_next (D4nK16uC15u.swizzle1 b c))) = some (some y) ∧
      (decode_D4nK16uC15u ratOps quat a b c
          (GR2_D4nK16uC15u_view.ctor ratOps quat d16).scales
          (GR2_D4nK16uC15u_view.ctor ratOps quat d16).offsets).get?
        (swizzle_next (swizzle_next (swizzle_next (D4nK16uC15u.swizzle1 b c)))) =
          some (some z) ∧
      |x| ≤ 0.70710677 ∧ |y| ≤ 0.70710677 ∧ |z| ≤ 0.70710677 ∧
      x * x + y * y + z * z ≤ 1.5) ∧
    (∃ x y z : ℚ,
      (decode_D4nK8uC7u ratOps quat a b c
          (GR2_D4nK8uC7u_view.ctor ratOps quat d8).scales
          (GR2_D4nK8uC7u_view.ctor ratOps quat d8).offsets).get?
        (swizzle_next (D4nK8uC7u.swizzle1 b c)) = some (some x) ∧
      (decode_D4nK8uC7u ratOps quat a b c
          (GR2_D4nK8uC7u_view.ctor ratOps quat d8).scales
          (GR2_D4nK8uC7u_view.ctor ratOps quat d8).offsets).get?
        (swizzle_next (swizzle_next (D4nK8uC7u.swizzle1 b c))) = some (some y) ∧
      (decode_D4nK8uC7u ratOps quat a b c
          (GR2_D4nK8uC7u_view.ctor ratOps quat d8).scales
          (GR2_D4nK8uC7u_view.ctor ratOps quat d8).offsets).get?
        (swizzle_next (swizzle_next (swizzle_next (D4nK8uC7u.swizzle1 b c)))) =
          some (some z) ∧
      |x| ≤ 0.70710677 ∧ |y| ≤ 0.70710677 ∧ |z| ≤ 0.70710677 ∧
      x * x + y * y + z * z ≤ 1.5) := by
  refine ⟨stored_bound16 s m16 hs h16, stored_bound8 s m8 hs h8, ?_, ?_⟩
  · have h := decode16_slots ratOps quat a b c
      (GR2_D4nK16uC15u_view.ctor ratOps quat d16).scales
      (GR2_D4nK16uC15u_view.ctor ratOps quat d16).offsets hc
    simp only [] at h
    obtain ⟨h2, h3, h4, -, ⟨-, l2, l3, l4⟩, -⟩ := h
    obtain ⟨x, ex, bx⟩ := view16_stored quat d16 a _ l2
    obtain ⟨y, ey, bY⟩ := view16_stored quat d16 b _ l3
    obtain ⟨z, ez, bz⟩ := view16_stored quat d16 c _ l4
    exact ⟨x, y, z, by rw [h2, ex], by rw [h3, ey], by rw [h4, ez], bx, bY, bz,
      sum_squares_bound x y z bx bY bz⟩
  · have h := decode8_slots ratOps quat a b c
      (GR2_D4nK8uC7u_view.ctor ratOps quat d8).scales
      (GR2_D4nK8uC7u_view.ctor ratOps quat d8).offsets
    simp only [] at h
    obtain ⟨h2, h3, h4, -, ⟨-, l2, l3, l4⟩, -⟩ := h
    obtain ⟨x, ex, bx⟩ := view8_stored quat d8 a _ l2
    obtain ⟨y, ey, bY⟩ := view8_stored quat d8 b _ l3
    obtain ⟨z, ez, bz⟩ := view8_stored quat d8 c _ l4
    exact ⟨x, y, z, by rw [h2, ex], by rw [h3, ey], by rw [h4, ez], bx, bY, bz,
      sum_squares_bound x y z bx bY bz⟩

/-- C19 at the selector 0 with the magnitudes 32767 and 127, where the stored component is
largest. -/
theorem stored_component_range_witness :
    ((0 : Nat) < 16 ∧ (32767 : Nat) ≤ 32767 ∧ (127 : Nat) ≤ 127 ∧ (0x7fff : Nat) < 65536) ∧
    (∃ v : ℚ, ratOps.add (ratOps.mul (ratOps.ofInt ((32767 : Nat) : Int))
        (ratOps.mul (rd ratOps (scale_table ratOps) 0) (ratOps.lit 0.000030518509)))
        (rd ratOps (offset_table ratOps) 0) = some v ∧ |v| ≤ 0.70710677) ∧
    (∃ v : ℚ, ratOps.add (ratOps.mul (ratOps.ofInt ((127 : Nat) : Int))
        (ratOps.mul (rd ratOps (scale_table ratOps) 0) (ratOps.lit 0.0078740157)))
        (rd ratOps (offset_table ratOps) 0) = some v ∧ |v| ≤ 0.70710677) := by
  have h := stored_component_range 0 32767 127 0x7fff 0x7fff 0x7fff
    ⟨some 9, some 9, some 9, some 9⟩
    { scale_offset_table_entries := 0, one_over_knot_scale := some 1,
      knots_controls_count := 4, knots_controls := fun i => [5, 10, 20, 30].getD i 0 }
    { scale_offset_table_entries := 0, one_over_knot_scale := some 1,
      knots_controls_count := 4, knots_controls := fun i => [5, 10, 20, 30].getD i 0 }
    (by decide) (by decide) (by decide) (by decide)
  exact ⟨⟨by decide, by decide, by decide, by decide⟩, h.1, h.2.1⟩

/-! ## C13: unit length -/

/-- The nearest magnitude of a value of the range [0, 32767]. -/
theorem nearest_magnitude (K : Type) [LinearOrderedField K] [FloorRing K] (t : K)
    (h0 : 0 ≤ t) (h1 : t ≤ 32767) : ∃ m : Nat, m ≤ 32767 ∧ |(m : K) - t| ≤ 1 / 2 := by
  have hpos : (0 : K) ≤ t + 1 / 2 := by linarith
  have hle := Nat.floor_le hpos
  have hlt := Nat.lt_floor_add_one (t + 1 / 2)
  refine ⟨⌊t + 1 / 2⌋₊, ?_, abs_le.2 ⟨by linarith, by linarith⟩⟩
  have h : (⌊t + 1 / 2⌋₊ : K) < 32768 := by linarith
  have h' : ⌊t + 1 / 2⌋₊ < 32768 := by exact_mod_cast h
  omega

/-- A value in the range of an axis decodes, from its nearest magnitude, to within half a
quantisation step. -/
theorem nearest_stored (K : Type) [LinearOrderedField K] [FloorRing K] (q sc off : K)
    (hsc : sc ≠ 0) (h0 : 0 ≤ (q - off) / sc) (h1 : (q - off) / sc ≤ 32767) :
    ∃ m : Nat, m ≤ 32767 ∧ |((m : K) * sc + off) - q| ≤ |sc| / 2 := by
  obtain ⟨m, hm, hd⟩ := nearest_magnitude K ((q - off) / sc) h0 h1
  refine ⟨m, hm, ?_⟩
  have e : ((m : K) * sc + off) - q = ((m : K) - (q - off) / sc) * sc := by
    field_simp
    ring
  rw [e, abs_mul]
  have := mul_le_mul_of_nonneg_right hd (abs_nonneg sc)
  linarith

/-- A flag bit h and a magnitude m packed into a 16-bit value. -/
theorem packed_value (h m : Nat) (hh : h ≤ 1) (hm : m ≤ 32767) :
    h * 32768 + m < 65536 ∧ D4nK16uC15u.magnitude (h * 32768 + m) = m ∧
      ((h * 32768 + m).testBit 15).toNat = h := by
  refine ⟨by omega, ?_, ?_⟩
  · rw [magnitude_16_eq]
    omega
  · rw [testBit_top _ 15 (by norm_num; omega)]
    norm_num
    omega

/-! ## Rounding to binary32 -/

theorem expBits_spec (x fuel j : Nat) (h : x >>> (2 ^ (j + fuel)) < 2 ^ 24) :
    x >>> (2 ^ Binary32.expBits x fuel j) < 2 ^ 24 := by
  induction fuel generalizing j with
  | zero => simpa [Binary32.expBits] using h
  | succ f ih =>
    simp only [Binary32.expBits]
    split
    · assumption
    · exact ih (j + 1) (by rwa [show j + 1 + f = j + (f + 1) from by omega])

theorem topBit_spec (x j e : Nat) (h1 : 2 ^ 24 ≤ x >>> e) (h2 : x >>> (e + 2 ^ j) < 2 ^ 24) :
    2 ^ 24 ≤ x >>> Binary32.topBit x j e ∧ x >>> (Binary32.topBit x j e + 1) < 2 ^ 24 := by
  induction j generalizing e with
  | zero => exact ⟨h1, by simpa [Binary32.topBit] using h2⟩
  | succ j ih =>
    simp only [Binary32.topBit]
    by_cases hc : 2 ^ 24 ≤ x >>> (e + 2 ^ j)
    · rw [if_pos hc]
      exact ih _ hc (by rwa [show e + 2 ^ j + 2 ^ j = e + 2 ^ (j + 1) from by rw [pow_succ]; omega])
    · rw [if_neg hc]
      exact ih _ h1 (by omega)

/-- The bits dropped from x: x is below 2^(24+k), and at least 2^(23+k) unless k is 0. -/
theorem dropBits_self (x : Nat) :
    x < 2 ^ (24 + Binary32.dropBits x) ∧
      (Binary32.dropBits x = 0 ∨ 2 ^ (23 + Binary32.dropBits x) ≤ x) := by
  simp only [Binary32.dropBits]
  by_cases hx : x < 2 ^ 24
  · rw [if_pos hx]
    exact ⟨by simpa using hx, Or.inl rfl⟩
  · rw [if_neg hx]
    have h0 : x >>> (2 ^ (0 + x)) < 2 ^ 24 := by
      rw [Nat.shiftRight_eq_div_pow, zero_add]
      have h1 : x < 2 ^ x := Nat.lt_two_pow x
      have h2 : 2 ^ x < 2 ^ 2 ^ x := Nat.pow_lt_pow_right (by norm_num) (Nat.lt_two_pow x)
      rw [Nat.div_eq_of_lt (by omega)]
      norm_num
    have hJ := expBits_spec x x 0 h0
    obtain ⟨t1, t2⟩ := topBit_spec x (Binary32.expBits x x 0) 0 (by simpa using not_lt.1 hx)
      (by simpa using hJ)
    generalize Binary32.topBit x (Binary32.expBits x x 0) 0 = t at t1 t2
    rw [Nat.shiftRight_eq_div_pow] at t1 t2
    constructor
    · rw [Nat.div_lt_iff_lt_mul (by positivity)] at t2
      rw [pow_add]
      exact t2
    · right
      rw [Nat.le_div_iff_mul_le (by positivity)] at t1
      calc 2 ^ (23 + (t + 1)) = 2 ^ 24 * 2 ^ t := by rw [← pow_add]; congr 1; omega
        _ ≤ x := t1

theorem dropBits_mono (x y : Nat) (h : x ≤ y) :
    Binary32.dropBits x ≤ Binary32.dropBits y := by
  obtain ⟨-, x2⟩ := dropBits_self x
  obtain ⟨y1, -⟩ := dropBits_self y
  by_contra hc
  push_neg at hc
  rcases x2 with x2 | x2
  · omega
  · have h3 : 2 ^ (24 + Binary32.dropBits y) ≤ 2 ^ (23 + Binary32.dropBits x) :=
      Nat.pow_le_pow_right (by norm_num) (by omega)
    omega

/-- Rounding on one grid: the nearest multiple does not decrease with the value. -/
theorem roundStep_mono (g a b : Nat) (h : a ≤ b) :
    (if 2 * (a % g) < g then a / g else if 2 * (a % g) = g ∧ a / g % 2 = 0 then a / g
      else a / g + 1) ≤
    (if 2 * (b % g) < g then b / g else if 2 * (b % g) = g ∧ b / g % 2 = 0 then b / g
      else b / g + 1) := by
  have hq : a / g ≤ b / g := Nat.div_le_div_right h
  have ea := Nat.div_add_mod a g
  have eb := Nat.div_add_mod b g
  rcases Nat.lt_or_ge (a / g) (b / g) with hlt | hge
  · split_ifs <;> omega
  · have e : a / g = b / g := by omega
    rw [e] at ea ⊢
    have hr : a % g ≤ b % g := by omega
    split_ifs <;> omega

/-- Rounding does not decrease with the value rounded. -/
theorem roundMag_mono (a b den : Nat) (hden : 0 < den) (h : a ≤ b) :
    Binary32.roundMag a den ≤ Binary32.roundMag b den := by
  have hN : a / den ≤ b / den := Nat.div_le_div_right h
  have hk := dropBits_mono _ _ hN
  obtain ⟨a1, -⟩ := dropBits_self (a / den)
  obtain ⟨-, b2⟩ := dropBits_self (b / den)
  simp only [Binary32.roundMag, Nat.shiftLeft_eq]
  rcases Nat.eq_or_lt_of_le hk with hk | hk
  · rw [← hk]
    exact Nat.mul_le_mul_right _
      (roundStep_mono _ a b h)
  · generalize Binary32.dropBits (a / den) = ka at *
    generalize Binary32.dropBits (b / den) = kb at *
    have hga : 0 < den * 2 ^ ka := Nat.mul_pos hden (by positivity)
    have hgb : 0 < den * 2 ^ kb := Nat.mul_pos hden (by positivity)
    have ha : a / (den * 2 ^ ka) < 2 ^ 24 := by
      rw [← Nat.div_div_eq_div_mul, Nat.div_lt_iff_lt_mul (by positivity)]
      rw [pow_add] at a1
      exact a1
    have hb : 2 ^ 23 ≤ b / (den * 2 ^ kb) := by
      rw [← Nat.div_div_eq_div_mul, Nat.le_div_iff_mul_le (by positivity)]
      rcases b2 with b2 | b2
      · omega
      · rw [pow_add] at b2
        exact b2
    have hle : (if 2 * (a % (den * 2 ^ ka)) < den * 2 ^ ka then a / (den * 2 ^ ka)
        else if 2 * (a % (den * 2 ^ ka)) = den * 2 ^ ka ∧ a / (den * 2 ^ ka) % 2 = 0
          then a / (den * 2 ^ ka) else a / (den * 2 ^ ka) + 1) ≤ 2 ^ 24 := by
      split_ifs <;> omega
    have hge : 2 ^ 23 ≤ (if 2 * (b % (den * 2 ^ kb)) < den * 2 ^ kb then b / (den * 2 ^ kb)
        else if 2 * (b % (den * 2 ^ kb)) = den * 2 ^ kb ∧ b / (den * 2 ^ kb) % 2 = 0
          then b / (den * 2 ^ kb) else b / (den * 2 ^ kb) + 1) := by
      split_ifs <;> omega
    calc _ ≤ 2 ^ 24 * 2 ^ ka := Nat.mul_le_mul_right _ hle
      _ = 2 ^ 23 * 2 ^ (ka + 1) := by rw [pow_succ]; ring
      _ ≤ 2 ^ 23 * 2 ^ kb :=
        Nat.mul_le_mul_left _ (Nat.pow_le_pow_right (by norm_num) hk)
      _ ≤ _ := Nat.mul_le_mul_right _ hge

/-- Rounded magnitudes in the float order. -/
theorem round_le_round (a b den : Nat) (hden : 0 < den) (h : a ≤ b) :
    Binary32.le (Binary32.round false a den) (Binary32.round false b den) = true := by
  have hm := roundMag_mono a b den hden h
  simp only [Binary32.round]
  split_ifs with h1 h2 h2
  · simpa [Binary32.le] using hm
  · rfl
  · omega
  · rfl

/-- An integer below 2^24 converts to float without rounding. -/
theorem ofInt_small (x : Nat) (hx : x < 2 ^ 24) :
    Binary32.ofInt (x : Int) = Binary32.fin false (x * 2 ^ 149) := by
  obtain ⟨k1, k2⟩ := dropBits_self (x * 2 ^ 149 / 1)
  have hN : x * 2 ^ 149 < 2 ^ 24 * 2 ^ 149 := Nat.mul_lt_mul_of_pos_right hx (by positivity)
  have hm : Binary32.roundMag (x * 2 ^ 149) 1 = x * 2 ^ 149 := by
    simp only [Binary32.roundMag, Nat.shiftLeft_eq]
    generalize Binary32.dropBits (x * 2 ^ 149 / 1) = k at *
    rw [Nat.div_one] at k2
    have hk : k ≤ 149 := by
      rcases k2 with k2 | k2
      · omega
      · by_contra hc
        push_neg at hc
        have h3 : 2 ^ (24 + 149) ≤ 2 ^ (23 + k) :=
          Nat.pow_le_pow_right (by norm_num) (by omega)
        rw [pow_add] at h3
        omega
    have hd : 2 ^ k ∣ x * 2 ^ 149 := Dvd.dvd.mul_left (pow_dvd_pow 2 hk) x
    have hr : x * 2 ^ 149 % (1 * 2 ^ k) = 0 := by
      rw [one_mul]
      exact Nat.mod_eq_zero_of_dvd hd
    rw [hr, if_pos (by positivity), one_mul]
    exact Nat.div_mul_cancel hd
  have hlt : x * 2 ^ 149 < 2 ^ 24 * 2 ^ 253 :=
    lt_of_lt_of_le hN (Nat.mul_le_mul_left _ (Nat.pow_le_pow_right (by norm_num) (by norm_num)))
  simp only [Binary32.ofInt, Binary32.round, Int.natAbs_ofNat, hm, if_pos hlt]
  congr 1

/-- A positive float is +infinity or a finite non-zero magnitude with the sign bit clear. -/
theorem pos_cases (s : Binary32) (h : Binary32.lt (Binary32.ofInt 0) s = true) :
    s = Binary32.inf false ∨ ∃ n, 0 < n ∧ s = Binary32.fin false n := by
  have h0 : Binary32.ofInt 0 = Binary32.fin false 0 := by simpa using ofInt_small 0 (by norm_num)
  rw [h0] at h
  cases s with
  | nan => simp [Binary32.lt, Binary32.le] at h
  | inf t =>
    cases t
    · exact Or.inl rfl
    · simp [Binary32.lt, Binary32.le] at h
  | fin t n =>
    cases t
    · right
      refine ⟨n, ?_, rfl⟩
      simp [Binary32.lt, Binary32.le] at h
      omega
    · simp [Binary32.lt, Binary32.le] at h

/-- Division by a positive float keeps the order of two integers below 2^24. -/
theorem knot_le_knot (s : Binary32) (hs : Binary32.lt (Binary32.ofInt 0) s = true)
    (x y : Nat) (hx : x < 2 ^ 24) (hy : y < 2 ^ 24) (h : x ≤ y) :
    Binary32.le (Binary32.div (Binary32.ofInt (x : Int)) s)
      (Binary32.div (Binary32.ofInt (y : Int)) s) = true := by
  rw [ofInt_small x hx, ofInt_small y hy]
  rcases pos_cases s hs with rfl | ⟨n, hn, rfl⟩
  · rfl
  · simp only [Binary32.div, if_neg (Nat.pos_iff_ne_zero.1 hn), Bool.xor_false]
    exact round_le_round _ _ n hn
      (Nat.mul_le_mul_right _ (Nat.mul_le_mul_right _ h))

/-! ## The constants of gr2.cpp in binary32 -/

/-- The decimal literals of gr2.cpp as binary32 bit patterns. -/
theorem binary32_literals :
    binary32Ops.lit 1.4142135 = Binary32.ofBits 0x3FB504F3 ∧
    binary32Ops.lit 0.70710677 = Binary32.ofBits 0x3F3504F3 ∧
    binary32Ops.lit 0.35355338 = Binary32.ofBits 0x3EB504F3 ∧
    binary32Ops.lit 0.17677669 = Binary32.ofBits 0x3E3504F3 ∧
    binary32Ops.lit 0.53033006 = Binary32.ofBits 0x3F07C3B6 ∧
    binary32Ops.lit 0.088388346 = Binary32.ofBits 0x3DB504F3 ∧
    binary32Ops.lit 0.0 = Binary32.ofBits 0 ∧
    binary32Ops.lit 0 = Binary32.ofBits 0 ∧
    binary32Ops.lit 0.000030518509 = Binary32.ofBits 0x38000100 ∧
    binary32Ops.lit 0.0078740157 = Binary32.ofBits 0x3C010204 := by
  refine ⟨?_, ?_, ?_, ?_, ?_, ?_, ?_, ?_, ?_, ?_⟩ <;>
  · simp only [binary32Ops, Binary32.lit]
    norm_num
    decide

/-- The table scale_table in binary32. -/
theorem scale_table_binary32 :
    scale_table binary32Ops =
      [Binary32.ofBits 0x3FB504F3, Binary32.ofBits 0x3F3504F3, Binary32.ofBits 0x3EB504F3,
       Binary32.ofBits 0x3EB504F3, Binary32.ofBits 0x3EB504F3, Binary32.ofBits 0x3E3504F3,
       Binary32.ofBits 0x3E3504F3, Binary32.ofBits 0x3E3504F3,
       Binary32.ofBits 0xBFB504F3, Binary32.ofBits 0xBF3504F3, Binary32.ofBits 0xBEB504F3,
       Binary32.ofBits 0xBEB504F3, Binary32.ofBits 0xBEB504F3, Binary32.ofBits 0xBE3504F3,
       Binary32.ofBits 0xBE3504F3, Binary32.ofBits 0xBE3504F3] := by
  obtain ⟨l1, l2, l3, l4, -⟩ := binary32_literals
  simp only [scale_table, l1, l2, l3, l4]
  decide

/-- The table offset_table in binary32; its last entry is -0.0. -/
theorem offset_table_binary32 :
    offset_table binary32Ops =
      [Binary32.ofBits 0xBF3504F3, Binary32.ofBits 0xBEB504F3, Binary32.ofBits 0xBF07C3B6,
       Binary32.ofBits 0xBE3504F3, Binary32.ofBits 0x3E3504F3, Binary32.ofBits 0xBE3504F3,
       Binary32.ofBits 0xBDB504F3, Binary32.ofBits 0x00000000,
       Binary32.ofBits 0x3F3504F3, Binary32.ofBits 0x3EB504F3, Binary32.ofBits 0x3F07C3B6,
       Binary32.ofBits 0x3E3504F3, Binary32.ofBits 0xBE3504F3, Binary32.ofBits 0x3E3504F3,
       Binary32.ofBits 0x3DB504F3, Binary32.ofBits 0x80000000] := by
  obtain ⟨-, l2, l3, l4, l5, l6, l7, -⟩ := binary32_literals
  simp only [offset_table, l2, l3, l4, l5, l6, l7]
  decide

/-- The scales and offsets the two quaternion views derive for the selector mask 0, in
binary32. -/
theorem mask_zero_binary32 :
    (List.range 4).map (fun i => binary32Ops.mul
        (rd binary32Ops (scale_table binary32Ops) ((compute_selectors 0).getD i 0))
        (binary32Ops.lit 0.000030518509)) =
      [Binary32.ofBits 0x3835065D, Binary32.ofBits 0x3835065D, Binary32.ofBits 0x3835065D,
        Binary32.ofBits 0x3835065D] ∧
    (List.range 4).map (fun i => binary32Ops.mul
        (rd binary32Ops (scale_table binary32Ops) ((compute_selectors 0).getD i 0))
        (binary32Ops.lit 0.0078740157)) =
      [Binary32.ofBits 0x3C3671D7, Binary32.ofBits 0x3C3671D7, Binary32.ofBits 0x3C3671D7,
        Binary32.ofBits 0x3C3671D7] ∧
    compute_offsets binary32Ops (compute_selectors 0) =
      [Binary32.ofBits 0xBF3504F3, Binary32.ofBits 0xBF3504F3, Binary32.ofBits 0xBF3504F3,
        Binary32.ofBits 0xBF3504F3] := by
  obtain ⟨-, -, -, -, -, -, -, l8, l9, l10⟩ := binary32_literals
  simp only [compute_offsets, rd, scale_table_binary32, offset_table_binary32, l8, l9, l10]
  decide

/-! ## C5: the square-root completion -/

/-- The square root of a float below zero is a NaN. -/
theorem sqrtf_of_negative (x : Binary32) (h : Binary32.lt x (binary32Ops.ofInt 0) = true) :
    binary32Ops.sqrtf x = Binary32.nan ∧
      binary32Ops.neg (binary32Ops.sqrtf x) = Binary32.nan := by
  have h0 : binary32Ops.ofInt 0 = Binary32.fin false 0 := by
    simpa using ofInt_small 0 (by norm_num)
  rw [h0] at h
  suffices hs : Binary32.sqrtf x = Binary32.nan from
    ⟨hs, by simp only [binary32Ops, hs, Binary32.neg]⟩
  cases x with
  | nan => simp [Binary32.lt, Binary32.le] at h
  | inf s =>
    cases s
    · simp [Binary32.lt, Binary32.le] at h
    · rfl
  | fin s n =>
    cases s
    · simp [Binary32.lt, Binary32.le] at h
    · have hn : n ≠ 0 := by
        intro e
        subst e
        simp [Binary32.lt, Binary32.le] at h
      simp [Binary32.sqrtf, hn]

/-- C5, as the code has it: for every float arithmetic and every input a, b, c, scales,
offsets of either quaternion codec, the component stored in slot swizzle1 is
sqrtf(1 - (da*da + db*db + dc*dc)), negated when the sign flag g is set. The radicand goes
to sqrtf as the subtraction leaves it: there is no max(0, .) on the way and what sqrtf
returns is stored as it is. In binary32, whenever the radicand so computed is below zero the
component stored in slot swizzle1 is a NaN, not zero. -/
theorem completion_not_clamped {F : Type} (ops : FloatOps F) (quat : Vector4 F)
    (a b c : Nat) (scales offsets : List F) (bquat : Vector4 Binary32)
    (bscales boffsets : List Binary32) (hc : c < 65536) :
    (let s1 := D4nK16uC15u.swizzle1 b c
      let da := ops.add (ops.mul (ops.ofInt (D4nK16uC15u.magnitude a))
        (rd ops scales (swizzle_next s1))) (rd ops offsets (swizzle_next s1))
      let db := ops.add (ops.mul (ops.ofInt (D4nK16uC15u.magnitude b))
        (rd ops scales (swizzle_next (swizzle_next s1))))
        (rd ops offsets (swizzle_next (swizzle_next s1)))
      let dc := ops.add (ops.mul (ops.ofInt (D4nK16uC15u.magnitude c))
        (rd ops scales (swizzle_next (swizzle_next (swizzle_next s1)))))
        (rd ops offsets (swizzle_next (swizzle_next (swizzle_next s1))))
      let radicand := ops.sub (ops.ofInt 1)
        (ops.add (ops.add (ops.mul da da) (ops.mul db db)) (ops.mul dc dc))
      (decode_D4nK16uC15u ops quat a b c scales offsets).get? s1 =
        some (if D4nK16uC15u.g a then ops.neg (ops.sqrtf radicand) else ops.sqrtf radicand)) ∧
    (let s1 := D4nK8uC7u.swizzle1 b c
      let da := ops.add (ops.mul (ops.ofInt (D4nK8uC7u.magnitude a))
        (rd ops scales (swizzle_next s1))) (rd ops offsets (swizzle_next s1))
      let db := ops.add (ops.mul (ops.ofInt (D4nK8uC7u.magnitude b))
        (rd ops scales (swizzle_next (swizzle_next s1))))
        (rd ops offsets (swizzle_next (swizzle_next s1)))
      let dc := ops.add (ops.mul (ops.ofInt (D4nK8uC7u.magnitude c))
        (rd ops scales (swizzle_next (swizzle_next (swizzle_next s1)))))
        (rd ops offsets (swizzle_next (swizzle_next (swizzle_next s1))))
      let radicand := ops.sub (ops.ofInt 1)
        (ops.add (ops.add (ops.mul da da) (ops.mul db db)) (ops.mul dc dc))
      (decode_D4nK8uC7u ops quat a b c scales offsets).get? s1 =
        some (if D4nK8uC7u.g a then ops.neg (ops.sqrtf radicand) else ops.sqrtf radicand)) ∧
    (let s1 := D4nK16uC15u.swizzle1 b c
      let da := binary32Ops.add (binary32Ops.mul (binary32Ops.ofInt (D4nK16uC15u.magnitude a))
        (rd binary32Ops bscales (swizzle_next s1))) (rd binary32Ops boffsets (swizzle_next s1))
      let db := binary32Ops.add (binary32Ops.mul (binary32Ops.ofInt (D4nK16uC15u.magnitude b))
        (rd binary32Ops bscales (swizzle_next (swizzle_next s1))))
        (rd binary32Ops boffsets (swizzle_next (swizzle_next s1)))
      let dc := binary32Ops.add (binary32Ops.mul (binary32Ops.ofInt (D4nK16uC15u.magnitude c))
        (rd binary32Ops bscales (swizzle_next (swizzle_next (swizzle_next s1)))))
        (rd binary32Ops boffsets (swizzle_next (swizzle_next (swizzle_next s1))))
      let radicand := binary32Ops.sub (binary32Ops.ofInt 1)
        (binary32Ops.add (binary32Ops.add (binary32Ops.mul da da) (binary32Ops.mul db db)) (binary32Ops.mul dc dc))
      Binary32.lt radicand (binary32Ops.ofInt 0) = true →
        (decode_D4nK16uC15u binary32Ops bquat a b c bscales boffsets).get? s1 = some Binary32.nan) ∧
    (let s1 := D4nK8uC7u.swizzle1 b c
      let da := binary32Ops.add (binary32Ops.mul (binary32Ops.ofInt (D4nK8uC7u.magnitude a))
        (rd binary32Ops bscales (swizzle_next s1))) (rd binary32Ops boffsets (swizzle_next s1))
      let db := binary32Ops.add (binary32Ops.mul (binary32Ops.ofInt (D4nK8uC7u.magnitude b))
        (rd binary32Ops bscales (swizzle_next (swizzle_next s1))))
        (rd binary32Ops boffsets (swizzle_next (swizzle_next s1)))
      let dc := binary32Ops.add (binary32Ops.mul (binary32Ops.ofInt (D4nK8uC7u.magnitude c))
        (rd binary32Ops bscales (swizzle_next (swizzle_next (swizzle_next s1)))))
        (rd binary32Ops boffsets (swizzle_next (swizzle_next (swizzle_next s1))))
      let radicand := binary32Ops.sub (binary32Ops.ofInt 1)
        (binary32Ops.add (binary32Ops.add (binary32Ops.mul da da) (binary32Ops.mul db db)) (binary32Ops.mul dc dc))
      Binary32.lt radicand (binary32Ops.ofInt 0) = true →
        (decode_D4nK8uC7u binary32Ops bquat a b c bscales boffsets).get? s1 = some Binary32.nan) := by
  have h16 := (decode16_slots ops quat a b c scales offsets hc).2.2.2.1
  have h8 := (decode8_slots ops quat a b c scales offsets).2.2.2.1
  have b16 := (decode16_slots binary32Ops bquat a b c bscales boffsets hc).2.2.2.1
  have b8 := (decode8_slots binary32Ops bquat a b c bscales boffsets).2.2.2.1
  simp only [← g_16_eq, ← g_8_eq] at h16 h8 b16 b8
  refine ⟨h16, h8, ?_, ?_⟩
  · intro s1 da db dc radicand hneg
    obtain ⟨e1, e2⟩ := sqrtf_of_negative radicand hneg
    rw [b16]
    by_cases hg : D4nK16uC15u.g a = true
    · rw [if_pos hg]
      exact congrArg some e2
    · rw [if_neg hg]
      exact congrArg some e1
  · intro s1 da db dc radicand hneg
    obtain ⟨e1, e2⟩ := sqrtf_of_negative radicand hneg
    rw [b8]
    by_cases hg : D4nK8uC7u.g a = true
    · rw [if_pos hg]
      exact congrArg some e2
    · rw [if_neg hg]
      exact congrArg some e1

/-- The square root of 1.0 is 1.0. -/
theorem sqrtf_one : binary32Ops.sqrtf (binary32Ops.ofInt 1) = binary32Ops.ofInt 1 := by
  have h1 : Binary32.ofInt 1 = Binary32.fin false (2 ^ 149) := by
    have h := ofInt_small 1 (by norm_num)
    simp only [Nat.cast_one, one_mul] at h
    exact h
  have hs : Nat.sqrt (2 ^ 149 * 2 ^ 149) = 2 ^ 149 := Nat.sqrt_eq _
  simp only [binary32Ops, h1, Binary32.sqrtf, hs]
  decide

/-- C5 in binary32, with the scale 0x36B5065D and the offset 0.0 the 16-bit view derives for
the selector 7 and the scale 0x3AB671D7 of the 8-bit view: the packed values 0, 0, 0 decode
the stored components to 0.0, the radicand is 1 - 0 and slot 0 holds sqrtf(1.0) = 1.0; with
the sign flag set (a = 0x8000, resp. 0x80) it holds -sqrtf(1.0). -/
theorem completion_not_clamped_witness :
    (0 : Nat) < 65536 ∧
    binary32Ops.sqrtf (binary32Ops.ofInt 1) = binary32Ops.ofInt 1 ∧
    (decode_D4nK16uC15u binary32Ops ⟨Binary32.nan, Binary32.nan, Binary32.nan, Binary32.nan⟩
        0 0 0
        [Binary32.ofBits 0x36B5065D, Binary32.ofBits 0x36B5065D, Binary32.ofBits 0x36B5065D,
          Binary32.ofBits 0x36B5065D]
        [Binary32.ofBits 0, Binary32.ofBits 0, Binary32.ofBits 0, Binary32.ofBits 0]).get? 0 =
      some (binary32Ops.sqrtf (binary32Ops.ofInt 1)) ∧
    (decode_D4nK16uC15u binary32Ops ⟨Binary32.nan, Binary32.nan, Binary32.nan, Binary32.nan⟩
        0x8000 0 0
        [Binary32.ofBits 0x36B5065D, Binary32.ofBits 0x36B5065D, Binary32.ofBits 0x36B5065D,
          Binary32.ofBits 0x36B5065D]
        [Binary32.ofBits 0, Binary32.ofBits 0, Binary32.ofBits 0, Binary32.ofBits 0]).get? 0 =
      some (binary32Ops.neg (binary32Ops.sqrtf (binary32Ops.ofInt 1))) ∧
    (decode_D4nK8uC7u binary32Ops ⟨Binary32.nan, Binary32.nan, Binary32.nan, Binary32.nan⟩
        0 0 0
        [Binary32.ofBits 0x3AB671D7, Binary32.ofBits 0x3AB671D7, Binary32.ofBits 0x3AB671D7,
          Binary32.ofBits 0x3AB671D7]
        [Binary32.ofBits 0, Binary32.ofBits 0, Binary32.ofBits 0, Binary32.ofBits 0]).get? 0 =
      some (binary32Ops.sqrtf (binary32Ops.ofInt 1)) ∧
    (decode_D4nK8uC7u binary32Ops ⟨Binary32.nan, Binary32.nan, Binary32.nan, Binary32.nan⟩
        0x80 0 0
        [Binary32.ofBits 0x3AB671D7, Binary32.ofBits 0x3AB671D7, Binary32.ofBits 0x3AB671D7,
          Binary32.ofBits 0x3AB671D7]
        [Binary32.ofBits 0, Binary32.ofBits 0, Binary32.ofBits 0, Binary32.ofBits 0]).get? 0 =
      some (binary32Ops.neg (binary32Ops.sqrtf (binary32Ops.ofInt 1))) := by
  have h0 := completion_not_clamped binary32Ops
    ⟨Binary32.nan, Binary32.nan, Binary32.nan, Binary32.nan⟩ 0 0 0
    [Binary32.ofBits 0x36B5065D, Binary32.ofBits 0x36B5065D, Binary32.ofBits 0x36B5065D,
      Binary32.ofBits 0x36B5065D]
    [Binary32.ofBits 0, Binary32.ofBits 0, Binary32.ofBits 0, Binary32.ofBits 0]
    ⟨Binary32.nan, Binary32.nan, Binary32.nan, Binary32.nan⟩ [] [] (by decide)
  have h1 := completion_not_clamped binary32Ops
    ⟨Binary32.nan, Binary32.nan, Binary32.nan, Binary32.nan⟩ 0x8000 0 0
    [Binary32.ofBits 0x36B5065D, Binary32.ofBits 0x36B5065D, Binary32.ofBits 0x36B5065D,
      Binary32.ofBits 0x36B5065D]
    [Binary32.ofBits 0, Binary32.ofBits 0, Binary32.ofBits 0, Binary32.ofBits 0]
    ⟨Binary32.nan, Binary32.nan, Binary32.nan, Binary32.nan⟩ [] [] (by decide)
  have h2 := completion_not_clamped binary32Ops
    ⟨Binary32.nan, Binary32.nan, Binary32.nan, Binary32.nan⟩ 0 0 0
    [Binary32.ofBits 0x3AB671D7, Binary32.ofBits 0x3AB671D7, Binary32.ofBits 0x3AB671D7,
      Binary32.ofBits 0x3AB671D7]
    [Binary32.ofBits 0, Binary32.ofBits 0, Binary32.ofBits 0, Binary32.ofBits 0]
    ⟨Binary32.nan, Binary32.nan, Binary32.nan, Binary32.nan⟩ [] [] (by decide)
  have h3 := completion_not_clamped binary32Ops
    ⟨Binary32.nan, Binary32.nan, Binary32.nan, Binary32.nan⟩ 0x80 0 0
    [Binary32.ofBits 0x3AB671D7, Binary32.ofBits 0x3AB671D7, Binary32.ofBits 0x3AB671D7,
      Binary32.ofBits 0x3AB671D7]
    [Binary32.ofBits 0, Binary32.ofBits 0, Binary32.ofBits 0, Binary32.ofBits 0]
    ⟨Binary32.nan, Binary32.nan, Binary32.nan, Binary32.nan⟩ [] [] (by decide)
  refine ⟨by decide, sqrtf_one, ?_, ?_, ?_, ?_⟩
  · have h := h0.1
    simp only [show D4nK16uC15u.swizzle1 0 0 = 0 from by decide,
      show D4nK16uC15u.g 0 = false from by decide, Bool.false_eq_true, if_false] at h
    rw [h]
    refine congrArg some (congrArg binary32Ops.sqrtf ?_)
    decide
  · have h := h1.1
    simp only [show D4nK16uC15u.swizzle1 0 0 = 0 from by decide,
      show D4nK16uC15u.g 0x8000 = true from by decide, if_true] at h
    rw [h]
    refine congrArg some (congrArg binary32Ops.neg (congrArg binary32Ops.sqrtf ?_))
    decide
  · have h := h2.2.1
    simp only [show D4nK8uC7u.swizzle1 0 0 = 0 from by decide,
      show D4nK8uC7u.g 0 = false from by decide, Bool.false_eq_true, if_false] at h
    rw [h]
    refine congrArg some (congrArg binary32Ops.sqrtf ?_)
    decide
  · have h := h3.2.1
    simp only [show D4nK8uC7u.swizzle1 0 0 = 0 from by decide,
      show D4nK8uC7u.g 0x80 = true from by decide, if_true] at h
    rw [h]
    refine congrArg some (congrArg binary32Ops.neg (congrArg binary32Ops.sqrtf ?_))
    decide

/-- C5 fails on the code. In binary32, with the selector mask 0 and every magnitude at its
maximum (0x7fff, resp. 0x7f), both views decode the three stored components to 0x3F3504F3
(0.70710677): the sum of their squares is above 1, as the floats compute it and exactly, and
slot 0 = swizzle1 of the decoded quaternion is a NaN, not zero. -/
theorem completion_clamp_counterexample :
    (GR2_D4nK16uC15u_view.ctor binary32Ops
        ⟨binary32Ops.ofInt 0, binary32Ops.ofInt 0, binary32Ops.ofInt 0, binary32Ops.ofInt 0⟩
        { scale_offset_table_entries := 0, one_over_knot_scale := binary32Ops.ofInt 1,
          knots_controls_count := 3,
          knots_controls := fun i => [0x7fff, 0x7fff, 0x7fff].getD i 0 }).controls =
      [⟨Binary32.nan, Binary32.ofBits 0x3F3504F3, Binary32.ofBits 0x3F3504F3,
        Binary32.ofBits 0x3F3504F3⟩] ∧
    (GR2_D4nK8uC7u_view.ctor binary32Ops
        ⟨binary32Ops.ofInt 0, binary32Ops.ofInt 0, binary32Ops.ofInt 0, binary32Ops.ofInt 0⟩
        { scale_offset_table_entries := 0, one_over_knot_scale := binary32Ops.ofInt 1,
          knots_controls_count := 3,
          knots_controls := fun i => [0x7f, 0x7f, 0x7f].getD i 0 }).controls =
      [⟨Binary32.nan, Binary32.ofBits 0x3F3504F3, Binary32.ofBits 0x3F3504F3,
        Binary32.ofBits 0x3F3504F3⟩] ∧
    D4nK16uC15u.swizzle1 0x7fff 0x7fff = 0 ∧ D4nK8uC7u.swizzle1 0x7f 0x7f = 0 ∧
    Binary32.lt (binary32Ops.ofInt 1)
      (binary32Ops.add
        (binary32Ops.add
          (binary32Ops.mul (Binary32.ofBits 0x3F3504F3) (Binary32.ofBits 0x3F3504F3))
          (binary32Ops.mul (Binary32.ofBits 0x3F3504F3) (Binary32.ofBits 0x3F3504F3)))
        (binary32Ops.mul (Binary32.ofBits 0x3F3504F3) (Binary32.ofBits 0x3F3504F3))) = true ∧
    (1 : ℚ) < Binary32.toRat (Binary32.ofBits 0x3F3504F3) *
          Binary32.toRat (Binary32.ofBits 0x3F3504F3) +
        Binary32.toRat (Binary32.ofBits 0x3F3504F3) *
          Binary32.toRat (Binary32.ofBits 0x3F3504F3) +
        Binary32.toRat (Binary32.ofBits 0x3F3504F3) *
          Binary32.toRat (Binary32.ofBits 0x3F3504F3) ∧
    Binary32.nan ≠ binary32Ops.ofInt 0 ∧ Binary32.nan ≠ binary32Ops.neg (binary32Ops.ofInt 0) := by
  obtain ⟨m16, m8, mo⟩ := mask_zero_binary32
  refine ⟨?_, ?_, by decide, by decide, by decide, ?_, by decide, by decide⟩
  · rw [GR2_D4nK16uC15u_view.controls, (D4nK16uC15u_view_fields _ _ _).2.2.2.1]
    simp only [m16, mo]
    decide
  · rw [GR2_D4nK8uC7u_view.controls, (D4nK8uC7u_view_fields _ _ _).2.2.2.1]
    simp only [m8, mo]
    decide
  · have e : Binary32.ofBits 0x3F3504F3 = Binary32.fin false (11863283 * 2 ^ 125) := by decide
    rw [e]
    simp only [Binary32.toRat]
    norm_num

/-! ## C11: the truncated knot scale -/

/-- The word 0x3F800000 is the float 1.0. -/
theorem binary32_ofBits_one : binary32Ops.ofBits 0x3F800000 = binary32Ops.ofInt 1 := by decide

/-- C11: for every 16-bit value t of one_over_knot_scale_trunc, the 32-bit word the D3K8uC8u
constructor reinterprets as the knot scale is t * 65536: its upper 16 bits are t, its lower
16 bits are zero and it is below 2^32, so no bit of t is lost; knots() of the constructed
view is the list of the N/4 raw knots, each divided by the float with that bit pattern. For
t = 0x3F80 the word is 0x3F800000: sign 0, biased exponent 127, mantissa 0, the bit pattern
of exactly 1.0, in binary32 and in exact arithmetic. -/
theorem knot_scale_word {F : Type} (ops : FloatOps F) (data : GR2_curve_data_D3K8uC8u F)
    (ht : data.one_over_knot_scale_trunc < 65536) :
    (data.one_over_knot_scale_trunc <<< 16) % 2 ^ 32 =
        data.one_over_knot_scale_trunc * 65536 ∧
      data.one_over_knot_scale_trunc * 65536 < 2 ^ 32 ∧
      data.one_over_knot_scale_trunc * 65536 / 65536 = data.one_over_knot_scale_trunc ∧
      data.one_over_knot_scale_trunc * 65536 % 65536 = 0 ∧
      (GR2_D3K8uC8u_view.ctor ops data).knots =
        (List.range (data.knots_controls_count / 4)).map (fun i =>
          ops.div (ops.ofInt (data.knots_controls i))
            (ops.ofBits (data.one_over_knot_scale_trunc * 65536))) ∧
      (GR2_D3K8uC8u_view.ctor ops data).knots =
        (GR2_D3K8uC8u_view.ctor ops data).encoded_knots.map (fun (k : Nat) =>
          ops.div (ops.ofInt (k : Int))
            (ops.ofBits (data.one_over_knot_scale_trunc * 65536))) ∧
      ((0x3F80 <<< 16) % 2 ^ 32 = 0x3F800000 ∧ 0x3F800000 / 2 ^ 31 % 2 = 0 ∧
        0x3F800000 / 2 ^ 23 % 256 = 127 ∧ 0x3F800000 % 2 ^ 23 = 0 ∧
        binary32Ops.ofBits 0x3F800000 = binary32Ops.ofInt 1 ∧
        ∀ (K : Type) [LinearOrderedField K] (root : K → K),
          (exactOps K root).ofBits 0x3F800000 = some 1) := by
  have e : (data.one_over_knot_scale_trunc <<< 16) % 2 ^ 32 =
      data.one_over_knot_scale_trunc * 65536 := by
    rw [Nat.shiftLeft_eq]
    norm_num
    omega
  obtain ⟨e1, e2, -⟩ := D3K8uC8u_view_fields ops data
  refine ⟨e, by norm_num; omega, by omega, by omega, ?_, ?_,
    by decide, by decide, by decide, by decide, binary32_ofBits_one,
    fun K _ root => exact_ofBits_one K root⟩
  · rw [GR2_D3K8uC8u_view.knots, e2, e]
  · simp only [GR2_D3K8uC8u_view.knots, GR2_D3K8uC8u_view.encoded_knots, e1, e2, e,
      List.map_map, Function.comp_def]

/-- C11 at t = 0x3F80 with the one raw knot 7: the constructor divides it by the float
0x3F800000 and knots() is [7.0], in exact rational arithmetic and in binary32. -/
theorem knot_scale_word_witness :
    (0x3F80 : Nat) < 65536 ∧
    (GR2_D3K8uC8u_view.ctor ratOps
        { one_over_knot_scale_trunc := 0x3F80, control_scales := [some 1, some 1, some 1],
          control_offsets := [some 0, some 0, some 0], knots_controls_count := 4,
          knots_controls := fun i => [7, 10, 20, 30].getD i 0 }).knots = [some 7] ∧
    (GR2_D3K8uC8u_view.ctor binary32Ops
        { one_over_knot_scale_trunc := 0x3F80, control_scales := [], control_offsets := [],
          knots_controls_count := 4,
          knots_controls := fun i => [7, 10, 20, 30].getD i 0 }).knots =
      [binary32Ops.ofInt 7] := by
  have h := knot_scale_word ratOps
    { one_over_knot_scale_trunc := 0x3F80, control_scales := [some 1, some 1, some 1],
      control_offsets := [some 0, some 0, some 0], knots_controls_count := 4,
      knots_controls := fun i => [7, 10, 20, 30].getD i 0 } (by decide)
  have hb := knot_scale_word binary32Ops
    { one_over_knot_scale_trunc := 0x3F80, control_scales := [], control_offsets := [],
      knots_controls_count := 4,
      knots_controls := fun i => [7, 10, 20, 30].getD i 0 } (by decide)
  have h1 : ratOps.ofBits (0x3F80 * 65536) = some 1 := exact_ofBits_one ℚ ratSqrt
  refine ⟨by decide, ?_, ?_⟩
  · rw [h.2.2.2.2.1]
    simp only [h1, List.range_succ, List.range_zero, List.nil_append, List.map_cons,
      List.map_nil, List.getD_cons_zero, ratOps, exact_ofInt]
    norm_num
    rw [show (1065353216 : Nat) = 0x3F800000 from rfl, exact_ofBits_one, exact_div]
    norm_num
  · rw [hb.2.2.2.2.1]
    decide

/-! ## C20: knot decoding preserves order -/

/-- Entries of a list in order go to entries in order under a map that keeps the order of
values below a bound. -/
theorem mapped_order {F : Type} (l : List Nat) (f : Nat → F) (R : F → F → Prop) (B : Nat)
    (hB : ∀ x ∈ l, x < B) (hf : ∀ x y, x < B → y < B → x ≤ y → R (f x) (f y))
    (i j x y : Nat) (hi : l[i]? = some x) (hj : l[j]? = some y) (h : x ≤ y) :
    ∃ u v, (l.map f)[i]? = some u ∧ (l.map f)[j]? = some v ∧ R u v := by
  refine ⟨f x, f y, by simp [List.getElem?_map, hi], by simp [List.getElem?_map, hj], ?_⟩
  exact hf x y (hB x (List.getElem?_mem hi)) (hB y (List.getElem?_mem hj)) h

theorem mapped_equal {F : Type} (l : List Nat) (f : Nat → F)
    (i j x : Nat) (hi : l[i]? = some x) (hj : l[j]? = some x) :
    (l.map f)[i]? = (l.map f)[j]? := by
  simp [List.getElem?_map, hi, hj]

theorem getD_lt (l : List Nat) (B : Nat) (h : ∀ x ∈ l, x < B) (hB : 0 < B) (i : Nat) :
    l.getD i 0 < B := by
  rw [List.getD_eq_getElem?_getD]
  cases e : l[i]? with
  | none => simpa using hB
  | some x => simpa using h x (List.getElem?_mem e)

theorem range_map_lt (buf : Nat → Nat) (n B : Nat) (h : ∀ i, buf i < B) :
    ∀ x ∈ (List.range n).map buf, x < B := by
  intro x hx
  obtain ⟨i, -, rfl⟩ := List.mem_map.1 hx
  exact h i

/-- C20: for every float arithmetic and each of the three views, knots() is encoded_knots()
divided by the knot scale entry by entry, knots()[i] = encoded_knots()[i] / scale for every
i < N/4, so equal raw knots decode to equal times. In binary32, where each quotient is
rounded to nearest, for every positive knot scale (+infinity included) and raw knots of the
width of the buffer (uint8_t or uint16_t), wherever two raw knots are in order
(encoded_knots()[i] <= encoded_knots()[j]) the decoded knots are in the same order as
floats: rounding a quotient to nearest does not invert an order, and a quotient that
overflows is +infinity, the largest float. -/
theorem knots_preserve_order {F : Type} (ops : FloatOps F) (quat : Vector4 F)
    (d3 : GR2_curve_data_D3K8uC8u F) (d16 : GR2_curve_data_D4nK16uC15u F)
    (d8 : GR2_curve_data_D4nK8uC7u F) (bquat : Vector4 Binary32)
    (b3 : GR2_curve_data_D3K8uC8u Binary32) (b16 : GR2_curve_data_D4nK16uC15u Binary32)
    (b8 : GR2_curve_data_D4nK8uC7u Binary32)
    (p3 : Binary32.lt (Binary32.ofInt 0)
      (binary32Ops.ofBits ((b3.one_over_knot_scale_trunc <<< 16) % 2 ^ 32)) = true)
    (p16 : Binary32.lt (Binary32.ofInt 0) b16.one_over_knot_scale = true)
    (p8 : Binary32.lt (Binary32.ofInt 0) b8.one_over_knot_scale = true)
    (w3 : ∀ i, b3.knots_controls i < 256) (w16 : ∀ i, b16.knots_controls i < 65536)
    (w8 : ∀ i, b8.knots_controls i < 256) :
    ((GR2_D3K8uC8u_view.ctor ops d3).knots =
        (GR2_D3K8uC8u_view.ctor ops d3).encoded_knots.map (fun (k : Nat) =>
          ops.div (ops.ofInt (k : Int)) (ops.ofBits ((d3.one_over_knot_scale_trunc <<< 16) % 2 ^ 32))) ∧
      (GR2_D3K8uC8u_view.ctor ops d3).knots.length = d3.knots_controls_count / 4 ∧
      (∀ (i j x : Nat), (GR2_D3K8uC8u_view.ctor ops d3).encoded_knots[i]? = some x →
        (GR2_D3K8uC8u_view.ctor ops d3).encoded_knots[j]? = some x →
        (GR2_D3K8uC8u_view.ctor ops d3).knots[i]? = (GR2_D3K8uC8u_view.ctor ops d3).knots[j]?)) ∧
    ((GR2_D4nK16uC15u_view.ctor ops quat d16).knots =
        (GR2_D4nK16uC15u_view.ctor ops quat d16).encoded_knots.map (fun (k : Nat) =>
          ops.div (ops.ofInt (k : Int)) (d16.one_over_knot_scale)) ∧
      (GR2_D4nK16uC15u_view.ctor ops quat d16).knots.length = d16.knots_controls_count / 4 ∧
      (∀ (i j x : Nat), (GR2_D4nK16uC15u_view.ctor ops quat d16).encoded_knots[i]? = some x →
        (GR2_D4nK16uC15u_view.ctor ops quat d16).encoded_knots[j]? = some x →
        (GR2_D4nK16uC15u_view.ctor ops quat d16).knots[i]? = (GR2_D4nK16uC15u_view.ctor ops quat d16).knots[j]?)) ∧
    ((GR2_D4nK8uC7u_view.ctor ops quat d8).knots =
        (GR2_D4nK8uC7u_view.ctor ops quat d8).encoded_knots.map (fun (k : Nat) =>
          ops.div (ops.ofInt (k : Int)) (d8.one_over_knot_scale)) ∧
      (GR2_D4nK8uC7u_view.ctor ops quat d8).knots.length = d8.knots_controls_count / 4 ∧
      (∀ (i j x : Nat), (GR2_D4nK8uC7u_view.ctor ops quat d8).encoded_knots[i]? = some x →
        (GR2_D4nK8uC7u_view.ctor ops quat d8).encoded_knots[j]? = some x →
        (GR2_D4nK8uC7u_view.ctor ops quat d8).knots[i]? = (GR2_D4nK8uC7u_view.ctor ops quat d8).knots[j]?)) ∧
    (∀ (i j x y : Nat), (GR2_D3K8uC8u_view.ctor binary32Ops b3).encoded_knots[i]? = some x →
      (GR2_D3K8uC8u_view.ctor binary32Ops b3).encoded_knots[j]? = some y → x ≤ y →
      ∃ u v : Binary32, (GR2_D3K8uC8u_view.ctor binary32Ops b3).knots[i]? = some u ∧
        (GR2_D3K8uC8u_view.ctor binary32Ops b3).knots[j]? = some v ∧ Binary32.le u v = true) ∧
    (∀ (i j x y : Nat), (GR2_D4nK16uC15u_view.ctor binary32Ops bquat b16).encoded_knots[i]? = some x →
      (GR2_D4nK16uC15u_view.ctor binary32Ops bquat b16).encoded_knots[j]? = some y → x ≤ y →
      ∃ u v : Binary32, (GR2_D4nK16uC15u_view.ctor binary32Ops bquat b16).knots[i]? = some u ∧
        (GR2_D4nK16uC15u_view.ctor binary32Ops bquat b16).knots[j]? = some v ∧ Binary32.le u v = true) ∧
    (∀ (i j x y : Nat), (GR2_D4nK8uC7u_view.ctor binary32Ops bquat b8).encoded_knots[i]? = some x →
      (GR2_D4nK8uC7u_view.ctor binary32Ops bquat b8).encoded_knots[j]? = some y → x ≤ y →
      ∃ u v : Binary32, (GR2_D4nK8uC7u_view.ctor binary32Ops bquat b8).knots[i]? = some u ∧
        (GR2_D4nK8uC7u_view.ctor binary32Ops bquat b8).knots[j]? = some v ∧ Binary32.le u v = true) := by
  refine ⟨?_, ?_, ?_, ?_, ?_, ?_⟩
  · obtain ⟨e1, e2, -⟩ := D3K8uC8u_view_fields ops d3
    refine ⟨?_, ?_, ?_⟩
    · simp only [GR2_D3K8uC8u_view.knots, GR2_D3K8uC8u_view.encoded_knots, e1, e2, List.map_map,
        Function.comp_def]
    · simp [GR2_D3K8uC8u_view.knots, e2]
    · intro i j x hi hj
      simp only [GR2_D3K8uC8u_view.knots, GR2_D3K8uC8u_view.encoded_knots, e1, e2] at hi hj ⊢
      have e : ∀ n : Nat, (List.range n).map (fun i =>
          ops.div (ops.ofInt (d3.knots_controls i : Int)) (ops.ofBits ((d3.one_over_knot_scale_trunc <<< 16) % 2 ^ 32))) =
          ((List.range n).map d3.knots_controls).map (fun (k : Nat) =>
            ops.div (ops.ofInt (k : Int)) (ops.ofBits ((d3.one_over_knot_scale_trunc <<< 16) % 2 ^ 32))) := by
        intro n
        simp only [List.map_map, Function.comp_def]
      rw [e]
      exact mapped_equal _ _ i j x hi hj
  · obtain ⟨e1, e2, -⟩ := D4nK16uC15u_view_fields ops quat d16
    refine ⟨?_, ?_, ?_⟩
    · simp only [GR2_D4nK16uC15u_view.knots, GR2_D4nK16uC15u_view.encoded_knots, e1, e2, List.map_map,
        Function.comp_def]
    · simp [GR2_D4nK16uC15u_view.knots, e2]
    · intro i j x hi hj
      simp only [GR2_D4nK16uC15u_view.knots, GR2_D4nK16uC15u_view.encoded_knots, e1, e2] at hi hj ⊢
      have e : ∀ n : Nat, (List.range n).map (fun i =>
          ops.div (ops.ofInt (d16.knots_controls i : Int)) d16.one_over_knot_scale) =
          ((List.range n).map d16.knots_controls).map (fun (k : Nat) =>
            ops.div (ops.ofInt (k : Int)) d16.one_over_knot_scale) := by
        intro n
        simp only [List.map_map, Function.comp_def]
      rw [e]
      exact mapped_equal _ _ i j x hi hj
  · obtain ⟨e1, e2, -⟩ := D4nK8uC7u_view_fields ops quat d8
    refine ⟨?_, ?_, ?_⟩
    · simp only [GR2_D4nK8uC7u_view.knots, GR2_D4nK8uC7u_view.encoded_knots, e1, e2, List.map_map,
        Function.comp_def]
    · simp [GR2_D4nK8uC7u_view.knots, e2]
    · intro i j x hi hj
      simp only [GR2_D4nK8uC7u_view.knots, GR2_D4nK8uC7u_view.encoded_knots, e1, e2] at hi hj ⊢
      have e : ∀ n : Nat, (List.range n).map (fun i =>
          ops.div (ops.ofInt (d8.knots_controls i : Int)) d8.one_over_knot_scale) =
          ((List.range n).map d8.knots_controls).map (fun (k : Nat) =>
            ops.div (ops.ofInt (k : Int)) d8.one_over_knot_scale) := by
        intro n
        simp only [List.map_map, Function.comp_def]
      rw [e]
      exact mapped_equal _ _ i j x hi hj
  · obtain ⟨e1, e2, -⟩ := D3K8uC8u_view_fields binary32Ops b3
    intro i j x y hi hj hxy
    simp only [GR2_D3K8uC8u_view.knots, GR2_D3K8uC8u_view.encoded_knots, e1, e2] at hi hj ⊢
    have e : ∀ n : Nat, (List.range n).map (fun i =>
        binary32Ops.div (binary32Ops.ofInt (b3.knots_controls i : Int)) (binary32Ops.ofBits ((b3.one_over_knot_scale_trunc <<< 16) % 2 ^ 32))) =
        ((List.range n).map b3.knots_controls).map (fun (k : Nat) =>
          binary32Ops.div (binary32Ops.ofInt (k : Int)) (binary32Ops.ofBits ((b3.one_over_knot_scale_trunc <<< 16) % 2 ^ 32))) := by
      intro n
      simp only [List.map_map, Function.comp_def]
    rw [e]
    exact mapped_order _ _ (fun u v => Binary32.le u v = true) 256
      (range_map_lt _ _ _ w3)
      (fun a b ha hb hab => knot_le_knot _ p3 a b (by omega) (by omega) hab) i j x y hi hj hxy
  · obtain ⟨e1, e2, -⟩ := D4nK16uC15u_view_fields binary32Ops bquat b16
    intro i j x y hi hj hxy
    simp only [GR2_D4nK16uC15u_view.knots, GR2_D4nK16uC15u_view.encoded_knots, e1, e2] at hi hj ⊢
    have e : ∀ n : Nat, (List.range n).map (fun i =>
        binary32Ops.div (binary32Ops.ofInt (b16.knots_controls i : Int)) b16.one_over_knot_scale) =
        ((List.range n).map b16.knots_controls).map (fun (k : Nat) =>
          binary32Ops.div (binary32Ops.ofInt (k : Int)) b16.one_over_knot_scale) := by
      intro n
      simp only [List.map_map, Function.comp_def]
    rw [e]
    exact mapped_order _ _ (fun u v => Binary32.le u v = true) 65536
      (range_map_lt _ _ _ w16)
      (fun a b ha hb hab => knot_le_knot _ p16 a b (by omega) (by omega) hab) i j x y hi hj hxy
  · obtain ⟨e1, e2, -⟩ := D4nK8uC7u_view_fields binary32Ops bquat b8
    intro i j x y hi hj hxy
    simp only [GR2_D4nK8uC7u_view.knots, GR2_D4nK8uC7u_view.encoded_knots, e1, e2] at hi hj ⊢
    have e : ∀ n : Nat, (List.range n).map (fun i =>
        binary32Ops.div (binary32Ops.ofInt (b8.knots_controls i : Int)) b8.one_over_knot_scale) =
        ((List.range n).map b8.knots_controls).map (fun (k : Nat) =>
          binary32Ops.div (binary32Ops.ofInt (k : Int)) b8.one_over_knot_scale) := by
      intro n
      simp only [List.map_map, Function.comp_def]
    rw [e]
    exact mapped_order _ _ (fun u v => Binary32.le u v = true) 256
      (range_map_lt _ _ _ w8)
      (fun a b ha hb hab => knot_le_knot _ p8 a b (by omega) (by omega) hab) i j x y hi hj hxy

/-- C20 in binary32 on buffers of 8 elements. The D3K8uC8u scale word 0x0080 is the float
2^-126: the raw knots 3 and 4 decode to 3 * 2^126 and, by overflow, to +infinity. The
16-bit view has the scale +infinity: its raw knots 5 and 9 both decode to 0.0. The 8-bit
view has the scale 3.0: its raw knots 1 and 2 decode to the floats nearest to 1/3 and 2/3.
Each pair is in order. -/
theorem knots_preserve_order_witness :
    (Binary32.lt (Binary32.ofInt 0) (binary32Ops.ofBits ((0x0080 <<< 16) % 2 ^ 32)) = true ∧
      Binary32.lt (Binary32.ofInt 0) (Binary32.inf false) = true ∧
      Binary32.lt (Binary32.ofInt 0) (Binary32.ofInt 3) = true) ∧
    ((GR2_D3K8uC8u_view.ctor binary32Ops
        { one_over_knot_scale_trunc := 0x0080, control_scales := [], control_offsets := [],
          knots_controls_count := 8,
          knots_controls := fun i => [3, 4, 1, 2, 3, 4, 5, 6].getD i 0 }).knots =
        [Binary32.ofBits 0x7F400000, Binary32.inf false] ∧
      Binary32.le (Binary32.ofBits 0x7F400000) (Binary32.inf false) = true) ∧
    ((GR2_D4nK16uC15u_view.ctor binary32Ops ⟨Binary32.nan, Binary32.nan, Binary32.nan,
          Binary32.nan⟩
        { scale_offset_table_entries := 0, one_over_knot_scale := Binary32.inf false,
          knots_controls_count := 8,
          knots_controls := fun i => [5, 9, 1, 2, 3, 4, 5, 6].getD i 0 }).knots =
        [Binary32.ofInt 0, Binary32.ofInt 0] ∧
      Binary32.le (Binary32.ofInt 0) (Binary32.ofInt 0) = true) ∧
    ((GR2_D4nK8uC7u_view.ctor binary32Ops ⟨Binary32.nan, Binary32.nan, Binary32.nan,
          Binary32.nan⟩
        { scale_offset_table_entries := 0, one_over_knot_scale := Binary32.ofInt 3,
          knots_controls_count := 8,
          knots_controls := fun i => [1, 2, 1, 2, 3, 4, 5, 6].getD i 0 }).knots =
        [Binary32.ofBits 0x3EAAAAAB, Binary32.ofBits 0x3F2AAAAB] ∧
      Binary32.le (Binary32.ofBits 0x3EAAAAAB) (Binary32.ofBits 0x3F2AAAAB) = true) := by
  have p3 : Binary32.lt (Binary32.ofInt 0)
      (binary32Ops.ofBits ((0x0080 <<< 16) % 2 ^ 32)) = true := by decide
  have p16 : Binary32.lt (Binary32.ofInt 0) (Binary32.inf false) = true := by decide
  have p8 : Binary32.lt (Binary32.ofInt 0) (Binary32.ofInt 3) = true := by decide
  have w3 : ∀ i, (fun i => [3, 4, 1, 2, 3, 4, 5, 6].getD i 0) i < 256 := by
    exact fun i => getD_lt _ 256 (by decide) (by decide) i
  have w16 : ∀ i, (fun i => [5, 9, 1, 2, 3, 4, 5, 6].getD i 0) i < 65536 := by
    exact fun i => getD_lt _ 65536 (by decide) (by decide) i
  have w8 : ∀ i, (fun i => [1, 2, 1, 2, 3, 4, 5, 6].getD i 0) i < 256 := by
    exact fun i => getD_lt _ 256 (by decide) (by decide) i
  have h := knots_preserve_order binary32Ops
    ⟨Binary32.nan, Binary32.nan, Binary32.nan, Binary32.nan⟩
    { one_over_knot_scale_trunc := 0x0080, control_scales := [], control_offsets := [],
      knots_controls_count := 8,
      knots_controls := fun i => [3, 4, 1, 2, 3, 4, 5, 6].getD i 0 }
    { scale_offset_table_entries := 0, one_over_knot_scale := Binary32.inf false,
      knots_controls_count := 8,
      knots_controls := fun i => [5, 9, 1, 2, 3, 4, 5, 6].getD i 0 }
    { scale_offset_table_entries := 0, one_over_knot_scale := Binary32.ofInt 3,
      knots_controls_count := 8,
      knots_controls := fun i => [1, 2, 1, 2, 3, 4, 5, 6].getD i 0 }
    ⟨Binary32.nan, Binary32.nan, Binary32.nan, Binary32.nan⟩
    { one_over_knot_scale_trunc := 0x0080, control_scales := [], control_offsets := [],
      knots_controls_count := 8,
      knots_controls := fun i => [3, 4, 1, 2, 3, 4, 5, 6].getD i 0 }
    { scale_offset_table_entries := 0, one_over_knot_scale := Binary32.inf false,
      knots_controls_count := 8,
      knots_controls := fun i => [5, 9, 1, 2, 3, 4, 5, 6].getD i 0 }
    { scale_offset_table_entries := 0, one_over_knot_scale := Binary32.ofInt 3,
      knots_controls_count := 8,
      knots_controls := fun i => [1, 2, 1, 2, 3, 4, 5, 6].getD i 0 }
    p3 p16 p8 w3 w16 w8
  obtain ⟨⟨k3, -, -⟩, ⟨k16, -, -⟩, ⟨k8, -, -⟩, o3, o16, o8⟩ := h
  have e3 := (D3K8uC8u_view_fields binary32Ops
    { one_over_knot_scale_trunc := 0x0080, control_scales := [], control_offsets := [],
      knots_controls_count := 8,
      knots_controls := fun i => [3, 4, 1, 2, 3, 4, 5, 6].getD i 0 }).1
  have e16 := (D4nK16uC15u_view_fields binary32Ops
    ⟨Binary32.nan, Binary32.nan, Binary32.nan, Binary32.nan⟩
    { scale_offset_table_entries := 0, one_over_knot_scale := Binary32.inf false,
      knots_controls_count := 8,
      knots_controls := fun i => [5, 9, 1, 2, 3, 4, 5, 6].getD i 0 }).1
  have e8 := (D4nK8uC7u_view_fields binary32Ops
    ⟨Binary32.nan, Binary32.nan, Binary32.nan, Binary32.nan⟩
    { scale_offset_table_entries := 0, one_over_knot_scale := Binary32.ofInt 3,
      knots_controls_count := 8,
      knots_controls := fun i => [1, 2, 1, 2, 3, 4, 5, 6].getD i 0 }).1
  simp only [GR2_D3K8uC8u_view.encoded_knots, e3] at k3 o3
  simp only [GR2_D4nK16uC15u_view.encoded_knots, e16] at k16 o16
  simp only [GR2_D4nK8uC7u_view.encoded_knots, e8] at k8 o8
  have l3 : (GR2_D3K8uC8u_view.ctor binary32Ops
        { one_over_knot_scale_trunc := 0x0080, control_scales := [], control_offsets := [],
          knots_controls_count := 8,
          knots_controls := fun i => [3, 4, 1, 2, 3, 4, 5, 6].getD i 0 }).knots =
        [Binary32.ofBits 0x7F400000, Binary32.inf false] := by
    rw [k3]
    decide
  have l16 : (GR2_D4nK16uC15u_view.ctor binary32Ops ⟨Binary32.nan, Binary32.nan,
          Binary32.nan, Binary32.nan⟩
        { scale_offset_table_entries := 0, one_over_knot_scale := Binary32.inf false,
          knots_controls_count := 8,
          knots_controls := fun i => [5, 9, 1, 2, 3, 4, 5, 6].getD i 0 }).knots =
        [Binary32.ofInt 0, Binary32.ofInt 0] := by
    rw [k16]
    decide
  have l8 : (GR2_D4nK8uC7u_view.ctor binary32Ops ⟨Binary32.nan, Binary32.nan,
          Binary32.nan, Binary32.nan⟩
        { scale_offset_table_entries := 0, one_over_knot_scale := Binary32.ofInt 3,
          knots_controls_count := 8,
          knots_controls := fun i => [1, 2, 1, 2, 3, 4, 5, 6].getD i 0 }).knots =
        [Binary32.ofBits 0x3EAAAAAB, Binary32.ofBits 0x3F2AAAAB] := by
    rw [k8]
    decide
  refine ⟨⟨p3, p16, p8⟩, ⟨l3, ?_⟩, ⟨l16, ?_⟩, ⟨l8, ?_⟩⟩
  · obtain ⟨u, v, hu, hv, huv⟩ := o3 0 1 3 4 (by decide) (by decide) (by decide)
    rw [l3] at hu hv
    simp at hu hv
    subst hu
    subst hv
    exact huv
  · obtain ⟨u, v, hu, hv, huv⟩ := o16 0 1 5 9 (by decide) (by decide) (by decide)
    rw [l16] at hu hv
    simp at hu hv
    subst hu
    subst hv
    exact huv
  · obtain ⟨u, v, hu, hv, huv⟩ := o8 0 1 1 2 (by decide) (by decide) (by decide)
    rw [l8] at hu hv
    simp at hu hv
    subst hu
    subst hv
    exact huv

/-! ## C10: the 3-component view -/

/-- A magnitude with a 24-bit significand is rounded to itself. -/
theorem roundMag_exact (m j den : Nat) (hden : 0 < den) (hm : m < 2 ^ 24) :
    Binary32.roundMag (m * 2 ^ j * den) den = m * 2 ^ j := by
  obtain ⟨k1, k2⟩ := dropBits_self (m * 2 ^ j * den / den)
  simp only [Binary32.roundMag, Nat.shiftLeft_eq]
  rw [Nat.mul_div_cancel _ hden] at k1 k2 ⊢
  generalize Binary32.dropBits (m * 2 ^ j) = k at *
  have hd : 2 ^ k ∣ m * 2 ^ j := by
    rcases k2 with k2 | k2
    · rw [k2]
      simp
    · have hlt : m * 2 ^ j < 2 ^ 24 * 2 ^ j := Nat.mul_lt_mul_of_pos_right hm (by positivity)
      rw [← pow_add] at hlt
      have hk : 23 + k < 24 + j := by
        by_contra hc
        push_neg at hc
        have := Nat.pow_le_pow_right (show 0 < 2 by norm_num) hc
        omega
      exact Dvd.dvd.mul_left (pow_dvd_pow 2 (by omega)) m
  obtain ⟨c, hc⟩ := hd
  have e1 : m * 2 ^ j * den = den * 2 ^ k * c := by rw [hc]; ring
  have hg : 0 < den * 2 ^ k := Nat.mul_pos hden (by positivity)
  rw [e1, Nat.mul_mod_right, Nat.mul_div_cancel_left _ hg, if_pos (by omega), hc]
  ring

/-- Dividing an integer below 2^24 by 1.0 gives the integer, without rounding. -/
theorem div_one_exact (x : Nat) (hx : x < 2 ^ 24) :
    binary32Ops.div (binary32Ops.ofInt (x : Int)) (binary32Ops.ofInt 1) =
      binary32Ops.ofInt (x : Int) := by
  have h1 : Binary32.ofInt 1 = Binary32.fin false (2 ^ 149) := by
    have h := ofInt_small 1 (by norm_num)
    simp only [Nat.cast_one, one_mul] at h
    exact h
  have hr := roundMag_exact x 149 (2 ^ 149) (by positivity) hx
  have hlt : x * 2 ^ 149 < 2 ^ 24 * 2 ^ 253 :=
    lt_of_lt_of_le (Nat.mul_lt_mul_of_pos_right hx (by positivity))
      (Nat.mul_le_mul_left _ (Nat.pow_le_pow_right (by norm_num) (by norm_num)))
  simp only [binary32Ops, h1, ofInt_small x hx, Binary32.div, Binary32.round, hr, if_pos hlt,
    Bool.xor_false, if_neg (show ¬ (2 ^ 149 = 0) by positivity)]

/-- The decimal literals of the example of the 3-component view, in binary32. -/
theorem binary32_example_literals :
    binary32Ops.lit 0.01 = Binary32.ofBits 0x3C23D70A ∧
    binary32Ops.lit 0.10 = Binary32.ofBits 0x3DCCCCCD ∧
    binary32Ops.lit 0.20 = Binary32.ofBits 0x3E4CCCCD ∧
    binary32Ops.lit 0.30 = Binary32.ofBits 0x3E99999A := by
  refine ⟨?_, ?_, ?_, ?_⟩ <;>
  · simp only [binary32Ops, Binary32.lit]
    norm_num
    decide

/-- The example of the 3-component view in binary32, for any raw knot. -/
theorem D3K8uC8u_example (knot_raw : Nat) :
    (GR2_D3K8uC8u_view.ctor binary32Ops
        { one_over_knot_scale_trunc := 0x3F80,
          control_scales := [binary32Ops.lit 0.01, binary32Ops.lit 0.01, binary32Ops.lit 0.01],
          control_offsets := [binary32Ops.lit 0, binary32Ops.lit 0, binary32Ops.lit 0],
          knots_controls_count := 4,
          knots_controls := fun i => [knot_raw, 10, 20, 30].getD i 0 }).knots =
      [binary32Ops.div (binary32Ops.ofInt (knot_raw : Int)) (binary32Ops.ofInt 1)] ∧
    (GR2_D3K8uC8u_view.ctor binary32Ops
        { one_over_knot_scale_trunc := 0x3F80,
          control_scales := [binary32Ops.lit 0.01, binary32Ops.lit 0.01, binary32Ops.lit 0.01],
          control_offsets := [binary32Ops.lit 0, binary32Ops.lit 0, binary32Ops.lit 0],
          knots_controls_count := 4,
          knots_controls := fun i => [knot_raw, 10, 20, 30].getD i 0 }).controls =
      [⟨Binary32.ofBits 0x3DCCCCCC, Binary32.ofBits 0x3E4CCCCC, Binary32.ofBits 0x3E999999⟩] := by
  obtain ⟨l1, -⟩ := binary32_example_literals
  obtain ⟨-, -, -, -, -, -, -, l0, -⟩ := binary32_literals
  have hb : binary32Ops.ofBits ((0x3F80 <<< 16) % 2 ^ 32) = binary32Ops.ofInt 1 := by decide
  constructor
  · rw [(D3K8uC8u_view_four binary32Ops _ _ _ _).1, hb]
    simp only [List.getD_cons_zero]
  · rw [(D3K8uC8u_view_four binary32Ops _ _ _ _).2]
    simp only [List.getD_cons_zero, List.getD_cons_succ, rd, l1, l0]
    decide

/-- C10, as the code has it: for every float arithmetic, every control of the D3K8uC8u view
is the linear decode of its raw triple (a, b, c), (a*control_scales[0] + control_offsets[0],
b*control_scales[1] + control_offsets[1], c*control_scales[2] + control_offsets[2]), with no
swizzle, sign or square root, and every knot is its raw knot divided by the scale rebuilt
from one_over_knot_scale_trunc. In binary32, for N = 4, control bytes 10, 20, 30, scales
0.01f, offsets 0 and the truncated scale 0x3F80, which encodes 1.0, knots() is
[knot_raw / 1.0], which is knot_raw itself for a uint8_t knot, and controls() is
[(10 * 0.01f, 20 * 0.01f, 30 * 0.01f)]: the floats 0x3DCCCCCC, 0x3E4CCCCC, 0x3E999999, each
the float just below 0.10f = 0x3DCCCCCD, 0.20f = 0x3E4CCCCD, 0.30f = 0x3E99999A, and within
2e-8 of 0.10, 0.20, 0.30. -/
theorem D3K8uC8u_decodes_linearly {F : Type} (ops : FloatOps F)
    (data : GR2_curve_data_D3K8uC8u F) (knot_raw : Nat) :
    (GR2_D3K8uC8u_view.ctor ops data).controls =
      (GR2_D3K8uC8u_view.ctor ops data).encoded_controls.map (fun (e : Vector3 Nat) =>
        ⟨ops.add (ops.mul (ops.ofInt e.x) (rd ops data.control_scales 0))
            (rd ops data.control_offsets 0),
          ops.add (ops.mul (ops.ofInt e.y) (rd ops data.control_scales 1))
            (rd ops data.control_offsets 1),
          ops.add (ops.mul (ops.ofInt e.z) (rd ops data.control_scales 2))
            (rd ops data.control_offsets 2)⟩) ∧
    (GR2_D3K8uC8u_view.ctor ops data).knots =
      (GR2_D3K8uC8u_view.ctor ops data).encoded_knots.map (fun (k : Nat) =>
        ops.div (ops.ofInt (k : Int))
          (ops.ofBits ((data.one_over_knot_scale_trunc <<< 16) % 2 ^ 32))) ∧
    binary32Ops.ofBits ((0x3F80 <<< 16) % 2 ^ 32) = binary32Ops.ofInt 1 ∧
    (GR2_D3K8uC8u_view.ctor binary32Ops
        { one_over_knot_scale_trunc := 0x3F80,
          control_scales := [binary32Ops.lit 0.01, binary32Ops.lit 0.01, binary32Ops.lit 0.01],
          control_offsets := [binary32Ops.lit 0, binary32Ops.lit 0, binary32Ops.lit 0],
          knots_controls_count := 4,
          knots_controls := fun i => [knot_raw, 10, 20, 30].getD i 0 }).knots =
      [binary32Ops.div (binary32Ops.ofInt (knot_raw : Int)) (binary32Ops.ofInt 1)] ∧
    (knot_raw < 256 →
      binary32Ops.div (binary32Ops.ofInt (knot_raw : Int)) (binary32Ops.ofInt 1) =
        binary32Ops.ofInt (knot_raw : Int)) ∧
    (GR2_D3K8uC8u_view.ctor binary32Ops
        { one_over_knot_scale_trunc := 0x3F80,
          control_scales := [binary32Ops.lit 0.01, binary32Ops.lit 0.01, binary32Ops.lit 0.01],
          control_offsets := [binary32Ops.lit 0, binary32Ops.lit 0, binary32Ops.lit 0],
          knots_controls_count := 4,
          knots_controls := fun i => [knot_raw, 10, 20, 30].getD i 0 }).controls =
      [⟨binary32Ops.mul (binary32Ops.ofInt 10) (binary32Ops.lit 0.01),
        binary32Ops.mul (binary32Ops.ofInt 20) (binary32Ops.lit 0.01),
        binary32Ops.mul (binary32Ops.ofInt 30) (binary32Ops.lit 0.01)⟩] ∧
    (GR2_D3K8uC8u_view.ctor binary32Ops
        { one_over_knot_scale_trunc := 0x3F80,
          control_scales := [binary32Ops.lit 0.01, binary32Ops.lit 0.01, binary32Ops.lit 0.01],
          control_offsets := [binary32Ops.lit 0, binary32Ops.lit 0, binary32Ops.lit 0],
          knots_controls_count := 4,
          knots_controls := fun i => [knot_raw, 10, 20, 30].getD i 0 }).controls =
      [⟨Binary32.ofBits 0x3DCCCCCC, Binary32.ofBits 0x3E4CCCCC, Binary32.ofBits 0x3E999999⟩] ∧
    (binary32Ops.lit 0.10 = Binary32.ofBits (0x3DCCCCCC + 1) ∧
      binary32Ops.lit 0.20 = Binary32.ofBits (0x3E4CCCCC + 1) ∧
      binary32Ops.lit 0.30 = Binary32.ofBits (0x3E999999 + 1)) ∧
    (|Binary32.toRat (Binary32.ofBits 0x3DCCCCCC) - 0.10| < 0.00000002 ∧
      |Binary32.toRat (Binary32.ofBits 0x3E4CCCCC) - 0.20| < 0.00000002 ∧
      |Binary32.toRat (Binary32.ofBits 0x3E999999) - 0.30| < 0.00000002) := by
  obtain ⟨l1, l2, l3, l4⟩ := binary32_example_literals
  obtain ⟨hk, hc⟩ := D3K8uC8u_example knot_raw
  have m1 : binary32Ops.mul (binary32Ops.ofInt 10) (Binary32.ofBits 0x3C23D70A) =
      Binary32.ofBits 0x3DCCCCCC := by decide
  have m2 : binary32Ops.mul (binary32Ops.ofInt 20) (Binary32.ofBits 0x3C23D70A) =
      Binary32.ofBits 0x3E4CCCCC := by decide
  have m3 : binary32Ops.mul (binary32Ops.ofInt 30) (Binary32.ofBits 0x3C23D70A) =
      Binary32.ofBits 0x3E999999 := by decide
  have t1 : Binary32.ofBits 0x3DCCCCCC = Binary32.fin false (13421772 * 2 ^ 122) := by decide
  have t2 : Binary32.ofBits 0x3E4CCCCC = Binary32.fin false (13421772 * 2 ^ 123) := by decide
  have t3 : Binary32.ofBits 0x3E999999 = Binary32.fin false (10066329 * 2 ^ 124) := by decide
  refine ⟨?_, ?_, by decide, hk, fun h => div_one_exact knot_raw (by omega), ?_, hc,
    ⟨l2, l3, l4⟩, ?_, ?_, ?_⟩
  · obtain ⟨-, -, e3, e4, -⟩ := D3K8uC8u_view_fields ops data
    simp only [GR2_D3K8uC8u_view.controls, GR2_D3K8uC8u_view.encoded_controls, e3, e4,
      List.map_map, Function.comp_def]
  · obtain ⟨e1, e2, -⟩ := D3K8uC8u_view_fields ops data
    simp only [GR2_D3K8uC8u_view.knots, GR2_D3K8uC8u_view.encoded_knots, e1, e2,
      List.map_map, Function.comp_def]
  · rw [hc, l1, m1, m2, m3]
  · rw [t1]
    simp only [Binary32.toRat]
    norm_num [abs_lt]
  · rw [t2]
    simp only [Binary32.toRat]
    norm_num [abs_lt]
  · rw [t3]
    simp only [Binary32.toRat]
    norm_num [abs_lt]

/-- C10 fails on the code at its example. In binary32, for N = 4, the raw knot 7, control
bytes 10, 20, 30, scales 0.01f, offsets 0 and the truncated scale 0x3F80, controls() is
[(0x3DCCCCCC, 0x3E4CCCCC, 0x3E999999)], which is not (0.10f, 0.20f, 0.30f) =
(0x3DCCCCCD, 0x3E4CCCCD, 0x3E99999A): 10 * 0.01f lies halfway between two floats and is
rounded to the even one, below 0.10f. No component has the value 0.10, 0.20 or 0.30 either:
each is smaller. -/
theorem D3K8uC8u_example_counterexample :
    (GR2_D3K8uC8u_view.ctor binary32Ops
        { one_over_knot_scale_trunc := 0x3F80,
          control_scales := [binary32Ops.lit 0.01, binary32Ops.lit 0.01, binary32Ops.lit 0.01],
          control_offsets := [binary32Ops.lit 0, binary32Ops.lit 0, binary32Ops.lit 0],
          knots_controls_count := 4,
          knots_controls := fun i => [7, 10, 20, 30].getD i 0 }).controls =
      [⟨Binary32.ofBits 0x3DCCCCCC, Binary32.ofBits 0x3E4CCCCC, Binary32.ofBits 0x3E999999⟩] ∧
    (GR2_D3K8uC8u_view.ctor binary32Ops
        { one_over_knot_scale_trunc := 0x3F80,
          control_scales := [binary32Ops.lit 0.01, binary32Ops.lit 0.01, binary32Ops.lit 0.01],
          control_offsets := [binary32Ops.lit 0, binary32Ops.lit 0, binary32Ops.lit 0],
          knots_controls_count := 4,
          knots_controls := fun i => [7, 10, 20, 30].getD i 0 }).controls ≠
      [⟨binary32Ops.lit 0.10, binary32Ops.lit 0.20, binary32Ops.lit 0.30⟩] ∧
    (binary32Ops.lit 0.10 = Binary32.ofBits 0x3DCCCCCD ∧
      binary32Ops.lit 0.20 = Binary32.ofBits 0x3E4CCCCD ∧
      binary32Ops.lit 0.30 = Binary32.ofBits 0x3E99999A) ∧
    (Binary32.toRat (Binary32.ofBits 0x3DCCCCCC) < 0.10 ∧
      Binary32.toRat (Binary32.ofBits 0x3E4CCCCC) < 0.20 ∧
      Binary32.toRat (Binary32.ofBits 0x3E999999) < 0.30) := by
  obtain ⟨-, l2, l3, l4⟩ := binary32_example_literals
  obtain ⟨-, hc⟩ := D3K8uC8u_example 7
  have t1 : Binary32.ofBits 0x3DCCCCCC = Binary32.fin false (13421772 * 2 ^ 122) := by decide
  have t2 : Binary32.ofBits 0x3E4CCCCC = Binary32.fin false (13421772 * 2 ^ 123) := by decide
  have t3 : Binary32.ofBits 0x3E999999 = Binary32.fin false (10066329 * 2 ^ 124) := by decide
  refine ⟨hc, ?_, ⟨l2, l3, l4⟩, ?_, ?_, ?_⟩
  · rw [hc, l2, l3, l4]
    decide
  · rw [t1]
    simp only [Binary32.toRat]
    norm_num
  · rw [t2]
    simp only [Binary32.toRat]
    norm_num
  · rw [t3]
    simp only [Binary32.toRat]
    norm_num

/-! ## The error of one rounding -/

/-- Rounding moves a value by at most half a step of its grid: in units of 1 / den, by at
most 2^-24 of the value, or by half a unit when no bit is dropped. -/
theorem roundMag_err (num den : Nat) (hden : 0 < den) :
    2 ^ 24 * (Binary32.roundMag num den * den) ≤ 2 ^ 24 * num + (num + 2 ^ 23 * den) ∧
      2 ^ 24 * num ≤ 2 ^ 24 * (Binary32.roundMag num den * den) + (num + 2 ^ 23 * den) := by
  obtain ⟨-, k2⟩ := dropBits_self (num / den)
  simp only [Binary32.roundMag, Nat.shiftLeft_eq]
  generalize Binary32.dropBits (num / den) = k at *
  have hg : 0 < den * 2 ^ k := Nat.mul_pos hden (by positivity)
  have hgb : 2 ^ 23 * (den * 2 ^ k) ≤ num + 2 ^ 23 * den := by
    rcases k2 with k2 | k2
    · rw [k2]
      norm_num
    · rw [Nat.le_div_iff_mul_le hden, pow_add] at k2
      have e : 2 ^ 23 * (den * 2 ^ k) = 2 ^ 23 * 2 ^ k * den := by ring
      omega
  obtain ⟨g, hgdef⟩ : ∃ g, g = den * 2 ^ k := ⟨_, rfl⟩
  rw [← hgdef] at hg hgb ⊢
  have e := Nat.div_add_mod num g
  have hr := Nat.mod_lt num hg
  generalize num / g = m at *
  generalize num % g = r at *
  have key : ∀ m' : Nat, (m' = m ∧ 2 * r ≤ g) ∨ (m' = m + 1 ∧ g ≤ 2 * r) →
      2 ^ 24 * (m' * 2 ^ k * den) ≤ 2 ^ 24 * num + (num + 2 ^ 23 * den) ∧
      2 ^ 24 * num ≤ 2 ^ 24 * (m' * 2 ^ k * den) + (num + 2 ^ 23 * den) := by
    intro m' hm'
    have e2 : m' * 2 ^ k * den = m' * g := by rw [hgdef]; ring
    rw [e2]
    rcases hm' with ⟨rfl, h⟩ | ⟨rfl, h⟩
    · rw [Nat.mul_comm m' g]
      generalize g * m' = gm at *
      omega
    · rw [Nat.add_mul, Nat.one_mul, Nat.mul_comm m g]
      generalize g * m = gm at *
      omega
  split_ifs with h1 h2
  · exact key m (Or.inl ⟨rfl, by omega⟩)
  · exact key m (Or.inl ⟨rfl, by omega⟩)
  · exact key (m + 1) (Or.inr ⟨rfl, by omega⟩)

/-- The rounding of a value that does not overflow is finite and within 2^-24 of the value,
or half a unit, of it. -/
theorem round_near (sg : Bool) (num den : Nat) (hden : 0 < den)
    (hsmall : num ≤ 2 ^ 250 * den) :
    ∃ D : Nat, Binary32.round sg num den = Binary32.fin sg D ∧
      |(D : ℚ) - (num : ℚ) / den| ≤ (num : ℚ) / den / 2 ^ 24 + 1 / 2 := by
  obtain ⟨e1, e2⟩ := roundMag_err num den hden
  have hd : (0 : ℚ) < den := by exact_mod_cast hden
  have q1 : (2 : ℚ) ^ 24 * ((Binary32.roundMag num den : ℚ) * den) ≤
      2 ^ 24 * num + (num + 2 ^ 23 * den) := by exact_mod_cast e1
  have q2 : (2 : ℚ) ^ 24 * num ≤
      2 ^ 24 * ((Binary32.roundMag num den : ℚ) * den) + (num + 2 ^ 23 * den) := by
    exact_mod_cast e2
  have hlt : Binary32.roundMag num den < 2 ^ 24 * 2 ^ 253 := by
    by_contra hc
    push_neg at hc
    have h3 : 2 ^ 24 * 2 ^ 253 * den ≤ Binary32.roundMag num den * den :=
      Nat.mul_le_mul_right _ hc
    generalize Binary32.roundMag num den * den = rd at *
    omega
  refine ⟨Binary32.roundMag num den, by simp only [Binary32.round, if_pos hlt], ?_⟩
  obtain ⟨x, hx⟩ : ∃ x : ℚ, x = (num : ℚ) / den := ⟨_, rfl⟩
  have hnum : (num : ℚ) = x * den := by
    rw [hx]
    field_simp
  rw [← hx]
  rw [hnum] at q1 q2
  have a1 : (2 : ℚ) ^ 24 * (Binary32.roundMag num den : ℚ) ≤ 2 ^ 24 * x + (x + 2 ^ 23) :=
    le_of_mul_le_mul_right (by linarith) hd
  have a2 : (2 : ℚ) ^ 24 * x ≤ 2 ^ 24 * (Binary32.roundMag num den : ℚ) + (x + 2 ^ 23) :=
    le_of_mul_le_mul_right (by linarith) hd
  rw [abs_le]
  constructor <;> linarith

/-- The value of a finite float. -/
theorem toRat_fin (s : Bool) (n : Nat) :
    Binary32.toRat (Binary32.fin s n) = (if s then -1 else 1) * (n : ℚ) / 2 ^ 149 := rfl

/-- A rounded magnitude D of X, as a float value, against the value X * 2^-149. -/
theorem near_scaled (D : Nat) (X : ℚ) (hX : 0 ≤ X) (h : |(D : ℚ) - X| ≤ X / 2 ^ 24 + 1 / 2)
    (sg : Bool) :
    |Binary32.toRat (Binary32.fin sg D) - (if sg then -1 else 1) * X / 2 ^ 149| ≤
      |(if sg then -1 else 1) * X / 2 ^ 149| / 2 ^ 24 + 1 / 2 ^ 150 := by
  rw [toRat_fin]
  have e1 : (if sg then -1 else 1) * (D : ℚ) / 2 ^ 149 - (if sg then -1 else 1) * X / 2 ^ 149 =
      (if sg then -1 else 1) * (((D : ℚ) - X) / 2 ^ 149) := by ring
  have e2 : |(if sg then (-1 : ℚ) else 1)| = 1 := by cases sg <;> simp
  rw [e1, abs_mul, e2, one_mul, abs_div, mul_div_assoc, abs_mul, e2, one_mul, abs_div,
    abs_of_nonneg hX, abs_of_pos (by positivity : (0 : ℚ) < 2 ^ 149)]
  rw [div_le_iff₀ (by positivity)]
  calc |(D : ℚ) - X| ≤ X / 2 ^ 24 + 1 / 2 := h
    _ = (X / 2 ^ 149 / 2 ^ 24 + 1 / 2 ^ 150) * 2 ^ 149 := by
      field_simp
      ring

/-- The product of two finite floats: finite unless it overflows, and within 2^-24 of the
exact product, or 2^-150, of it. -/
theorem mul_near (s t : Bool) (m n : Nat) (h : m * n ≤ 2 ^ 250 * 2 ^ 149) :
    ∃ D : Nat, Binary32.mul (Binary32.fin s m) (Binary32.fin t n) =
        Binary32.fin (xor s t) D ∧
      |Binary32.toRat (Binary32.fin (xor s t) D) -
          Binary32.toRat (Binary32.fin s m) * Binary32.toRat (Binary32.fin t n)| ≤
        |Binary32.toRat (Binary32.fin s m) * Binary32.toRat (Binary32.fin t n)| / 2 ^ 24 +
          1 / 2 ^ 150 := by
  obtain ⟨D, hD, hn⟩ := round_near (xor s t) (m * n) (2 ^ 149) (by positivity) h
  refine ⟨D, by simp only [Binary32.mul, hD], ?_⟩
  have hX : (0 : ℚ) ≤ ((m * n : Nat) : ℚ) / ((2 ^ 149 : Nat) : ℚ) := by positivity
  have hk := near_scaled D _ hX hn (xor s t)
  have e : Binary32.toRat (Binary32.fin s m) * Binary32.toRat (Binary32.fin t n) =
      (if xor s t then -1 else 1) * (((m * n : Nat) : ℚ) / ((2 ^ 149 : Nat) : ℚ)) / 2 ^ 149 := by
    rw [toRat_fin, toRat_fin]
    push_cast
    cases s <;> cases t <;> simp <;> ring
  rw [e]
  exact hk

/-- The sum of two finite floats: finite unless it overflows, and within 2^-24 of the exact
sum, or 2^-150, of it. -/
theorem add_near (s t : Bool) (m n : Nat) (h : m + n ≤ 2 ^ 250) :
    ∃ (sg : Bool) (D : Nat), Binary32.add (Binary32.fin s m) (Binary32.fin t n) =
        Binary32.fin sg D ∧
      |Binary32.toRat (Binary32.fin sg D) -
          (Binary32.toRat (Binary32.fin s m) + Binary32.toRat (Binary32.fin t n))| ≤
        |Binary32.toRat (Binary32.fin s m) + Binary32.toRat (Binary32.fin t n)| / 2 ^ 24 +
          1 / 2 ^ 150 := by
  have key : ∀ (sg : Bool) (T : Nat), T ≤ 2 ^ 250 →
      Binary32.toRat (Binary32.fin s m) + Binary32.toRat (Binary32.fin t n) =
        (if sg then -1 else 1) * ((T : ℚ) / ((1 : Nat) : ℚ)) / 2 ^ 149 →
      ∃ D : Nat, Binary32.round sg T 1 = Binary32.fin sg D ∧
        |Binary32.toRat (Binary32.fin sg D) -
          (Binary32.toRat (Binary32.fin s m) + Binary32.toRat (Binary32.fin t n))| ≤
        |Binary32.toRat (Binary32.fin s m) + Binary32.toRat (Binary32.fin t n)| / 2 ^ 24 +
          1 / 2 ^ 150 := by
    intro sg T hT e
    obtain ⟨D, hD, hn⟩ := round_near sg T 1 (by norm_num) (by omega)
    refine ⟨D, hD, ?_⟩
    rw [e]
    exact near_scaled D _ (by positivity) hn sg
  simp only [Binary32.add]
  by_cases hst : s = t
  · subst hst
    rw [if_pos rfl]
    obtain ⟨D, hD, hn⟩ := key s (m + n) h (by
      rw [toRat_fin, toRat_fin]
      push_cast
      ring)
    exact ⟨s, D, hD, hn⟩
  · rw [if_neg hst]
    by_cases hmn : m = n
    · subst hmn
      rw [if_pos rfl]
      refine ⟨false, 0, rfl, ?_⟩
      have e : Binary32.toRat (Binary32.fin s m) + Binary32.toRat (Binary32.fin t m) = 0 := by
        rw [toRat_fin, toRat_fin]
        cases s <;> cases t <;> simp at hst ⊢ <;> ring
      rw [e, toRat_fin]
      norm_num
    · rw [if_neg hmn]
      by_cases hlt : n < m
      · rw [if_pos hlt]
        obtain ⟨D, hD, hn⟩ := key s (m - n) (by omega) (by
          rw [toRat_fin, toRat_fin, Nat.cast_sub hlt.le]
          cases s <;> cases t <;> simp at hst ⊢ <;> ring)
        exact ⟨s, D, hD, hn⟩
      · rw [if_neg hlt]
        obtain ⟨D, hD, hn⟩ := key t (n - m) (by omega) (by
          rw [toRat_fin, toRat_fin, Nat.cast_sub (by omega)]
          cases s <;> cases t <;> simp at hst ⊢ <;> ring)
        exact ⟨t, D, hD, hn⟩

/-! ## C14: packing a unit quaternion and decoding it -/

theorem abs_toRat_fin (s : Bool) (n : Nat) :
    |Binary32.toRat (Binary32.fin s n)| = (n : ℚ) / 2 ^ 149 := by
  rw [toRat_fin]
  cases s
  · simp only [Bool.false_eq_true, if_false, one_mul]
    exact abs_of_nonneg (by positivity)
  · simp only [if_true, neg_one_mul, neg_div, abs_neg]
    exact abs_of_nonneg (by positivity)

/-- A stored component as binary32 computes it, m * scale + offset with a magnitude m of 15
bits, a scale of at most 2 / 32767 and an offset of at most 1 in absolute value: it is finite and
within 2^-21 of the exact value of m * scale + offset. -/
theorem stored_near (ss so : Bool) (ns no m : Nat) (hm : m ≤ 32767)
    (hs : ns * 32767 ≤ 2 ^ 150) (ho : no ≤ 2 ^ 149) :
    ∃ (sg : Bool) (D : Nat),
      binary32Ops.add (binary32Ops.mul (binary32Ops.ofInt (m : Int)) (Binary32.fin ss ns))
        (Binary32.fin so no) = Binary32.fin sg D ∧
      |Binary32.toRat (Binary32.fin sg D) -
          ((m : ℚ) * Binary32.toRat (Binary32.fin ss ns) + Binary32.toRat (Binary32.fin so no))| ≤
        1 / 2 ^ 21 := by
  have hmn : m * 2 ^ 149 * ns ≤ 2 ^ 250 * 2 ^ 149 := by
    have h1 : m * ns ≤ 32767 * ns := Nat.mul_le_mul_right _ hm
    have e : m * 2 ^ 149 * ns = m * ns * 2 ^ 149 := by ring
    rw [e]
    exact Nat.mul_le_mul_right _
      (le_trans h1 (le_trans (by rw [Nat.mul_comm]; exact hs)
        (Nat.pow_le_pow_right (by norm_num) (by norm_num))))
  obtain ⟨P, hP, nP⟩ := mul_near false ss (m * 2 ^ 149) ns hmn
  have hv : Binary32.toRat (Binary32.fin false (m * 2 ^ 149)) = (m : ℚ) := by
    rw [toRat_fin]
    push_cast
    norm_num
  rw [hv] at nP
  rw [Bool.false_xor] at hP nP
  -- the sizes of the exact values
  have a1 : |(m : ℚ) * Binary32.toRat (Binary32.fin ss ns)| ≤ 2 := by
    rw [abs_mul, abs_toRat_fin, abs_of_nonneg (by positivity : (0 : ℚ) ≤ m)]
    have h1 : m * ns ≤ 2 ^ 150 :=
      le_trans (Nat.mul_le_mul_right _ hm) (by rw [Nat.mul_comm]; exact hs)
    have h2 : (m : ℚ) * ns ≤ 2 ^ 150 := by exact_mod_cast h1
    rw [← mul_div_assoc, div_le_iff₀ (by positivity)]
    calc (m : ℚ) * ns ≤ 2 ^ 150 := h2
      _ = 2 * 2 ^ 149 := by norm_num
  have a2 : |Binary32.toRat (Binary32.fin so no)| ≤ 1 := by
    rw [abs_toRat_fin, div_le_one (by positivity)]
    exact_mod_cast ho
  have a3 : |Binary32.toRat (Binary32.fin ss P)| ≤ 3 := by
    have := abs_sub_abs_le_abs_sub (Binary32.toRat (Binary32.fin ss P))
      ((m : ℚ) * Binary32.toRat (Binary32.fin ss ns))
    have h3 : |(m : ℚ) * Binary32.toRat (Binary32.fin ss ns)| / 2 ^ 24 + 1 / 2 ^ 150 ≤ 1 := by
      have : |(m : ℚ) * Binary32.toRat (Binary32.fin ss ns)| / 2 ^ 24 ≤ 2 / 2 ^ 24 :=
        div_le_div_of_nonneg_right a1 (by positivity)
      have h4 : (2 : ℚ) / 2 ^ 24 + 1 / 2 ^ 150 ≤ 1 := by norm_num
      linarith
    linarith
  have hPb : P + no ≤ 2 ^ 250 := by
    rw [abs_toRat_fin, div_le_iff₀ (by positivity)] at a3
    have h5 : (P : ℚ) ≤ ((3 * 2 ^ 149 : Nat) : ℚ) := by
      have e : ((3 * 2 ^ 149 : Nat) : ℚ) = 3 * 2 ^ 149 := by norm_num
      rw [e]
      exact a3
    have h6 : P ≤ 3 * 2 ^ 149 := by exact_mod_cast h5
    omega
  obtain ⟨sg, D, hD, nD⟩ := add_near ss so P no hPb
  refine ⟨sg, D, ?_, ?_⟩
  · simp only [binary32Ops, ofInt_small m (by omega), hP, hD]
  · generalize Binary32.toRat (Binary32.fin sg D) = vd at *
    generalize Binary32.toRat (Binary32.fin ss P) = vp at *
    generalize Binary32.toRat (Binary32.fin ss ns) = vs at *
    generalize Binary32.toRat (Binary32.fin so no) = vo at *
    have b1 : |vp - (m : ℚ) * vs| ≤ 2 / 2 ^ 24 + 1 / 2 ^ 150 := by
      have : |(m : ℚ) * vs| / 2 ^ 24 ≤ 2 / 2 ^ 24 :=
        div_le_div_of_nonneg_right a1 (by positivity)
      linarith
    have b2 : |vp + vo| ≤ 4 := by
      have := abs_add vp vo
      linarith
    have b3 : |vd - (vp + vo)| ≤ 4 / 2 ^ 24 + 1 / 2 ^ 150 := by
      have : |vp + vo| / 2 ^ 24 ≤ 4 / 2 ^ 24 :=
        div_le_div_of_nonneg_right b2 (by positivity)
      linarith
    have e : vd - ((m : ℚ) * vs + vo) = (vd - (vp + vo)) + (vp - (m : ℚ) * vs) := by ring
    rw [e]
    have b4 := abs_add (vd - (vp + vo)) (vp - (m : ℚ) * vs)
    have b5 : (4 : ℚ) / 2 ^ 24 + 1 / 2 ^ 150 + (2 / 2 ^ 24 + 1 / 2 ^ 150) ≤ 1 / 2 ^ 21 := by
      norm_num
    linarith

/-- The scale and the offset the 16-bit view derives for a selector: finite floats, the
scale between 2^-18 and 2 / 32767 and the offset at most 1 in absolute value. -/
theorem view16_entry_binary32 (sel : Nat) (hsel : sel < 16) :
    ∃ (ss so : Bool) (ns no : Nat),
      binary32Ops.mul (rd binary32Ops (scale_table binary32Ops) sel)
        (binary32Ops.lit 0.000030518509) = Binary32.fin ss ns ∧
      rd binary32Ops (offset_table binary32Ops) sel = Binary32.fin so no ∧
      2 ^ 131 ≤ ns ∧ ns * 32767 ≤ 2 ^ 150 ∧ no ≤ 2 ^ 149 := by
  obtain ⟨-, -, -, -, -, -, -, -, l9, -⟩ := binary32_literals
  rw [l9, scale_table_binary32, offset_table_binary32]
  interval_cases sel <;> exact ⟨_, _, _, _, rfl, rfl, by decide, by decide, by decide⟩

/-- A rounded magnitude of a value that is not zero is not zero. -/
theorem roundMag_pos (T : Nat) (hT : 0 < T) : 0 < Binary32.roundMag T 1 := by
  have h1 : Binary32.roundMag 1 1 = 1 := by decide
  have h2 := roundMag_mono 1 T 1 (by norm_num) hT
  omega

theorem round_cases (sg : Bool) (num den : Nat) :
    Binary32.round sg num den = Binary32.fin sg (Binary32.roundMag num den) ∨
      Binary32.round sg num den = Binary32.inf sg := by
  simp only [Binary32.round]
  split
  · exact Or.inl rfl
  · exact Or.inr rfl

/-- The difference 1.0 - S is never -0.0. -/
theorem one_sub_not_negzero (S : Binary32) :
    binary32Ops.sub (binary32Ops.ofInt 1) S ≠ Binary32.fin true 0 := by
  have h1 : Binary32.ofInt 1 = Binary32.fin false (2 ^ 149) := by
    have h := ofInt_small 1 (by norm_num)
    simp only [Nat.cast_one, one_mul] at h
    exact h
  simp only [binary32Ops, Binary32.sub, h1]
  cases S with
  | nan => simp [Binary32.neg, Binary32.add]
  | inf s => simp [Binary32.neg, Binary32.add]
  | fin t n =>
    simp only [Binary32.neg, Binary32.add]
    cases t
    · simp only [Bool.not_false, Bool.false_eq_true, if_false]
      split
      · simp
      · split
        · rcases round_cases false (2 ^ 149 - n) 1 with h | h <;> rw [h] <;> simp
        · rename_i hne hlt
          have hpos : 0 < n - 2 ^ 149 := by omega
          have := roundMag_pos _ hpos
          rcases round_cases true (n - 2 ^ 149) 1 with h | h <;> rw [h]
          · intro hc
            injection hc with _ hc2
            omega
          · simp
    · simp only [Bool.not_true, if_true]
      rcases round_cases false (2 ^ 149 + n) 1 with h | h <;> rw [h] <;> simp

/-- The completed component is a NaN or has the sign bit the flag g asks for. -/
theorem completion_sign (S : Binary32) (g : Bool) :
    (if g = true then binary32Ops.neg (binary32Ops.sqrtf
        (binary32Ops.sub (binary32Ops.ofInt 1) S))
      else binary32Ops.sqrtf (binary32Ops.sub (binary32Ops.ofInt 1) S)) = Binary32.nan ∨
    Binary32.signBit (if g = true then binary32Ops.neg (binary32Ops.sqrtf
        (binary32Ops.sub (binary32Ops.ofInt 1) S))
      else binary32Ops.sqrtf (binary32Ops.sub (binary32Ops.ofInt 1) S)) = g := by
  have hz := one_sub_not_negzero S
  generalize binary32Ops.sub (binary32Ops.ofInt 1) S = R at *
  have hs : binary32Ops.sqrtf R = Binary32.nan ∨
      Binary32.signBit (binary32Ops.sqrtf R) = false ∧
        binary32Ops.sqrtf R ≠ Binary32.nan := by
    simp only [binary32Ops]
    cases R with
    | nan => exact Or.inl rfl
    | inf s =>
      cases s
      · exact Or.inr ⟨rfl, by simp [Binary32.sqrtf]⟩
      · exact Or.inl rfl
    | fin s n =>
      simp only [Binary32.sqrtf]
      by_cases hn : n = 0
      · subst hn
        cases s
        · exact Or.inr ⟨rfl, by simp⟩
        · exact absurd rfl hz
      · rw [if_neg hn]
        cases s
        · right
          simp only [Bool.false_eq_true, if_false]
          rcases round_cases false
            (2 * Nat.sqrt (n * 2 ^ 149) +
              (if Nat.sqrt (n * 2 ^ 149) * Nat.sqrt (n * 2 ^ 149) = n * 2 ^ 149 then 0 else 1))
            2 with h | h <;> rw [h] <;> simp [Binary32.signBit]
        · exact Or.inl rfl
  rcases hs with hs | ⟨hs1, hs2⟩
  · left
    rw [hs]
    split <;> rfl
  · right
    generalize binary32Ops.sqrtf R = v at *
    cases g
    · simpa using hs1
    · simp only [if_true, binary32Ops]
      cases v with
      | nan => exact absurd rfl hs2
      | inf s => simpa [Binary32.neg, Binary32.signBit] using hs1
      | fin s n => simpa [Binary32.neg, Binary32.signBit] using hs1

/-- One stored axis of the round trip: a value q in the range of a scale and an offset of
the 16-bit view has a nearest magnitude m, and m decodes in binary32 to a finite float
within one quantisation step of q. -/
theorem axis_round_trip (K : Type) [LinearOrderedField K] [FloorRing K] (ss so : Bool)
    (ns no : Nat) (q : K) (h1 : 2 ^ 131 ≤ ns) (h2 : ns * 32767 ≤ 2 ^ 150) (h3 : no ≤ 2 ^ 149)
    (c0 : 0 ≤ (q - (Binary32.toRat (Binary32.fin so no) : K)) /
      (Binary32.toRat (Binary32.fin ss ns) : K))
    (c1 : (q - (Binary32.toRat (Binary32.fin so no) : K)) /
      (Binary32.toRat (Binary32.fin ss ns) : K) ≤ 32767) :
    ∃ m : Nat, m ≤ 32767 ∧
      |(m : K) * (Binary32.toRat (Binary32.fin ss ns) : K) +
          (Binary32.toRat (Binary32.fin so no) : K) - q| ≤
        |(Binary32.toRat (Binary32.fin ss ns) : K)| / 2 ∧
      ∃ d : Binary32,
        binary32Ops.add (binary32Ops.mul (binary32Ops.ofInt (m : Int)) (Binary32.fin ss ns))
          (Binary32.fin so no) = d ∧ Binary32.isFinite d = true ∧
        |(Binary32.toRat d : K) - q| ≤ |(Binary32.toRat (Binary32.fin ss ns) : K)| := by
  have hsize : (1 : ℚ) / 2 ^ 18 ≤ |Binary32.toRat (Binary32.fin ss ns)| := by
    rw [abs_toRat_fin, div_le_div_iff₀ (by positivity) (by positivity)]
    have h : ((2 ^ 131 : Nat) : ℚ) ≤ (ns : ℚ) := by exact_mod_cast h1
    calc (1 : ℚ) * 2 ^ 149 = ((2 ^ 131 : Nat) : ℚ) * 2 ^ 18 := by norm_num
      _ ≤ (ns : ℚ) * 2 ^ 18 := mul_le_mul_of_nonneg_right h (by positivity)
  have hsizeK : (1 : K) / 2 ^ 18 ≤ |(Binary32.toRat (Binary32.fin ss ns) : K)| := by
    have h : (((1 : ℚ) / 2 ^ 18 : ℚ) : K) ≤
        ((|Binary32.toRat (Binary32.fin ss ns)| : ℚ) : K) := by exact_mod_cast hsize
    rw [Rat.cast_abs] at h
    simpa using h
  have hne : (Binary32.toRat (Binary32.fin ss ns) : K) ≠ 0 := by
    intro h0
    rw [h0, abs_zero] at hsizeK
    have : (0 : K) < 1 / 2 ^ 18 := by positivity
    linarith
  obtain ⟨m, hm, hnear⟩ := nearest_stored K q _ _ hne c0 c1
  obtain ⟨sg, D, hD, herr⟩ := stored_near ss so ns no m hm h2 h3
  refine ⟨m, hm, hnear, _, hD, rfl, ?_⟩
  have herrK : |(Binary32.toRat (Binary32.fin sg D) : K) -
      ((m : K) * (Binary32.toRat (Binary32.fin ss ns) : K) +
        (Binary32.toRat (Binary32.fin so no) : K))| ≤ 1 / 2 ^ 21 := by
    have h : ((|Binary32.toRat (Binary32.fin sg D) -
        ((m : ℚ) * Binary32.toRat (Binary32.fin ss ns) +
          Binary32.toRat (Binary32.fin so no))| : ℚ) : K) ≤ (((1 : ℚ) / 2 ^ 21 : ℚ) : K) := by
      exact_mod_cast herr
    rw [Rat.cast_abs] at h
    simpa using h
  generalize (Binary32.toRat (Binary32.fin sg D) : K) = vd at *
  generalize (Binary32.toRat (Binary32.fin ss ns) : K) = vs at *
  generalize (Binary32.toRat (Binary32.fin so no) : K) = vo at *
  have e : vd - q = (vd - ((m : K) * vs + vo)) + ((m : K) * vs + vo - q) := by ring
  rw [e]
  have t := abs_add (vd - ((m : K) * vs + vo)) ((m : K) * vs + vo - q)
  have n1 : (1 : K) / 2 ^ 21 ≤ (1 / 2 ^ 18) / 2 := by
    rw [div_div, div_le_div_iff₀ (by positivity) (by positivity)]
    norm_num
  linarith

/-- The scale and the offset the 16-bit view holds for an axis, in binary32. -/
theorem view16_axis (quat : Vector4 Binary32) (data : GR2_curve_data_D4nK16uC15u Binary32)
    (i : Nat) (hi : i < 4) :
    ∃ (ss so : Bool) (ns no : Nat),
      rd binary32Ops (GR2_D4nK16uC15u_view.ctor binary32Ops quat data).scales i =
        Binary32.fin ss ns ∧
      rd binary32Ops (GR2_D4nK16uC15u_view.ctor binary32Ops quat data).offsets i =
        Binary32.fin so no ∧
      2 ^ 131 ≤ ns ∧ ns * 32767 ≤ 2 ^ 150 ∧ no ≤ 2 ^ 149 := by
  obtain ⟨-, -, -, -, -, es, eo, -⟩ := D4nK16uC15u_view_fields binary32Ops quat data
  rw [es, eo, rd_of_getElem? _ _ _ _ (view_scale_entry binary32Ops _ i _ hi),
    rd_of_getElem? _ _ _ _ (view_offset_entry binary32Ops _ i hi)]
  exact view16_entry_binary32 _ (selector_lt _ _)

/-- C14, as the code has it, in binary32 and with the scales and offsets the 16-bit view
derives from a selector mask and passes to the decoder: for every quaternion q (unit or
not), every dropped slot k whose three other components lie in the range of their axis,
there are 16-bit packed values a, b, c (top bit of a set exactly when q[k] is negative, top
bits of b and c the two bits of k, low bits the nearest quantised magnitudes) such that the
three stored components of decode_D4nK16uC15u(a, b, c, scales, offsets) are finite floats
within one quantisation step |scales[slot]| of those of q. Component k is
sqrtf(1 - (dx*dx + dy*dy + dz*dz)) of the decoded floats, negated when q[k] is negative: it
is a NaN (when the radicand is below zero) or a float with the sign bit of q[k], never one
of the opposite sign. -/
theorem round_trip_within_step (K : Type) [LinearOrderedField K] [FloorRing K]
    (quat : Vector4 Binary32) (data : GR2_curve_data_D4nK16uC15u Binary32) (qv : Nat → K)
    (k : Nat) (hk : k < 4)
    (hcover : ∀ i, i < 4 → i ≠ k →
      0 ≤ (qv i - (Binary32.toRat (rd binary32Ops (GR2_D4nK16uC15u_view.ctor binary32Ops quat data).offsets (i)) : K)) /
        (Binary32.toRat (rd binary32Ops (GR2_D4nK16uC15u_view.ctor binary32Ops quat data).scales (i)) : K) ∧
      (qv i - (Binary32.toRat (rd binary32Ops (GR2_D4nK16uC15u_view.ctor binary32Ops quat data).offsets (i)) : K)) /
        (Binary32.toRat (rd binary32Ops (GR2_D4nK16uC15u_view.ctor binary32Ops quat data).scales (i)) : K) ≤ 32767) :
    ∃ a b c : Nat, ∃ dx dy dz : Binary32,
      (a < 65536 ∧ b < 65536 ∧ c < 65536) ∧
      (a.testBit 15 = true ↔ qv k < 0) ∧
      (D4nK16uC15u.swizzle1 b c = k ∧ (b.testBit 15).toNat = k / 2 ∧
        (c.testBit 15).toNat = k % 2) ∧
      (|(D4nK16uC15u.magnitude a : K) * (Binary32.toRat (rd binary32Ops (GR2_D4nK16uC15u_view.ctor binary32Ops quat data).scales (swizzle_next k)) : K) +
            (Binary32.toRat (rd binary32Ops (GR2_D4nK16uC15u_view.ctor binary32Ops quat data).offsets (swizzle_next k)) : K) - qv (swizzle_next k)| ≤
          |(Binary32.toRat (rd binary32Ops (GR2_D4nK16uC15u_view.ctor binary32Ops quat data).scales (swizzle_next k)) : K)| / 2 ∧
        |(D4nK16uC15u.magnitude b : K) * (Binary32.toRat (rd binary32Ops (GR2_D4nK16uC15u_view.ctor binary32Ops quat data).scales (swizzle_next (swizzle_next k))) : K) +
            (Binary32.toRat (rd binary32Ops (GR2_D4nK16uC15u_view.ctor binary32Ops quat data).offsets (swizzle_next (swizzle_next k))) : K) - qv (swizzle_next (swizzle_next k))| ≤
          |(Binary32.toRat (rd binary32Ops (GR2_D4nK16uC15u_view.ctor binary32Ops quat data).scales (swizzle_next (swizzle_next k))) : K)| / 2 ∧
        |(D4nK16uC15u.magnitude c : K) * (Binary32.toRat (rd binary32Ops (GR2_D4nK16uC15u_view.ctor binary32Ops quat data).scales (swizzle_next (swizzle_next (swizzle_next k)))) : K) +
            (Binary32.toRat (rd binary32Ops (GR2_D4nK16uC15u_view.ctor binary32Ops quat data).offsets (swizzle_next (swizzle_next (swizzle_next k)))) : K) - qv (swizzle_next (swizzle_next (swizzle_next k)))| ≤
          |(Binary32.toRat (rd binary32Ops (GR2_D4nK16uC15u_view.ctor binary32Ops quat data).scales (swizzle_next (swizzle_next (swizzle_next k)))) : K)| / 2) ∧
      ((decode_D4nK16uC15u binary32Ops quat a b c (GR2_D4nK16uC15u_view.ctor binary32Ops quat data).scales
          (GR2_D4nK16uC15u_view.ctor binary32Ops quat data).offsets).get? (swizzle_next k) = some dx ∧
        Binary32.isFinite dx = true ∧
        |(Binary32.toRat dx : K) - qv (swizzle_next k)| ≤
          |(Binary32.toRat (rd binary32Ops (GR2_D4nK16uC15u_view.ctor binary32Ops quat data).scales (swizzle_next k)) : K)|) ∧
      ((decode_D4nK16uC15u binary32Ops quat a b c (GR2_D4nK16uC15u_view.ctor binary32Ops quat data).scales
          (GR2_D4nK16uC15u_view.ctor binary32Ops quat data).offsets).get? (swizzle_next (swizzle_next k)) = some dy ∧
        Binary32.isFinite dy = true ∧
        |(Binary32.toRat dy : K) - qv (swizzle_next (swizzle_next k))| ≤
          |(Binary32.toRat (rd binary32Ops (GR2_D4nK16uC15u_view.ctor binary32Ops quat data).scales (swizzle_next (swizzle_next k))) : K)|) ∧
      ((decode_D4nK16uC15u binary32Ops quat a b c (GR2_D4nK16uC15u_view.ctor binary32Ops quat data).scales
          (GR2_D4nK16uC15u_view.ctor binary32Ops quat data).offsets).get? (swizzle_next (swizzle_next (swizzle_next k))) = some dz ∧
        Binary32.isFinite dz = true ∧
        |(Binary32.toRat dz : K) - qv (swizzle_next (swizzle_next (swizzle_next k)))| ≤
          |(Binary32.toRat (rd binary32Ops (GR2_D4nK16uC15u_view.ctor binary32Ops quat data).scales (swizzle_next (swizzle_next (swizzle_next k)))) : K)|) ∧
      (decode_D4nK16uC15u binary32Ops quat a b c (GR2_D4nK16uC15u_view.ctor binary32Ops quat data).scales
          (GR2_D4nK16uC15u_view.ctor binary32Ops quat data).offsets).get? k = some (if qv k < 0 then
          binary32Ops.neg (binary32Ops.sqrtf (binary32Ops.sub (binary32Ops.ofInt 1)
            (binary32Ops.add (binary32Ops.add (binary32Ops.mul dx dx) (binary32Ops.mul dy dy))
              (binary32Ops.mul dz dz))))
        else binary32Ops.sqrtf (binary32Ops.sub (binary32Ops.ofInt 1)
            (binary32Ops.add (binary32Ops.add (binary32Ops.mul dx dx) (binary32Ops.mul dy dy))
              (binary32Ops.mul dz dz)))) ∧
      ((if qv k < 0 then
          binary32Ops.neg (binary32Ops.sqrtf (binary32Ops.sub (binary32Ops.ofInt 1)
            (binary32Ops.add (binary32Ops.add (binary32Ops.mul dx dx) (binary32Ops.mul dy dy))
              (binary32Ops.mul dz dz))))
        else binary32Ops.sqrtf (binary32Ops.sub (binary32Ops.ofInt 1)
            (binary32Ops.add (binary32Ops.add (binary32Ops.mul dx dx) (binary32Ops.mul dy dy))
              (binary32Ops.mul dz dz)))) = Binary32.nan ∨
        (Binary32.signBit (if qv k < 0 then
          binary32Ops.neg (binary32Ops.sqrtf (binary32Ops.sub (binary32Ops.ofInt 1)
            (binary32Ops.add (binary32Ops.add (binary32Ops.mul dx dx) (binary32Ops.mul dy dy))
              (binary32Ops.mul dz dz))))
        else binary32Ops.sqrtf (binary32Ops.sub (binary32Ops.ofInt 1)
            (binary32Ops.add (binary32Ops.add (binary32Ops.mul dx dx) (binary32Ops.mul dy dy))
              (binary32Ops.mul dz dz)))) = true ↔ qv k < 0)) := by
  have l2 : swizzle_next k < 4 := swizzle_next_lt _
  have l3 : swizzle_next (swizzle_next k) < 4 := swizzle_next_lt _
  have l4 : swizzle_next (swizzle_next (swizzle_next k)) < 4 := swizzle_next_lt _
  have n2 : swizzle_next k ≠ k := by rw [swizzle_next_eq]; omega
  have n3 : swizzle_next (swizzle_next k) ≠ k := by
    rw [swizzle_next_eq, swizzle_next_eq]; omega
  have n4 : swizzle_next (swizzle_next (swizzle_next k)) ≠ k := by
    rw [swizzle_next_eq, swizzle_next_eq, swizzle_next_eq]; omega
  obtain ⟨c2a, c2b⟩ := hcover _ l2 n2
  obtain ⟨c3a, c3b⟩ := hcover _ l3 n3
  obtain ⟨c4a, c4b⟩ := hcover _ l4 n4
  obtain ⟨ss2, so2, ns2, no2, es2, eo2, b2a, b2b, b2c⟩ := view16_axis quat data _ l2
  obtain ⟨ss3, so3, ns3, no3, es3, eo3, b3a, b3b, b3c⟩ := view16_axis quat data _ l3
  obtain ⟨ss4, so4, ns4, no4, es4, eo4, b4a, b4b, b4c⟩ := view16_axis quat data _ l4
  rw [es2, eo2] at c2a c2b
  rw [es3, eo3] at c3a c3b
  rw [es4, eo4] at c4a c4b
  obtain ⟨ma, hma, na, da, ea, fa, ta⟩ :=
    axis_round_trip K ss2 so2 ns2 no2 _ b2a b2b b2c c2a c2b
  obtain ⟨mb, hmb, nb, db, eb, fb, tb⟩ :=
    axis_round_trip K ss3 so3 ns3 no3 _ b3a b3b b3c c3a c3b
  obtain ⟨mc, hmc, nc, dc, ec, fc, tc⟩ :=
    axis_round_trip K ss4 so4 ns4 no4 _ b4a b4b b4c c4a c4b
  have hflag : (if qv k < 0 then 1 else 0 : Nat) ≤ 1 := by split <;> omega
  obtain ⟨pa1, pa2, pa3⟩ := packed_value (if qv k < 0 then 1 else 0) ma hflag hma
  obtain ⟨pb1, pb2, pb3⟩ := packed_value (k / 2) mb (by omega) hmb
  obtain ⟨pc1, pc2, pc3⟩ := packed_value (k % 2) mc (by omega) hmc
  have hsw : D4nK16uC15u.swizzle1 ((k / 2) * 32768 + mb) ((k % 2) * 32768 + mc) = k := by
    rw [swizzle1_16_eq _ _ pc1, pb3, pc3]
    omega
  have hbit : (((if qv k < 0 then 1 else 0 : Nat) * 32768 + ma).testBit 15 = true ↔
      qv k < 0) := by
    by_cases hq : qv k < 0
    · simp only [hq, if_true] at pa3 ⊢
      cases ht : (1 * 32768 + ma).testBit 15
      · rw [ht] at pa3; simp at pa3
      · simp
    · simp only [hq, if_false] at pa3 ⊢
      cases ht : (0 * 32768 + ma).testBit 15
      · simp
      · rw [ht] at pa3; simp at pa3
  have hs := decode16_slots binary32Ops quat
    ((if qv k < 0 then 1 else 0 : Nat) * 32768 + ma) ((k / 2) * 32768 + mb)
    ((k % 2) * 32768 + mc) (GR2_D4nK16uC15u_view.ctor binary32Ops quat data).scales
    (GR2_D4nK16uC15u_view.ctor binary32Ops quat data).offsets pc1
  simp only [hsw] at hs
  obtain ⟨h2, h3, h4, h1, -⟩ := hs
  have e2 : ((if qv k < 0 then 1 else 0 : Nat) * 32768 + ma) &&& 0x7fff = ma := pa2
  have e3 : ((k / 2) * 32768 + mb) &&& 0x7fff = mb := pb2
  have e4 : ((k % 2) * 32768 + mc) &&& 0x7fff = mc := pc2
  rw [e2, es2, eo2, ea] at h2
  rw [e3, es3, eo3, eb] at h3
  rw [e4, es4, eo4, ec] at h4
  rw [e2, e3, e4, es2, eo2, es3, eo3, es4, eo4, ea, eb, ec] at h1
  have hsign := completion_sign
    (binary32Ops.add (binary32Ops.add (binary32Ops.mul da da) (binary32Ops.mul db db))
      (binary32Ops.mul dc dc)) (decide (qv k < 0))
  simp only [decide_eq_true_eq] at hsign
  refine ⟨_, _, _, da, db, dc, ⟨pa1, pb1, pc1⟩, hbit, ⟨hsw, pb3, pc3⟩, ⟨?_, ?_, ?_⟩,
    ⟨h2, fa, ?_⟩, ⟨h3, fb, ?_⟩, ⟨h4, fc, ?_⟩, ?_, ?_⟩
  · rw [pa2, es2, eo2]
    exact na
  · rw [pb2, es3, eo3]
    exact nb
  · rw [pc2, es4, eo4]
    exact nc
  · rw [es2]
    exact ta
  · rw [es3]
    exact tb
  · rw [es4]
    exact tc
  · rw [h1]
    simp only [hbit]
  · rcases hsign with hn | hb
    · exact Or.inl hn
    · right
      rw [hb]
      simp

/-- The scale and the offset of every axis of the 16-bit view for the selector mask 0, and
their values: 11863645 * 2^-38 (about 4.316e-5) and -11863283 * 2^-24 (about -0.70710677). -/
theorem view16_mask_zero (quat : Vector4 Binary32) (s : Binary32) (N : Nat) (buf : Nat → Nat)
    (i : Nat) (hi : i < 4) :
    rd binary32Ops (GR2_D4nK16uC15u_view.ctor binary32Ops quat
        { scale_offset_table_entries := 0, one_over_knot_scale := s,
          knots_controls_count := N, knots_controls := buf }).scales i =
      Binary32.ofBits 0x3835065D ∧
    rd binary32Ops (GR2_D4nK16uC15u_view.ctor binary32Ops quat
        { scale_offset_table_entries := 0, one_over_knot_scale := s,
          knots_controls_count := N, knots_controls := buf }).offsets i =
      Binary32.ofBits 0xBF3504F3 ∧
    Binary32.toRat (Binary32.ofBits 0x3835065D) = 11863645 / 2 ^ 38 ∧
    Binary32.toRat (Binary32.ofBits 0xBF3504F3) = -11863283 / 2 ^ 24 := by
  obtain ⟨-, -, -, -, -, es, eo, -⟩ := D4nK16uC15u_view_fields binary32Ops quat
    { scale_offset_table_entries := 0, one_over_knot_scale := s,
      knots_controls_count := N, knots_controls := buf }
  obtain ⟨m16, -, mo⟩ := mask_zero_binary32
  have t1 : Binary32.ofBits 0x3835065D = Binary32.fin false (11863645 * 2 ^ 111) := by decide
  have t2 : Binary32.ofBits 0xBF3504F3 = Binary32.fin true (11863283 * 2 ^ 125) := by decide
  refine ⟨?_, ?_, ?_, ?_⟩
  · rw [es, m16]
    interval_cases i <;> rfl
  · rw [eo, mo]
    interval_cases i <;> rfl
  · rw [t1, toRat_fin]
    norm_num
  · rw [t2, toRat_fin]
    norm_num

/-- C14 over the rationals for the unit quaternion q = (1/2, 1/2, 1/2, 1/2), the dropped
slot 0 and the selector mask 0, whose range [-0.70710677, 0.70710677] covers 1/2 on every
axis. -/
theorem round_trip_within_step_witness :
    (0 : Nat) < 4 ∧
    (∀ i, i < 4 → i ≠ 0 →
      0 ≤ ((1 / 2 : ℚ) - (Binary32.toRat (rd binary32Ops (GR2_D4nK16uC15u_view.ctor binary32Ops
        ⟨binary32Ops.ofInt 0, binary32Ops.ofInt 0, binary32Ops.ofInt 0, binary32Ops.ofInt 0⟩
        { scale_offset_table_entries := 0, one_over_knot_scale := binary32Ops.ofInt 1,
          knots_controls_count := 3,
          knots_controls := fun i => [27968, 27968, 27968].getD i 0 }).offsets i) : ℚ)) /
        (Binary32.toRat (rd binary32Ops (GR2_D4nK16uC15u_view.ctor binary32Ops
        ⟨binary32Ops.ofInt 0, binary32Ops.ofInt 0, binary32Ops.ofInt 0, binary32Ops.ofInt 0⟩
        { scale_offset_table_entries := 0, one_over_knot_scale := binary32Ops.ofInt 1,
          knots_controls_count := 3,
          knots_controls := fun i => [27968, 27968, 27968].getD i 0 }).scales i) : ℚ) ∧
      ((1 / 2 : ℚ) - (Binary32.toRat (rd binary32Ops (GR2_D4nK16uC15u_view.ctor binary32Ops
        ⟨binary32Ops.ofInt 0, binary32Ops.ofInt 0, binary32Ops.ofInt 0, binary32Ops.ofInt 0⟩
        { scale_offset_table_entries := 0, one_over_knot_scale := binary32Ops.ofInt 1,
          knots_controls_count := 3,
          knots_controls := fun i => [27968, 27968, 27968].getD i 0 }).offsets i) : ℚ)) /
        (Binary32.toRat (rd binary32Ops (GR2_D4nK16uC15u_view.ctor binary32Ops
        ⟨binary32Ops.ofInt 0, binary32Ops.ofInt 0, binary32Ops.ofInt 0, binary32Ops.ofInt 0⟩
        { scale_offset_table_entries := 0, one_over_knot_scale := binary32Ops.ofInt 1,
          knots_controls_count := 3,
          knots_controls := fun i => [27968, 27968, 27968].getD i 0 }).scales i) : ℚ) ≤ 32767) ∧
    ∃ a b c : Nat, ∃ dx dy dz : Binary32,
      (a < 65536 ∧ b < 65536 ∧ c < 65536) ∧ D4nK16uC15u.swizzle1 b c = 0 ∧
      ((decode_D4nK16uC15u binary32Ops ⟨binary32Ops.ofInt 0, binary32Ops.ofInt 0, binary32Ops.ofInt 0, binary32Ops.ofInt 0⟩ a b c
          (GR2_D4nK16uC15u_view.ctor binary32Ops
        ⟨binary32Ops.ofInt 0, binary32Ops.ofInt 0, binary32Ops.ofInt 0, binary32Ops.ofInt 0⟩
        { scale_offset_table_entries := 0, one_over_knot_scale := binary32Ops.ofInt 1,
          knots_controls_count := 3,
          knots_controls := fun i => [27968, 27968, 27968].getD i 0 }).scales
          (GR2_D4nK16uC15u_view.ctor binary32Ops
        ⟨binary32Ops.ofInt 0, binary32Ops.ofInt 0, binary32Ops.ofInt 0, binary32Ops.ofInt 0⟩
        { scale_offset_table_entries := 0, one_over_knot_scale := binary32Ops.ofInt 1,
          knots_controls_count := 3,
          knots_controls := fun i => [27968, 27968, 27968].getD i 0 }).offsets).get? 1 = some dx ∧
        Binary32.isFinite dx = true ∧
        |Binary32.toRat dx - 1 / 2| ≤ |Binary32.toRat (Binary32.ofBits 0x3835065D)|) ∧
      ((decode_D4nK16uC15u binary32Ops ⟨binary32Ops.ofInt 0, binary32Ops.ofInt 0, binary32Ops.ofInt 0, binary32Ops.ofInt 0⟩ a b c
          (GR2_D4nK16uC15u_view.ctor binary32Ops
        ⟨binary32Ops.ofInt 0, binary32Ops.ofInt 0, binary32Ops.ofInt 0, binary32Ops.ofInt 0⟩
        { scale_offset_table_entries := 0, one_over_knot_scale := binary32Ops.ofInt 1,
          knots_controls_count := 3,
          knots_controls := fun i => [27968, 27968, 27968].getD i 0 }).scales
          (GR2_D4nK16uC15u_view.ctor binary32Ops
        ⟨binary32Ops.ofInt 0, binary32Ops.ofInt 0, binary32Ops.ofInt 0, binary32Ops.ofInt 0⟩
        { scale_offset_table_entries := 0, one_over_knot_scale := binary32Ops.ofInt 1,
          knots_controls_count := 3,
          knots_controls := fun i => [27968, 27968, 27968].getD i 0 }).offsets).get? 2 = some dy ∧
        Binary32.isFinite dy = true ∧
        |Binary32.toRat dy - 1 / 2| ≤ |Binary32.toRat (Binary32.ofBits 0x3835065D)|) ∧
      ((decode_D4nK16uC15u binary32Ops ⟨binary32Ops.ofInt 0, binary32Ops.ofInt 0, binary32Ops.ofInt 0, binary32Ops.ofInt 0⟩ a b c
          (GR2_D4nK16uC15u_view.ctor binary32Ops
        ⟨binary32Ops.ofInt 0, binary32Ops.ofInt 0, binary32Ops.ofInt 0, binary32Ops.ofInt 0⟩
        { scale_offset_table_entries := 0, one_over_knot_scale := binary32Ops.ofInt 1,
          knots_controls_count := 3,
          knots_controls := fun i => [27968, 27968, 27968].getD i 0 }).scales
          (GR2_D4nK16uC15u_view.ctor binary32Ops
        ⟨binary32Ops.ofInt 0, binary32Ops.ofInt 0, binary32Ops.ofInt 0, binary32Ops.ofInt 0⟩
        { scale_offset_table_entries := 0, one_over_knot_scale := binary32Ops.ofInt 1,
          knots_controls_count := 3,
          knots_controls := fun i => [27968, 27968, 27968].getD i 0 }).offsets).get? 3 = some dz ∧
        Binary32.isFinite dz = true ∧
        |Binary32.toRat dz - 1 / 2| ≤ |Binary32.toRat (Binary32.ofBits 0x3835065D)|) := by
  have hcover : ∀ i, i < 4 → i ≠ 0 →
      0 ≤ ((fun _ => (1 / 2 : ℚ)) i - (Binary32.toRat (rd binary32Ops (GR2_D4nK16uC15u_view.ctor binary32Ops
        ⟨binary32Ops.ofInt 0, binary32Ops.ofInt 0, binary32Ops.ofInt 0, binary32Ops.ofInt 0⟩
        { scale_offset_table_entries := 0, one_over_knot_scale := binary32Ops.ofInt 1,
          knots_controls_count := 3,
          knots_controls := fun i => [27968, 27968, 27968].getD i 0 }).offsets i) : ℚ)) /
        (Binary32.toRat (rd binary32Ops (GR2_D4nK16uC15u_view.ctor binary32Ops
        ⟨binary32Ops.ofInt 0, binary32Ops.ofInt 0, binary32Ops.ofInt 0, binary32Ops.ofInt 0⟩
        { scale_offset_table_entries := 0, one_over_knot_scale := binary32Ops.ofInt 1,
          knots_controls_count := 3,
          knots_controls := fun i => [27968, 27968, 27968].getD i 0 }).scales i) : ℚ) ∧
      ((fun _ => (1 / 2 : ℚ)) i - (Binary32.toRat (rd binary32Ops (GR2_D4nK16uC15u_view.ctor binary32Ops
        ⟨binary32Ops.ofInt 0, binary32Ops.ofInt 0, binary32Ops.ofInt 0, binary32Ops.ofInt 0⟩
        { scale_offset_table_entries := 0, one_over_knot_scale := binary32Ops.ofInt 1,
          knots_controls_count := 3,
          knots_controls := fun i => [27968, 27968, 27968].getD i 0 }).offsets i) : ℚ)) /
        (Binary32.toRat (rd binary32Ops (GR2_D4nK16uC15u_view.ctor binary32Ops
        ⟨binary32Ops.ofInt 0, binary32Ops.ofInt 0, binary32Ops.ofInt 0, binary32Ops.ofInt 0⟩
        { scale_offset_table_entries := 0, one_over_knot_scale := binary32Ops.ofInt 1,
          knots_controls_count := 3,
          knots_controls := fun i => [27968, 27968, 27968].getD i 0 }).scales i) : ℚ) ≤ 32767 := by
    intro i hi _
    obtain ⟨e1, e2, v1, v2⟩ := view16_mask_zero ⟨binary32Ops.ofInt 0, binary32Ops.ofInt 0, binary32Ops.ofInt 0, binary32Ops.ofInt 0⟩ (binary32Ops.ofInt 1) 3
      (fun i => [27968, 27968, 27968].getD i 0) i hi
    rw [e1, e2, v1, v2]
    norm_num
  obtain ⟨a, b, c, dx, dy, dz, hlt, -, ⟨hsw, -⟩, -, hx, hy, hz, -⟩ :=
    round_trip_within_step ℚ ⟨binary32Ops.ofInt 0, binary32Ops.ofInt 0, binary32Ops.ofInt 0, binary32Ops.ofInt 0⟩
      { scale_offset_table_entries := 0, one_over_knot_scale := binary32Ops.ofInt 1,
        knots_controls_count := 3,
        knots_controls := fun i => [27968, 27968, 27968].getD i 0 }
      (fun _ => (1 / 2 : ℚ)) 0 (by decide) hcover
  have n0 : swizzle_next 0 = 1 := by decide
  have n1 : swizzle_next 1 = 2 := by decide
  have n2 : swizzle_next 2 = 3 := by decide
  rw [n0] at hx hy hz
  rw [n1] at hy hz
  rw [n2] at hz
  rw [(view16_mask_zero ⟨binary32Ops.ofInt 0, binary32Ops.ofInt 0, binary32Ops.ofInt 0, binary32Ops.ofInt 0⟩ (binary32Ops.ofInt 1) 3
      (fun i => [27968, 27968, 27968].getD i 0) 1 (by decide)).1] at hx
  rw [(view16_mask_zero ⟨binary32Ops.ofInt 0, binary32Ops.ofInt 0, binary32Ops.ofInt 0, binary32Ops.ofInt 0⟩ (binary32Ops.ofInt 1) 3
      (fun i => [27968, 27968, 27968].getD i 0) 2 (by decide)).1] at hy
  rw [(view16_mask_zero ⟨binary32Ops.ofInt 0, binary32Ops.ofInt 0, binary32Ops.ofInt 0, binary32Ops.ofInt 0⟩ (binary32Ops.ofInt 1) 3
      (fun i => [27968, 27968, 27968].getD i 0) 3 (by decide)).1] at hz
  refine ⟨by decide, ?_, a, b, c, dx, dy, dz, hlt, hsw, ?_, ?_, ?_⟩
  · exact hcover
  · simpa using hx
  · simpa using hy
  · simpa using hz

/-- The magnitude nearest to a value t on a grid of step S from the offset O, when t is
closer than half a step to the grid point of m0. -/
theorem nearest_unique (m m0 : Nat) (S O q : ℚ) (hS : 0 < S)
    (h : |(m : ℚ) * S + O - q| ≤ |S| / 2)
    (h0 : |(m0 : ℚ) * S + O - q| < S / 2) : m = m0 := by
  rw [abs_of_pos hS, abs_le] at h
  rw [abs_lt] at h0
  obtain ⟨h1, h2⟩ := h
  obtain ⟨h3, h4⟩ := h0
  have a1 : ((m : ℚ) - m0) * S < S := by linarith
  have a2 : -S < ((m : ℚ) - m0) * S := by linarith
  have b1 : (m : ℚ) - m0 < 1 := by
    by_contra hc
    push_neg at hc
    have := mul_le_mul_of_nonneg_right hc hS.le
    linarith
  have b2 : -1 < (m : ℚ) - m0 := by
    by_contra hc
    push_neg at hc
    have := mul_le_mul_of_nonneg_right hc hS.le
    linarith
  have c1 : (m : ℚ) < m0 + 1 := by linarith
  have c2 : (m0 : ℚ) < m + 1 := by linarith
  have d1 : m < m0 + 1 := by exact_mod_cast c1
  have d2 : m0 < m + 1 := by exact_mod_cast c2
  omega

/-- A 16-bit value with bit 15 clear is its own magnitude. -/
theorem magnitude_of_clear (x : Nat) (hx : x < 65536) (hb : x.testBit 15 = false) :
    D4nK16uC15u.magnitude x = x := by
  have h := testBit_top x 15 (by simpa using hx)
  rw [hb] at h
  rw [magnitude_16_eq]
  norm_num at h
  have h2 : x / 32768 = 0 := h.symm
  omega

/-- C14 fails on the code. q = (1/149, 100/149, 94/149, 58/149) is a unit quaternion and,
with the dropped slot 0, the range the view derives for the selector mask 0 covers its
stored components. The nearest quantised magnitudes are 31934, 31001, 25403, so the packed
values of the claim are a = 31934, b = 31001, c = 25403 and no others; in binary32 they
decode to the stored components 0x3F2BD0CD, 0x3F2181CB, 0x3EC74F8E, whose squares sum to
more than 1, and to a NaN in component 0: it does not have the sign of q[0] = 1/149. -/
theorem round_trip_counterexample :
    ((1 / 149 : ℚ) * (1 / 149) + (100 / 149) * (100 / 149) + (94 / 149) * (94 / 149) +
      (58 / 149) * (58 / 149) = 1) ∧
    ((0 ≤ ((100 / 149 : ℚ) - Binary32.toRat (rd binary32Ops (GR2_D4nK16uC15u_view.ctor binary32Ops
        ⟨binary32Ops.ofInt 0, binary32Ops.ofInt 0, binary32Ops.ofInt 0, binary32Ops.ofInt 0⟩
        { scale_offset_table_entries := 0, one_over_knot_scale := binary32Ops.ofInt 1,
          knots_controls_count := 3,
          knots_controls := fun i => [31934, 31001, 25403].getD i 0 }).offsets 1)) /
          Binary32.toRat (rd binary32Ops (GR2_D4nK16uC15u_view.ctor binary32Ops
        ⟨binary32Ops.ofInt 0, binary32Ops.ofInt 0, binary32Ops.ofInt 0, binary32Ops.ofInt 0⟩
        { scale_offset_table_entries := 0, one_over_knot_scale := binary32Ops.ofInt 1,
          knots_controls_count := 3,
          knots_controls := fun i => [31934, 31001, 25403].getD i 0 }).scales 1) ∧
        ((100 / 149 : ℚ) - Binary32.toRat (rd binary32Ops (GR2_D4nK16uC15u_view.ctor binary32Ops
        ⟨binary32Ops.ofInt 0, binary32Ops.ofInt 0, binary32Ops.ofInt 0, binary32Ops.ofInt 0⟩
        { scale_offset_table_entries := 0, one_over_knot_scale := binary32Ops.ofInt 1,
          knots_controls_count := 3,
          knots_controls := fun i => [31934, 31001, 25403].getD i 0 }).offsets 1)) /
          Binary32.toRat (rd binary32Ops (GR2_D4nK16uC15u_view.ctor binary32Ops
        ⟨binary32Ops.ofInt 0, binary32Ops.ofInt 0, binary32Ops.ofInt 0, binary32Ops.ofInt 0⟩
        { scale_offset_table_entries := 0, one_over_knot_scale := binary32Ops.ofInt 1,
          knots_controls_count := 3,
          knots_controls := fun i => [31934, 31001, 25403].getD i 0 }).scales 1) ≤ 32767) ∧
      (0 ≤ ((94 / 149 : ℚ) - Binary32.toRat (rd binary32Ops (GR2_D4nK16uC15u_view.ctor binary32Ops
        ⟨binary32Ops.ofInt 0, binary32Ops.ofInt 0, binary32Ops.ofInt 0, binary32Ops.ofInt 0⟩
        { scale_offset_table_entries := 0, one_over_knot_scale := binary32Ops.ofInt 1,
          knots_controls_count := 3,
          knots_controls := fun i => [31934, 31001, 25403].getD i 0 }).offsets 2)) /
          Binary32.toRat (rd binary32Ops (GR2_D4nK16uC15u_view.ctor binary32Ops
        ⟨binary32Ops.ofInt 0, binary32Ops.ofInt 0, binary32Ops.ofInt 0, binary32Ops.ofInt 0⟩
        { scale_offset_table_entries := 0, one_over_knot_scale := binary32Ops.ofInt 1,
          knots_controls_count := 3,
          knots_controls := fun i => [31934, 31001, 25403].getD i 0 }).scales 2) ∧
        ((94 / 149 : ℚ) - Binary32.toRat (rd binary32Ops (GR2_D4nK16uC15u_view.ctor binary32Ops
        ⟨binary32Ops.ofInt 0, binary32Ops.ofInt 0, binary32Ops.ofInt 0, binary32Ops.ofInt 0⟩
        { scale_offset_table_entries := 0, one_over_knot_scale := binary32Ops.ofInt 1,
          knots_controls_count := 3,
          knots_controls := fun i => [31934, 31001, 25403].getD i 0 }).offsets 2)) /
          Binary32.toRat (rd binary32Ops (GR2_D4nK16uC15u_view.ctor binary32Ops
        ⟨binary32Ops.ofInt 0, binary32Ops.ofInt 0, binary32Ops.ofInt 0, binary32Ops.ofInt 0⟩
        { scale_offset_table_entries := 0, one_over_knot_scale := binary32Ops.ofInt 1,
          knots_controls_count := 3,
          knots_controls := fun i => [31934, 31001, 25403].getD i 0 }).scales 2) ≤ 32767) ∧
      (0 ≤ ((58 / 149 : ℚ) - Binary32.toRat (rd binary32Ops (GR2_D4nK16uC15u_view.ctor binary32Ops
        ⟨binary32Ops.ofInt 0, binary32Ops.ofInt 0, binary32Ops.ofInt 0, binary32Ops.ofInt 0⟩
        { scale_offset_table_entries := 0, one_over_knot_scale := binary32Ops.ofInt 1,
          knots_controls_count := 3,
          knots_controls := fun i => [31934, 31001, 25403].getD i 0 }).offsets 3)) /
          Binary32.toRat (rd binary32Ops (GR2_D4nK16uC15u_view.ctor binary32Ops
        ⟨binary32Ops.ofInt 0, binary32Ops.ofInt 0, binary32Ops.ofInt 0, binary32Ops.ofInt 0⟩
        { scale_offset_table_entries := 0, one_over_knot_scale := binary32Ops.ofInt 1,
          knots_controls_count := 3,
          knots_controls := fun i => [31934, 31001, 25403].getD i 0 }).scales 3) ∧
        ((58 / 149 : ℚ) - Binary32.toRat (rd binary32Ops (GR2_D4nK16uC15u_view.ctor binary32Ops
        ⟨binary32Ops.ofInt 0, binary32Ops.ofInt 0, binary32Ops.ofInt 0, binary32Ops.ofInt 0⟩
        { scale_offset_table_entries := 0, one_over_knot_scale := binary32Ops.ofInt 1,
          knots_controls_count := 3,
          knots_controls := fun i => [31934, 31001, 25403].getD i 0 }).offsets 3)) /
          Binary32.toRat (rd binary32Ops (GR2_D4nK16uC15u_view.ctor binary32Ops
        ⟨binary32Ops.ofInt 0, binary32Ops.ofInt 0, binary32Ops.ofInt 0, binary32Ops.ofInt 0⟩
        { scale_offset_table_entries := 0, one_over_knot_scale := binary32Ops.ofInt 1,
          knots_controls_count := 3,
          knots_controls := fun i => [31934, 31001, 25403].getD i 0 }).scales 3) ≤ 32767)) ∧
    (∀ a b c : Nat, a < 65536 → b < 65536 → c < 65536 →
      (a.testBit 15 = true ↔ (1 / 149 : ℚ) < 0) → D4nK16uC15u.swizzle1 b c = 0 →
      |(D4nK16uC15u.magnitude a : ℚ) * Binary32.toRat (rd binary32Ops (GR2_D4nK16uC15u_view.ctor binary32Ops
        ⟨binary32Ops.ofInt 0, binary32Ops.ofInt 0, binary32Ops.ofInt 0, binary32Ops.ofInt 0⟩
        { scale_offset_table_entries := 0, one_over_knot_scale := binary32Ops.ofInt 1,
          knots_controls_count := 3,
          knots_controls := fun i => [31934, 31001, 25403].getD i 0 }).scales 1) +
            Binary32.toRat (rd binary32Ops (GR2_D4nK16uC15u_view.ctor binary32Ops
        ⟨binary32Ops.ofInt 0, binary32Ops.ofInt 0, binary32Ops.ofInt 0, binary32Ops.ofInt 0⟩
        { scale_offset_table_entries := 0, one_over_knot_scale := binary32Ops.ofInt 1,
          knots_controls_count := 3,
          knots_controls := fun i => [31934, 31001, 25403].getD i 0 }).offsets 1) - 100 / 149| ≤
          |Binary32.toRat (rd binary32Ops (GR2_D4nK16uC15u_view.ctor binary32Ops
        ⟨binary32Ops.ofInt 0, binary32Ops.ofInt 0, binary32Ops.ofInt 0, binary32Ops.ofInt 0⟩
        { scale_offset_table_entries := 0, one_over_knot_scale := binary32Ops.ofInt 1,
          knots_controls_count := 3,
          knots_controls := fun i => [31934, 31001, 25403].getD i 0 }).scales 1)| / 2 →
      |(D4nK16uC15u.magnitude b : ℚ) * Binary32.toRat (rd binary32Ops (GR2_D4nK16uC15u_view.ctor binary32Ops
        ⟨binary32Ops.ofInt 0, binary32Ops.ofInt 0, binary32Ops.ofInt 0, binary32Ops.ofInt 0⟩
        { scale_offset_table_entries := 0, one_over_knot_scale := binary32Ops.ofInt 1,
          knots_controls_count := 3,
          knots_controls := fun i => [31934, 31001, 25403].getD i 0 }).scales 2) +
            Binary32.toRat (rd binary32Ops (GR2_D4nK16uC15u_view.ctor binary32Ops
        ⟨binary32Ops.ofInt 0, binary32Ops.ofInt 0, binary32Ops.ofInt 0, binary32Ops.ofInt 0⟩
        { scale_offset_table_entries := 0, one_over_knot_scale := binary32Ops.ofInt 1,
          knots_controls_count := 3,
          knots_controls := fun i => [31934, 31001, 25403].getD i 0 }).offsets 2) - 94 / 149| ≤
          |Binary32.toRat (rd binary32Ops (GR2_D4nK16uC15u_view.ctor binary32Ops
        ⟨binary32Ops.ofInt 0, binary32Ops.ofInt 0, binary32Ops.ofInt 0, binary32Ops.ofInt 0⟩
        { scale_offset_table_entries := 0, one_over_knot_scale := binary32Ops.ofInt 1,
          knots_controls_count := 3,
          knots_controls := fun i => [31934, 31001, 25403].getD i 0 }).scales 2)| / 2 →
      |(D4nK16uC15u.magnitude c : ℚ) * Binary32.toRat (rd binary32Ops (GR2_D4nK16uC15u_view.ctor binary32Ops
        ⟨binary32Ops.ofInt 0, binary32Ops.ofInt 0, binary32Ops.ofInt 0, binary32Ops.ofInt 0⟩
        { scale_offset_table_entries := 0, one_over_knot_scale := binary32Ops.ofInt 1,
          knots_controls_count := 3,
          knots_controls := fun i => [31934, 31001, 25403].getD i 0 }).scales 3) +
            Binary32.toRat (rd binary32Ops (GR2_D4nK16uC15u_view.ctor binary32Ops
        ⟨binary32Ops.ofInt 0, binary32Ops.ofInt 0, binary32Ops.ofInt 0, binary32Ops.ofInt 0⟩
        { scale_offset_table_entries := 0, one_over_knot_scale := binary32Ops.ofInt 1,
          knots_controls_count := 3,
          knots_controls := fun i => [31934, 31001, 25403].getD i 0 }).offsets 3) - 58 / 149| ≤
          |Binary32.toRat (rd binary32Ops (GR2_D4nK16uC15u_view.ctor binary32Ops
        ⟨binary32Ops.ofInt 0, binary32Ops.ofInt 0, binary32Ops.ofInt 0, binary32Ops.ofInt 0⟩
        { scale_offset_table_entries := 0, one_over_knot_scale := binary32Ops.ofInt 1,
          knots_controls_count := 3,
          knots_controls := fun i => [31934, 31001, 25403].getD i 0 }).scales 3)| / 2 →
      a = 31934 ∧ b = 31001 ∧ c = 25403) ∧
    decode_D4nK16uC15u binary32Ops ⟨binary32Ops.ofInt 0, binary32Ops.ofInt 0, binary32Ops.ofInt 0, binary32Ops.ofInt 0⟩ 31934 31001 25403
        (GR2_D4nK16uC15u_view.ctor binary32Ops
        ⟨binary32Ops.ofInt 0, binary32Ops.ofInt 0, binary32Ops.ofInt 0, binary32Ops.ofInt 0⟩
        { scale_offset_table_entries := 0, one_over_knot_scale := binary32Ops.ofInt 1,
          knots_controls_count := 3,
          knots_controls := fun i => [31934, 31001, 25403].getD i 0 }).scales
        (GR2_D4nK16uC15u_view.ctor binary32Ops
        ⟨binary32Ops.ofInt 0, binary32Ops.ofInt 0, binary32Ops.ofInt 0, binary32Ops.ofInt 0⟩
        { scale_offset_table_entries := 0, one_over_knot_scale := binary32Ops.ofInt 1,
          knots_controls_count := 3,
          knots_controls := fun i => [31934, 31001, 25403].getD i 0 }).offsets =
      ⟨Binary32.nan, Binary32.ofBits 0x3F2BD0CD, Binary32.ofBits 0x3F2181CB,
        Binary32.ofBits 0x3EC74F8E⟩ ∧
    (GR2_D4nK16uC15u_view.ctor binary32Ops
        ⟨binary32Ops.ofInt 0, binary32Ops.ofInt 0, binary32Ops.ofInt 0, binary32Ops.ofInt 0⟩
        { scale_offset_table_entries := 0, one_over_knot_scale := binary32Ops.ofInt 1,
          knots_controls_count := 3,
          knots_controls := fun i => [31934, 31001, 25403].getD i 0 }).controls =
      [⟨Binary32.nan, Binary32.ofBits 0x3F2BD0CD, Binary32.ofBits 0x3F2181CB,
        Binary32.ofBits 0x3EC74F8E⟩] := by
  have hv := fun i hi => view16_mask_zero ⟨binary32Ops.ofInt 0, binary32Ops.ofInt 0, binary32Ops.ofInt 0, binary32Ops.ofInt 0⟩ (binary32Ops.ofInt 1) 3
    (fun i => [31934, 31001, 25403].getD i 0) i hi
  obtain ⟨e1s, e1o, v1, v2⟩ := hv 1 (by decide)
  obtain ⟨e2s, e2o, -⟩ := hv 2 (by decide)
  obtain ⟨e3s, e3o, -⟩ := hv 3 (by decide)
  obtain ⟨-, -, -, ec, -, es, eo, -⟩ := D4nK16uC15u_view_fields binary32Ops ⟨binary32Ops.ofInt 0, binary32Ops.ofInt 0, binary32Ops.ofInt 0, binary32Ops.ofInt 0⟩
    { scale_offset_table_entries := 0, one_over_knot_scale := binary32Ops.ofInt 1,
      knots_controls_count := 3,
      knots_controls := fun i => [31934, 31001, 25403].getD i 0 }
  obtain ⟨m16, -, mo⟩ := mask_zero_binary32
  have hS : (0 : ℚ) < 11863645 / 2 ^ 38 := by norm_num
  refine ⟨by norm_num, ⟨?_, ?_, ?_⟩, ?_, ?_, ?_⟩
  · rw [e1s, e1o, v1, v2]
    norm_num
  · rw [e2s, e2o, v1, v2]
    norm_num
  · rw [e3s, e3o, v1, v2]
    norm_num
  · intro a b c ha hb hc hsign hsw na nb nc
    rw [e1s, e1o, v1, v2] at na
    rw [e2s, e2o, v1, v2] at nb
    rw [e3s, e3o, v1, v2] at nc
    have ta : a.testBit 15 = false := by
      cases h : a.testBit 15
      · rfl
      · exact absurd (hsign.1 h) (by norm_num)
    rw [swizzle1_16_eq b c hc] at hsw
    have tb : b.testBit 15 = false := by
      cases h : b.testBit 15
      · rfl
      · rw [h] at hsw
        simp at hsw
    have tc : c.testBit 15 = false := by
      cases h : c.testBit 15
      · rfl
      · rw [h] at hsw
        simp at hsw
    rw [magnitude_of_clear a ha ta] at na
    rw [magnitude_of_clear b hb tb] at nb
    rw [magnitude_of_clear c hc tc] at nc
    refine ⟨nearest_unique a 31934 _ _ _ hS na ?_, nearest_unique b 31001 _ _ _ hS nb ?_,
      nearest_unique c 25403 _ _ _ hS nc ?_⟩
    · rw [abs_lt]
      constructor <;> norm_num
    · rw [abs_lt]
      constructor <;> norm_num
    · rw [abs_lt]
      constructor <;> norm_num
  · rw [es, eo, m16, mo]
    decide
  · rw [GR2_D4nK16uC15u_view.controls, ec]
    simp only [m16, mo]
    decide

end Gr2
